import Mathlib

/-!
# goki: a shallow embedding of the cluster lifecycle orchestrator

The Go program drives `docker` (and, for the node identity check, a PostgreSQL
connection) and prints to the standard and error streams.  The embedding makes
every such effect an `Event` appended to a chronological trace, and takes the
answers of the outside world from an `Env`: a response function that may depend
on everything that happened before (the trace so far) and on the command issued.

Go `int` values are modelled as `Int`.  The only arithmetic the program performs
on them is the loop increment `i++` and `i % 3`; every counted loop over
`createCmdFlags.node` runs only after `checkNumOfNode` has bounded the count by 9,
so no 64-bit wrap-around is reachable.
-/

namespace Goki

/-! ## Constants (`common.go`) -/

abbrev crdbContainerImage : String := "cockroachdb/cockroach"
abbrev crdbVersion : String := "v22.2.0"
abbrev gokiResourceName : String := "goki"
abbrev gokiSqlIp : String := "127.0.0.1"
abbrev gokiSqlPort : String := "26257"
abbrev gokiWebUiIp : String := "127.0.0.1"
abbrev gokiWebUiPort : String := "8081"
abbrev gokiNonRootUserName : String := "goki"
abbrev gokiNonRootUserPassword : String := "goki"
abbrev gokiRootUserPassword : String := "gokiroot"
abbrev gokiResourceLabel : String := "goki"

/-! ## Effects -/

/-- One observable effect of the program, in the order it happens. -/
inductive Event where
  /-- The call `exec.Command("docker", args...).CombinedOutput()`. -/
  | exec (args : List String)
  /-- The call `sql.Open("postgres", connStr)`. -/
  | sqlOpen (connStr : String)
  /-- The call `db.Query(query, g)`. -/
  | sqlQuery (query : String) (g : Int)
  /-- The call `time.Sleep(time.Second * seconds)`. -/
  | sleep (seconds : Nat)
  /-- Text written to the standard stream. -/
  | stdout (text : String)
  /-- Text written to the error stream. -/
  | stderr (text : String)
  deriving DecidableEq

/-- What `CombinedOutput` returns: the combined output and the error (`none` is `nil`). -/
abbrev CmdResult := String × Option String

/-- One row delivered by `rows.Next()` / `rows.Scan(&id, &address)`: the scanned pair or
the scan error. -/
abbrev Row := Except String (Int × String)

/-- The outside world: the container tool and the database driver.  Each answer may
depend on the whole history of effects so far. -/
structure Env where
  docker : List Event → List String → CmdResult
  sqlOpen : List Event → String → Option String
  sqlQuery : List Event → String → Int → Except String (List Row)

/-- The process state: the effect trace and the package-level variables of `create.go`. -/
structure State where
  trace : List Event
  gokiVolumeAlreadyExist : Bool
  gokiRegionId : Int
  gokiZoneId : Int
  deriving DecidableEq

/-- The state of a freshly started process: Go zero values and the declared initialisers. -/
def State.init : State :=
  { trace := [], gokiVolumeAlreadyExist := false, gokiRegionId := 0, gokiZoneId := 0 }

/-- Append one effect to the trace. -/
def State.emit (s : State) (e : Event) : State :=
  { s with trace := s.trace ++ [e] }

/-- Write to the standard stream. -/
def State.out (s : State) (text : String) : State := s.emit (Event.stdout text)

/-- Write to the error stream. -/
def State.err (s : State) (text : String) : State := s.emit (Event.stderr text)

/-- The answer of the container tool to `docker args...` issued in state `s`. -/
def State.ask (env : Env) (s : State) (args : List String) : CmdResult :=
  env.docker s.trace args

/-- The state after `docker args...` has been issued. -/
def State.ran (s : State) (args : List String) : State := s.emit (Event.exec args)

/-- A Go function returning `error`: the error (`none` is `nil`) and the state it leaves. -/
abbrev Step := State → Option String × State

/-- The Go conversion `strconv.Itoa`. -/
def itoa (i : Int) : String := toString i

/-- The Go call `strings.FieldsFunc(s, f)` on the characters of `s`: the maximal runs of
characters not satisfying `f`; `cur` is the run being read, reversed. -/
def fieldsAux (f : Char → Bool) : List Char → List Char → List String
  | [], cur => if cur = [] then [] else [String.mk cur.reverse]
  | c :: cs, cur =>
    if f c then
      (if cur = [] then fieldsAux f cs [] else String.mk cur.reverse :: fieldsAux f cs [])
    else fieldsAux f cs (c :: cur)

/-- The Go call `strings.FieldsFunc(s, f)`. -/
def fieldsFunc (s : String) (f : Char → Bool) : List String := fieldsAux f s.data []

/-- The counted loop `for i := lo; ...; i++ { body }` with `k` iterations left; an error
returned by the body leaves the loop (and the function) at once. -/
def loopFrom (body : Int → Step) : Nat → Int → Step
  | 0, _, s => (none, s)
  | k + 1, i, s =>
    match body i s with
    | (some e, s1) => (some e, s1)
    | (none, s1) => loopFrom body k (i + 1) s1

/-- The loop `for i := lo; i <= hi; i++ { body }`: it runs `hi + 1 - lo` times (never, when
that is not positive). -/
def forRange (lo hi : Int) (body : Int → Step) : Step :=
  loopFrom body (hi + 1 - lo).toNat lo

/-- The Go idiom `if err := a(); err != nil { return err }` followed by `b`: run `a` and,
unless it returned an error, go on with `b`. -/
def andThen (a b : Step) : Step := fun s =>
  match a s with
  | (some e, s1) => (some e, s1)
  | (none, s1) => b s1

/-- A straight-line sequence of error-checked calls, ending with `return nil`. -/
def seqSteps : List Step → Step
  | [] => fun s => (none, s)
  | a :: rest => andThen a (seqSteps rest)

/-- A `fmt.Println`/`fmt.Printf` to the standard stream, as a step that cannot fail. -/
def say (text : String) : Step := fun s => (none, s.out text)

/-! ## `create.go` -/

/-- Flag values of the create command. -/
structure CreateCmdFlags where
  node : Int
  crdbVersion : String
  locality : Bool
  deriving DecidableEq

def checkDockerArgs : List String := ["version"]

def checkDocker (env : Env) : Step := fun s =>
  let r := s.ask env checkDockerArgs
  let s1 := s.ran checkDockerArgs
  match r.2 with
  | some e =>
    (some e, (s1.err "ERROR: Goki needs Docker. Please install Docker.\n").err
      ("HINT: docker version command failed: " ++ r.1 ++ "\n"))
  | none => (none, s1)

def checkGokiContainerArgs : List String :=
  ["ps", "-af", "label=" ++ gokiResourceLabel, "--format", "\x7b\x7b.ID\x7d\x7d : \x7b\x7b.Names\x7d\x7d"]

/-- The test `len(output) != 0` is the test that the output is not the empty string. -/
def checkGokiContainer (env : Env) : Step := fun s =>
  let r := s.ask env checkGokiContainerArgs
  let s1 := s.ran checkGokiContainerArgs
  match r.2 with
  | some e => (some e, s1.err ("docker ps commad failed: " ++ r.1 ++ "\n"))
  | none =>
    if r.1 ≠ "" then
      (some "maybe the Goki Cluster is already running",
        (((s1.out (r.1 ++ "\n")).err "ERROR: Maybe the Goki Cluster is already running.\n").err
          "HINT: The following Goki Container exists.\n").err (r.1 ++ "\n"))
    else (none, s1)

def checkGokiNetworkArgs : List String :=
  ["network", "ls", "-f", "label=" ++ gokiResourceLabel, "--format", "\x7b\x7b.ID\x7d\x7d : \x7b\x7b.Name\x7d\x7d"]

def checkGokiNetwork (env : Env) : Step := fun s =>
  let r := s.ask env checkGokiNetworkArgs
  let s1 := s.ran checkGokiNetworkArgs
  match r.2 with
  | some e => (some e, s1.err ("docker network ls commad failed: " ++ r.1 ++ "\n"))
  | none =>
    if r.1 ≠ "" then
      (some "maybe the Goki Cluster is already running",
        ((s1.err "ERROR: Maybe the Goki Cluster is already running.\n").err
          "HINT: The following Goki Network exists.\n").err (r.1 ++ "\n"))
    else (none, s1)

def checkGokiVolumeArgs : List String :=
  ["volume", "ls", "-f", "label=" ++ gokiResourceLabel, "--format", "\x7b\x7b.Name\x7d\x7d"]

def checkGokiVolume (env : Env) : Step := fun s =>
  let r := s.ask env checkGokiVolumeArgs
  let s1 := s.ran checkGokiVolumeArgs
  match r.2 with
  | some e => (some e, s1.err ("docker volume ls command failed: " ++ r.1 ++ "\n"))
  | none =>
    if r.1 ≠ "" then (none, { s1 with gokiVolumeAlreadyExist := true })
    else if r.1 = "" then (none, { s1 with gokiVolumeAlreadyExist := false })
    else (none, s1)

def checkNumOfNode (flags : CreateCmdFlags) : Step := fun s =>
  if flags.node < 1 ∨ 9 < flags.node then
    (some "invalid argument. Please specify the number of cockroaches between 1 and 9",
      (s.err "ERROR: Invalid argument. Please specify the number of cockroaches between 1 and 9.\n").err
        "HINT: The max number of cockroaches of Goki is 9.\n")
  else (none, s)

def createGokiNetworkArgs : List String :=
  ["network", "create", "-d", "bridge", gokiResourceName ++ "-net",
    "-o", "com.docker.network.bridge.name=" ++ gokiResourceName ++ "-net",
    "--label=" ++ gokiResourceLabel]

def createGokiNetwork (env : Env) : Step := fun s =>
  let s0 := s.out ("INFO: Creating Docker Network " ++ gokiResourceName ++ "-net start.\n")
  let r := s0.ask env createGokiNetworkArgs
  let s1 := s0.ran createGokiNetworkArgs
  match r.2 with
  | some e =>
    (some e, s1.err ("ERROR: docker network create command failed.\n Error is: " ++ r.1 ++ "\n"))
  | none =>
    (none, (s1.out ("INFO: Created docker network is: " ++ r.1)).out
      ("INFO: Creating Docker Network " ++ gokiResourceName ++ "-net done.\n"))

/-- The argv of `docker volume create` for the volume with the given suffix. -/
def volumeCreateArgs (suffix : String) : List String :=
  ["volume", "create", gokiResourceName ++ "-volume-" ++ suffix, "--label=" ++ gokiResourceLabel]

/-- One `docker volume create` with its error check, as it occurs twice in
`createGokiVolume`. -/
def createOneVolume (env : Env) (suffix : String) : Step := fun s =>
  let r := s.ask env (volumeCreateArgs suffix)
  let s1 := s.ran (volumeCreateArgs suffix)
  match r.2 with
  | some e =>
    (some e, s1.err ("ERROR: docker volume create command failed.\n Error is: " ++ r.1 ++ "\n"))
  | none => (none, s1.out ("INFO: Created docker volume is: " ++ r.1))

def createGokiVolume (env : Env) (flags : CreateCmdFlags) : Step :=
  seqSteps
    [say "INFO: Creating Docker Volume start.\n",
     createOneVolume env "client",
     forRange 1 flags.node (fun i => createOneVolume env (itoa i)),
     say "INFO: Creating Docker Volume done.\n"]

def createClientContainerArgs (flags : CreateCmdFlags) : List String :=
  ["run", "-d",
    "--name=" ++ gokiResourceName ++ "-client",
    "--hostname=" ++ gokiResourceName ++ "-client",
    "--network=" ++ gokiResourceName ++ "-net",
    "--mount=type=volume,src=" ++ gokiResourceName ++ "-volume-client,dst=/cockroach/certs",
    "--label=" ++ gokiResourceLabel,
    "--entrypoint=sleep",
    crdbContainerImage ++ ":" ++ flags.crdbVersion,
    "inf"]

def createClientContainer (env : Env) (flags : CreateCmdFlags) : Step := fun s =>
  let s0 := s.out "INFO: Creating client container start.\n"
  let r := s0.ask env (createClientContainerArgs flags)
  let s1 := s0.ran (createClientContainerArgs flags)
  match r.2 with
  | some e =>
    (some e, s1.err ("ERROR: docker run command that creating " ++ gokiResourceName ++
      "-client failed.\n Error is: " ++ r.1 ++ "\n"))
  | none =>
    (none, (s1.out ("INFO: Created client container is: " ++ r.1)).out
      "INFO: Creating client container done.\n")

/-- The recurring shape `if output, err := c.CombinedOutput(); err != nil { Fprintf(Stderr,
msg, output); return err }`: issue the command, and on failure print `pre ++ output ++ "\n"`
to the error stream and return the error. -/
def execOrFail (env : Env) (args : List String) (pre : String) : Step := fun s =>
  let r := s.ask env args
  let s1 := s.ran args
  match r.2 with
  | some e => (some e, s1.err (pre ++ r.1 ++ "\n"))
  | none => (none, s1)

def certMkSafeDirArgs : List String :=
  ["exec", gokiResourceName ++ "-client",
    "mkdir", "-p", "/cockroach/certs/node-certs/../.setup/my-safe-directory/"]

def certMkNodeDirArgs (i : Int) : List String :=
  ["exec", gokiResourceName ++ "-client",
    "mkdir", "-p", "/cockroach/certs/node-certs/" ++ gokiResourceName ++ "-" ++ itoa i]

def certCreateCaArgs : List String :=
  ["exec", gokiResourceName ++ "-client",
    "./cockroach", "cert", "create-ca",
    "--certs-dir=/cockroach/certs/.setup/cert-tmp",
    "--ca-key=/cockroach/certs/.setup/my-safe-directory/ca.key",
    "--allow-ca-key-reuse",
    "--overwrite"]

def certCreateNodeArgs (i : Int) : List String :=
  ["exec", gokiResourceName ++ "-client",
    "./cockroach", "cert", "create-node", gokiResourceName ++ "-" ++ itoa i, "localhost",
    "--certs-dir=/cockroach/certs/.setup/cert-tmp",
    "--ca-key=/cockroach/certs/.setup/my-safe-directory/ca.key",
    "--overwrite"]

def certCopyNodeArgs (i : Int) : List String :=
  ["exec", gokiResourceName ++ "-client",
    "cp",
    "/cockroach/certs/.setup/cert-tmp/ca.crt",
    "/cockroach/certs/.setup/cert-tmp/node.crt",
    "/cockroach/certs/.setup/cert-tmp/node.key",
    "/cockroach/certs/node-certs/" ++ gokiResourceName ++ "-" ++ itoa i ++ "/"]

def certCreateClientArgs : List String :=
  ["exec", gokiResourceName ++ "-client",
    "./cockroach", "cert", "create-client", "root",
    "--certs-dir=/cockroach/certs/.setup/cert-tmp",
    "--ca-key=/cockroach/certs/.setup/my-safe-directory/ca.key",
    "--overwrite"]

def certCopyClientArgs : List String :=
  ["exec", gokiResourceName ++ "-client",
    "cp",
    "/cockroach/certs/.setup/cert-tmp/ca.crt",
    "/cockroach/certs/.setup/cert-tmp/client.root.crt",
    "/cockroach/certs/.setup/cert-tmp/client.root.key",
    "/cockroach/certs/"]

/-- The body of the second loop of `createCertFile`: create node `i`'s certificate, then
copy it into node `i`'s directory. -/
def certNodeStep (env : Env) (i : Int) : Step :=
  seqSteps
    [execOrFail env (certCreateNodeArgs i)
       "ERROR: docker exec command that creating node cert files failed.\n Error is: ",
     execOrFail env (certCopyNodeArgs i)
       "ERROR: docker exec command that copy node cert files failed.\n Error is: "]

def createCertFile (env : Env) (flags : CreateCmdFlags) : Step :=
  seqSteps
    [say "INFO: Creating cert files start.\n",
     execOrFail env certMkSafeDirArgs
       "ERROR: docker exec command that creating certs dir failed.\n Error is: ",
     forRange 1 flags.node (fun i => execOrFail env (certMkNodeDirArgs i)
       "ERROR: docker exec command that creating certs dir failed.\n Error is: "),
     execOrFail env certCreateCaArgs
       "ERROR: docker exec command that creating CA cert files failed.\n Error is: ",
     forRange 1 flags.node (certNodeStep env),
     execOrFail env certCreateClientArgs
       "ERROR: docker exec command that create client cert files failed.\n Error is: ",
     execOrFail env certCopyClientArgs
       "ERROR: docker exec command that copy client cert files failed.\n Error is: ",
     say "INFO: Creating cert files done.\n"]

/-- The argv of the `docker run` that starts the first node, built from the flags and the
values of `gokiRegionId` and `gokiZoneId` at that moment. -/
def createFirstGokiArgs (flags : CreateCmdFlags) (gokiRegionId gokiZoneId : Int) : List String :=
  ["run", "-d",
    "--name=" ++ gokiResourceName ++ "-1",
    "--hostname=" ++ gokiResourceName ++ "-1",
    "--network=" ++ gokiResourceName ++ "-net",
    "-p", gokiSqlIp ++ ":" ++ gokiSqlPort ++ ":26257",
    "-p", gokiWebUiIp ++ ":" ++ gokiWebUiPort ++ ":8080",
    "--mount=type=volume,src=" ++ gokiResourceName ++ "-volume-client,dst=/cockroach/certs",
    "--mount=type=volume,src=" ++ gokiResourceName ++ "-volume-1,dst=/cockroach/cockroach-data",
    "--label=" ++ gokiResourceLabel,
    crdbContainerImage ++ ":" ++ flags.crdbVersion,
    "start",
    "--certs-dir=certs/node-certs/" ++ gokiResourceName ++ "-1",
    "--join=" ++ gokiResourceName ++ "-1," ++ gokiResourceName ++ "-2," ++ gokiResourceName ++ "-3",
    "--locality=region=region-" ++ itoa gokiRegionId ++ ",zone=zone-" ++ itoa gokiZoneId]

def initClusterArgs : List String :=
  ["exec", gokiResourceName ++ "-client",
    "./cockroach", "init",
    "--certs-dir=certs/",
    "--host=" ++ gokiResourceName ++ "-1:26257"]

def setRootPasswordArgs : List String :=
  ["exec", gokiResourceName ++ "-client",
    "./cockroach", "sql",
    "--certs-dir=/cockroach/certs/",
    "--host=" ++ gokiResourceName ++ "-1:26257",
    "-e", "ALTER USER root WITH PASSWORD \x27" ++ gokiRootUserPassword ++ "\x27"]

def setRootPassword (env : Env) : Step :=
  execOrFail env setRootPasswordArgs
    "ERROR: docker exec command that set root user\x27s password failed.\n Error is: "

def createNonRootUserArgs : List String :=
  ["exec", gokiResourceName ++ "-client",
    "./cockroach", "sql",
    "--certs-dir=/cockroach/certs/",
    "--host=" ++ gokiResourceName ++ "-1:26257",
    "-e", "CREATE USER IF NOT EXISTS " ++ gokiNonRootUserName ++ " WITH PASSWORD \x27" ++
      gokiNonRootUserPassword ++ "\x27"]

def createNonRootUser (env : Env) : Step :=
  execOrFail env createNonRootUserArgs
    "ERROR: docker exec command that create non-root user failed.\n Error is: "

def checkGokiNodeConnStr : String :=
  "postgresql://root:" ++ gokiRootUserPassword ++ "@localhost:26257/defaultdb?sslmode=require"

def checkGokiNodeQuery : String :=
  "SELECT node_id, address FROM crdb_internal.gossip_nodes WHERE node_id = $1"

/-- The loop `for rows.Next() { ... }` of `checkGokiNode` over the rows still to be read. -/
def checkGokiNodeRows (g : Int) : List Row → Step
  | [], s => (none, s)
  | Except.error e :: _, s => (some e, s.err "Scanning rows failed.\n")
  | Except.ok (id, address) :: rest, s =>
    if id ≠ g ∧ address ≠ gokiResourceName ++ "-" ++ itoa g ++ ":26257" then
      (some "node number and internal ID does not match",
        s.err ("ERROR: Node number and internal ID does not match.\n Node number is: " ++ itoa g ++
          "\n Internal ID is: " ++ itoa id ++ "\n Node name is: " ++ address ++ "\n"))
    else checkGokiNodeRows g rest s

def checkGokiNode (env : Env) (g : Int) : Step := fun s =>
  let o := env.sqlOpen s.trace checkGokiNodeConnStr
  let s1 := s.emit (Event.sqlOpen checkGokiNodeConnStr)
  match o with
  | some e => (some e, s1.err "Connecting to CockroachDB via PostgreSQL driver failed.\n")
  | none =>
    let q := env.sqlQuery s1.trace checkGokiNodeQuery g
    let s2 := s1.emit (Event.sqlQuery checkGokiNodeQuery g)
    match q with
    | Except.error e =>
      (some e, s2.err "Getting internal ID and node name (address) from cluster meta data failed.\n")
    | Except.ok rows => checkGokiNodeRows g rows s2

/-- The body of the second `if !gokiVolumeAlreadyExist` of `createFirstGoki`. -/
def firstGokiBootstrap (env : Env) : Step :=
  seqSteps [setRootPassword env, createNonRootUser env, checkGokiNode env 1]

/-- The body of the first `if !gokiVolumeAlreadyExist` of `createFirstGoki`. -/
def firstGokiInit (env : Env) : Step :=
  seqSteps
    [say "INFO: Initializing Cluster start.\n",
     execOrFail env initClusterArgs "ERROR: Start first node failed.\n Error is: ",
     say "INFO: Initializing Cluster done.\n"]

/-- The part of `createFirstGoki` after the first node has been started and the settle
delay has passed: the two `if !gokiVolumeAlreadyExist` blocks and the final `Println`. -/
def firstGokiTail (env : Env) : Step :=
  seqSteps
    [fun t =>
       if ¬ t.gokiVolumeAlreadyExist then firstGokiInit env t
       else say "INFO: Skip initializing cluster, because the Cluster is already initialized.\n" t,
     fun t => if ¬ t.gokiVolumeAlreadyExist then firstGokiBootstrap env t else (none, t),
     say "INFO: Creating First node done.\n"]

def createFirstGoki (env : Env) (flags : CreateCmdFlags) : Step := fun s =>
  let s0 := s.out "INFO: Creating First node start.\n"
  let sl : State := if flags.locality then { s0 with gokiRegionId := 1, gokiZoneId := 1 } else s0
  let r := sl.ask env (createFirstGokiArgs flags sl.gokiRegionId sl.gokiZoneId)
  let s1 := sl.ran (createFirstGokiArgs flags sl.gokiRegionId sl.gokiZoneId)
  match r.2 with
  | some e => (some e, s1.err ("ERROR: Start first node failed.\n Error is: " ++ r.1 ++ "\n"))
  | none =>
    firstGokiTail env (((s1.out ("INFO: Created container is: " ++ r.1)).emit (Event.sleep 1)).out
      "INFO: Creating First node done.\n")

/-- The `if createCmdFlags.locality { switch i {...}; if i%3 == 0 {...} else {...} }` block at
the head of the loop body of `createGokiCluster`.  Go's `%` is the truncated remainder. -/
def setLocality (flags : CreateCmdFlags) (i : Int) (s : State) : State :=
  if flags.locality then
    let s1 : State :=
      if i = 1 ∨ i = 2 ∨ i = 3 then { s with gokiRegionId := 1 }
      else if i = 4 ∨ i = 5 ∨ i = 6 then { s with gokiRegionId := 2 }
      else if i = 7 ∨ i = 8 ∨ i = 9 then { s with gokiRegionId := 3 }
      else s
    if Int.tmod i 3 = 0 then { s1 with gokiZoneId := 3 }
    else { s1 with gokiZoneId := Int.tmod i 3 }
  else s

/-- The argv of the `docker run` that starts node `i` (second and later nodes), built from
the flags and the values of `gokiRegionId` and `gokiZoneId` at that moment. -/
def createGokiClusterArgs (flags : CreateCmdFlags) (i : Int) (gokiRegionId gokiZoneId : Int) :
    List String :=
  ["run", "-d",
    "--name=" ++ gokiResourceName ++ "-" ++ itoa i,
    "--hostname=" ++ gokiResourceName ++ "-" ++ itoa i,
    "--network=" ++ gokiResourceName ++ "-net",
    "--mount=type=volume,src=" ++ gokiResourceName ++ "-volume-client,dst=/cockroach/certs",
    "--mount=type=volume,src=" ++ gokiResourceName ++ "-volume-" ++ itoa i ++
      ",dst=/cockroach/cockroach-data",
    "--label=" ++ gokiResourceLabel,
    crdbContainerImage ++ ":" ++ flags.crdbVersion,
    "start",
    "--certs-dir=certs/node-certs/" ++ gokiResourceName ++ "-" ++ itoa i,
    "--join=" ++ gokiResourceName ++ "-1," ++ gokiResourceName ++ "-2," ++ gokiResourceName ++ "-3",
    "--locality=region=region-" ++ itoa gokiRegionId ++ ",zone=zone-" ++ itoa gokiZoneId]

/-- The block `if !gokiVolumeAlreadyExist { if err := checkGokiNode(i); err != nil { return
err } }` of `createGokiCluster`. -/
def checkNodeUnlessReuse (env : Env) (i : Int) : Step := fun t =>
  if ¬ t.gokiVolumeAlreadyExist then checkGokiNode env i t else (none, t)

/-- The loop body of `createGokiCluster` for node `i`. -/
def createGokiClusterNode (env : Env) (flags : CreateCmdFlags) (i : Int) : Step := fun s =>
  let sl := setLocality flags i s
  let r := sl.ask env (createGokiClusterArgs flags i sl.gokiRegionId sl.gokiZoneId)
  let s1 := sl.ran (createGokiClusterArgs flags i sl.gokiRegionId sl.gokiZoneId)
  match r.2 with
  | some e =>
    (some e, s1.err ("ERROR: Start second or later node failed.\n Error is: " ++ r.1 ++ "\n"))
  | none =>
    checkNodeUnlessReuse env i ((s1.out ("INFO: Created container is: " ++ r.1)).emit (Event.sleep 1))

def createGokiCluster (env : Env) (flags : CreateCmdFlags) : Step :=
  seqSteps
    [say "INFO: Creating Cluster start.\n",
     forRange 2 flags.node (createGokiClusterNode env flags),
     say "INFO: Creating Cluster done.\n"]

def checkSqlConnectionAcceptanceArgs : List String :=
  ["exec", gokiResourceName ++ "-client",
    "./cockroach", "sql",
    "--certs-dir=/cockroach/certs/",
    "--host=" ++ gokiResourceName ++ "-1:26257",
    "-e", "SELECT 1"]

/-- The loop `for i := 0; i < 10; i++` of `checkSqlConnectionAcceptance`, with `k`
iterations left and loop variable `i`; a successful query leaves the loop (`break`). -/
def checkSqlConnectionLoop (env : Env) : Nat → Int → Step
  | 0, _, s => (none, s)
  | k + 1, i, s =>
    let s0 := s.emit (Event.sleep 1)
    let r := s0.ask env checkSqlConnectionAcceptanceArgs
    let s1 := s0.ran checkSqlConnectionAcceptanceArgs
    match r.2 with
    | some e =>
      if i < 9 then
        checkSqlConnectionLoop env k (i + 1)
          (s1.out "INFO: CockroachDB is NOT ready to accept connections.\n")
      else
        (some e, (s1.err ("ERROR: CockroachDB was NOT ready to accept connections, even if try to connect to DB 10 times (even if waiting about 10 second).\n Error is: " ++ r.1 ++ "\n")).out
          "HINT: There is possibility that some error occurred. Please check the DB or Container log.\n")
    | none => (none, s1.out "INFO: CockroachDB is ready to accept connections.\n")

def checkSqlConnectionAcceptance (env : Env) : Step :=
  checkSqlConnectionLoop env 10 0

def confirmClusterStatusArgs : List String :=
  ["exec", "-t", gokiResourceName ++ "-client",
    "./cockroach", "node", "status",
    "--certs-dir=/cockroach/certs/",
    "--host=" ++ gokiResourceName ++ "-1:26257"]

def confirmClusterStatus (env : Env) : Step := fun s =>
  let s0 := s.out "INFO: CockroachDB Cluster Status is the following.\n"
  let r := s0.ask env confirmClusterStatusArgs
  let s1 := s0.ran confirmClusterStatusArgs
  match r.2 with
  | some e =>
    (some e, s1.err ("ERROR: cockroach node status command failed.\n Error is: " ++ r.1 ++ "\n"))
  | none => (none, s1.out (r.1 ++ "\n"))

def loadIntroDBArgs : List String :=
  ["exec", "-t", gokiResourceName ++ "-client",
    "./cockroach", "workload", "init", "intro",
    "postgresql://root@" ++ gokiResourceName ++
      "-1:26257?sslcert=certs%2Fclient.root.crt&sslkey=certs%2Fclient.root.key&sslmode=verify-full&sslrootcert=certs%2Fca.crt"]

def loadIntroDB (env : Env) : Step :=
  execOrFail env loadIntroDBArgs "ERROR: cockroach workload init intro command failed.\n Error is: "

def showCockroachArgs : List String :=
  ["exec", "-t", gokiResourceName ++ "-client",
    "./cockroach", "sql",
    "--certs-dir=/cockroach/certs/",
    "--host=" ++ gokiResourceName ++ "-1:26257",
    "-e", "SELECT v as \"Hello, CockroachDB!\" FROM intro.mytable WHERE (l % 2) = 0"]

def showCockroach (env : Env) : Step := fun s =>
  let r := s.ask env showCockroachArgs
  let s1 := s.ran showCockroachArgs
  match r.2 with
  | some e =>
    (some e, s1.err ("ERROR: docker exec command that show intro DB failed.\n Error is: " ++ r.1 ++ "\n"))
  | none => (none, s1.out (r.1 ++ "\n"))

def showAccessCommand (s : State) : State :=
  ((((((((((s.out "*** Creating CockroachDB Local Cluster done ***\n").out
    "INFO: Let\x27s access to the CockroachDB by using built-in SQL Shell, and Web UI!\n").out
    "\nAccess DB as a root user:\n").out
    "  goki sql\n").out
    "\nAccess DB as a non-root user:\n").out
    "  goki sql --non-root\n").out
    "    or\n").out
    "  goki sql -u <user name> -p <password>\n").out
    ("\nAccess Web UI as a root user (User: root / Password: " ++ gokiRootUserPassword ++ "):\n")).out
    ("  URL: https://" ++ gokiWebUiIp ++ ":" ++ gokiWebUiPort ++ "/\n")).out
    ("\nAccess Web UI as a non-root user (User: " ++ gokiNonRootUserName ++ " / Password: " ++
      gokiNonRootUserPassword ++ "):\n") |>.out
    ("  URL: https://" ++ gokiWebUiIp ++ ":" ++ gokiWebUiPort ++ "/\n\n")

/-- The three `Println` of `createCmd.RunE` between the entry checks and the first creation. -/
def createBanner (flags : CreateCmdFlags) : Step := fun s =>
  let s0 := s.out ("INFO: The number of cockroaches in the cluster is " ++ itoa flags.node ++ " .\n")
  let s1 := if flags.locality then
      s0.out "INFO: The --set-locality is true. Set region and zone information in each node.\n"
    else s0
  (none, s1.out "INFO: *** Start Creating CockroachDB Local Cluster ***\n")

/-- The calls of `createCmd.RunE` after the entry checks, in order: from the first `Println`
to `showAccessCommand`. -/
def createBringUpSteps (env : Env) (flags : CreateCmdFlags) : List Step :=
    [createBanner flags,
     createGokiNetwork env,
     createGokiVolume env flags,
     createClientContainer env flags,
     createCertFile env flags,
     createFirstGoki env flags,
     createGokiCluster env flags,
     checkSqlConnectionAcceptance env,
     confirmClusterStatus env,
     fun t => if ¬ t.gokiVolumeAlreadyExist then loadIntroDB env t else (none, t),
     showCockroach env,
     fun t => (none, showAccessCommand t)]

/-- The part of `createCmd.RunE` after the entry checks. -/
def createBringUp (env : Env) (flags : CreateCmdFlags) : Step :=
  seqSteps (createBringUpSteps env flags)

/-- The function `createCmd.RunE`. -/
def createRunE (env : Env) (flags : CreateCmdFlags) : Step :=
  seqSteps
    [checkDocker env,
     checkGokiContainer env,
     checkGokiNetwork env,
     checkGokiVolume env,
     checkNumOfNode flags,
     createBringUp env flags]

/-! ## `common.go`, `jet.go`, `revive.go`, `status.go` -/

/-- The function `gokiContains` of `jet.go`. -/
def gokiContains : List String → String → Bool
  | [], _ => false
  | v :: rest, name => if name = v then true else gokiContains rest name

/-- The listing of the running labeled containers: `docker ps -f label=goki --format ...`. -/
def liveListArgs : List String :=
  ["ps", "-f", "label=" ++ gokiResourceLabel, "--format", "\x7b\x7b.Names\x7d\x7d"]

/-- The listing of all labeled containers, running or not: `docker ps -af ...`. -/
def allListArgs : List String :=
  ["ps", "-af", "label=" ++ gokiResourceLabel, "--format", "\x7b\x7b.Names\x7d\x7d"]

/-- The list a listing output is turned into: `[]string{}` unless the output is non-empty,
in which case it is split at line feeds by `strings.FieldsFunc`. -/
def parseList (output : String) : List String :=
  if output ≠ "" then fieldsFunc output (fun r => r == '\n') else []

/-- The function `gokiIsDead` of `common.go`; the result is the pair `(bool, error)`. -/
def gokiIsDead (env : Env) (id : Int) (s : State) : (Bool × Option String) × State :=
  let r := s.ask env liveListArgs
  let s1 := s.ran liveListArgs
  match r.2 with
  | some e => ((false, some e), s1.err ("docker ps command failed: " ++ r.1 ++ "\n"))
  | none =>
    let liveGokiList := parseList r.1
    if gokiContains liveGokiList (gokiResourceName ++ "-" ++ itoa id) then ((false, none), s1)
    else
      let r2 := s1.ask env allListArgs
      let s2 := s1.ran allListArgs
      match r2.2 with
      | some e => ((false, some e), s2.err ("docker ps command failed: " ++ r2.1 ++ "\n"))
      | none =>
        let deadGokiList := parseList r2.1
        if gokiContains deadGokiList (gokiResourceName ++ "-" ++ itoa id) then ((true, none), s2)
        else
          ((false, some ("The specified container " ++ gokiResourceName ++ "-" ++ itoa id ++
            " does not exist")), s2)

def killGokiContainerArgs (id : Int) : List String := ["kill", gokiResourceName ++ "-" ++ itoa id]

def killGokiContainer (env : Env) (id : Int) : Step :=
  seqSteps
    [execOrFail env (killGokiContainerArgs id) "docker kill command failed: ",
     say ("The container " ++ gokiResourceName ++ "-" ++ itoa id ++ " was killed.\n")]

def gokiJet (env : Env) (id : Int) : Step := fun s =>
  match gokiIsDead env id s with
  | ((_, some e), s1) => (some e, s1)
  | ((true, none), s1) =>
    (some "the specified container is not running",
      s1.err (gokiResourceName ++ "-" ++ itoa id ++ " is not running\n"))
  | ((false, none), s1) => killGokiContainer env id s1

def reviveGokiContainerArgs (id : Int) : List String :=
  ["start", gokiResourceName ++ "-" ++ itoa id]

def reviveGokiContainer (env : Env) (id : Int) : Step :=
  seqSteps
    [execOrFail env (reviveGokiContainerArgs id) "docker start command failed: ",
     say ("The container " ++ gokiResourceName ++ "-" ++ itoa id ++ " was revived.\n")]

def gokiRevive (env : Env) (id : Int) : Step := fun s =>
  match gokiIsDead env id s with
  | ((_, some e), s1) => (some e, s1)
  | ((false, none), s1) =>
    (some "the specified container is running",
      s1.err (gokiResourceName ++ "-" ++ itoa id ++ " is running\n"))
  | ((true, none), s1) => reviveGokiContainer env id s1

def getNumberOfContainersArgs : List String :=
  ["ps", "-aqf", "label=" ++ gokiResourceLabel, "--format", "\x7b\x7b.Names\x7d\x7d"]

/-- The function `getNumberOfContainers` of `status.go`; the result is `(int, error)`. -/
def getNumberOfContainers (env : Env) (s : State) : (Int × Option String) × State :=
  let r := s.ask env getNumberOfContainersArgs
  let s1 := s.ran getNumberOfContainersArgs
  match r.2 with
  | some e => ((-1, some e), s1.err ("docker ps command failed: " ++ r.1 ++ "\n"))
  | none => (((parseList r.1).length, none), s1)

/-- The classification loop `for i := 1; i <= n-1; i++` of `showContainerStatus`, with `k`
iterations left; it carries the two local lists and stops at the first error. -/
def statusLoop (env : Env) : Nat → Int → List String → List String → State →
    (Option String × List String × List String) × State
  | 0, _, live, dead, s => ((none, live, dead), s)
  | k + 1, i, live, dead, s =>
    match gokiIsDead env i s with
    | ((_, some e), s1) => ((some e, live, dead), s1)
    | ((true, none), s1) =>
      statusLoop env k (i + 1) live (dead ++ [gokiResourceName ++ "-" ++ itoa i]) s1
    | ((false, none), s1) =>
      statusLoop env k (i + 1) (live ++ [gokiResourceName ++ "-" ++ itoa i]) dead s1

/-- The printing of one list in `showContainerStatus`: `"  Nothing"` when it is empty, and one
indented line per element. -/
def showList (list : List String) (s : State) : State :=
  let s1 := if list.length = 0 then s.out "  Nothing\n" else s
  list.foldl (fun t name => t.out ("  " ++ name ++ "\n")) s1

def showContainerStatus (env : Env) (n : Int) : Step := fun s =>
  match statusLoop env (n - 1 + 1 - 1).toNat 1 [] [] s with
  | ((some e, _, _), s1) => (some e, s1)
  | ((none, live, dead), s1) =>
    (none, showList dead ((showList live (s1.out "Alive containers:\n")).out "Dead containers:\n"))

/-- The function `statusCmd.RunE`. -/
def statusRunE (env : Env) : Step := fun s =>
  match getNumberOfContainers env s with
  | ((_, some e), s1) => (some e, s1)
  | ((n, none), s1) =>
    if n = 0 then (none, s1.err "There is no containers of Goki.\n")
    else if n > 0 then showContainerStatus env n s1
    else (none, s1)

/-! ## `delete.go` -/

/-- Flag value of the delete command. -/
structure DeleteCmdFlags where
  volume : Bool
  deriving DecidableEq

/-- The loop `for _, x := range list { body }` in which an error returned by the body leaves
the function at once.  (The guards `if len(list) != 0` around these loops in `delete.go` change
nothing: the loop over an empty list does nothing.) -/
def forEach (list : List String) (body : String → Step) : Step :=
  seqSteps (list.map body)

/-- The recurring listing of `delete.go`: issue the listing; on failure print `pre`, the output
and a line feed to the error stream and return the error; otherwise go on with the listed
names (`[]string{}` unless the output is non-empty, then its `FieldsFunc` at line feeds). -/
def listThen (env : Env) (args : List String) (pre : String) (next : List String → Step) :
    Step := fun s =>
  let r := s.ask env args
  let s1 := s.ran args
  match r.2 with
  | some e => (some e, s1.err (pre ++ r.1 ++ "\n"))
  | none => next (parseList r.1) s1

/-- The report of a phase over a list: one indented line per name when the list is not empty,
the line `Nothing` when it is. -/
def showDeleted (list : List String) (s : State) : State :=
  if list.length ≠ 0 then list.foldl (fun t name => t.out ("    " ++ name ++ "\n")) s
  else if list.length = 0 then s.out "    Nothing\n"
  else s

def killArgs (container : String) : List String := ["kill", container]

def rmArgs (container : String) : List String := ["rm", container]

/-- The second half of `deleteGokiContainers`: list all labeled containers, remove each, and
report them under the header. -/
def removeGokiContainers (env : Env) : Step :=
  listThen env allListArgs "docker ps command failed: " (fun deadGokiList =>
    andThen
      (forEach deadGokiList (fun container =>
        execOrFail env (rmArgs container) "docker rm command failed: "))
      (fun s => (none, showDeleted deadGokiList (s.out "  Docker Containers:\n"))))

def deleteGokiContainers (env : Env) : Step :=
  listThen env liveListArgs "docker ps command failed: " (fun liveGokiList =>
    andThen
      (forEach liveGokiList (fun container =>
        execOrFail env (killArgs container) "docker kill command failed: "))
      (removeGokiContainers env))

def deleteGokiNetworkLsArgs : List String :=
  ["network", "ls", "-f", "label=" ++ gokiResourceLabel, "--format", "\x7b\x7b.Name\x7d\x7d"]

def networkRmArgs (name : String) : List String := ["network", "rm", name]

/-- The Go call `strings.TrimRight(s, cutset)` for a cutset of the single character `c`: `s`
without its trailing run of `c`. -/
def trimRight (s : String) (c : Char) : String :=
  String.mk (s.data.reverse.dropWhile (fun x => x == c)).reverse

/-- The value of `gokiNetworkName` after the listing: empty unless the output is non-empty,
then the output without its trailing line feeds. -/
def networkNameOf (output : String) : String :=
  if output ≠ "" then trimRight output '\n' else ""

/-- The report of `deleteGokiNetwork` after the header. -/
def showNetwork (gokiNetworkName : String) (s : State) : State :=
  if gokiNetworkName ≠ "" then s.out ("    " ++ gokiNetworkName ++ "\n")
  else if gokiNetworkName = "" then s.out "    Nothing\n"
  else s

def deleteGokiNetwork (env : Env) : Step := fun s =>
  let r := s.ask env deleteGokiNetworkLsArgs
  let s1 := s.ran deleteGokiNetworkLsArgs
  match r.2 with
  | some e => (some e, s1.err ("docker network ls command failed: " ++ r.1 ++ "\n"))
  | none =>
    andThen
      (fun t =>
        if networkNameOf r.1 ≠ "" then
          execOrFail env (networkRmArgs (networkNameOf r.1)) "docker network rm command failed: " t
        else (none, t))
      (fun t => (none, showNetwork (networkNameOf r.1) (t.out "  Docker Network:\n"))) s1

def deleteGokiVolumeLsArgs : List String :=
  ["volume", "ls", "-f", "label=" ++ gokiResourceLabel, "--format", "\x7b\x7b.Name\x7d\x7d"]

def volumeRmArgs (volume : String) : List String := ["volume", "rm", volume]

def deleteGokiVolume (env : Env) : Step :=
  listThen env deleteGokiVolumeLsArgs "docker volume ls command failed: " (fun gokiVolumeList =>
    andThen
      (forEach gokiVolumeList (fun volume =>
        execOrFail env (volumeRmArgs volume) "docker volume rm command failed: "))
      (fun s => (none, showDeleted gokiVolumeList (s.out "  Docker Volumes:\n"))))

def deleteGokiCluster (env : Env) (flags : DeleteCmdFlags) : Step :=
  seqSteps
    [deleteGokiContainers env,
     deleteGokiNetwork env,
     fun s => if flags.volume then deleteGokiVolume env s else (none, s)]

/-- The closing prints of `deleteCmd.RunE`. -/
def deleteDone (flags : DeleteCmdFlags) (s : State) : State :=
  let s0 := s.out "\n*** Deleting CockroachDB Local Cluster done ***"
  if flags.volume then
    s0.out "\nINFO: All docker resources (include docker volume) are deleted.\n"
  else
    (((s0.out "\nINFO: You can re-create the cluster with DB Data of deleted cluster (you can re-use deleted cluster\x27s Data).").out
      "\n      If you want to re-use old Data, re-run \"goki create\" command.").out
      "\nINFO: Docker Volumes are not deleted.").out
      "\n      If you don\x27t need the DB Data of deleted cluster, run \"goki delete\" command wiht -v (--volume) flag.\n"

/-- The function `deleteCmd.RunE`. -/
def deleteRunE (env : Env) (flags : DeleteCmdFlags) : Step :=
  seqSteps
    [say "*** Start Deleting CockroachDB Local Cluster ***\n",
     say "INFO: Delete the following resources.\n",
     deleteGokiCluster env flags,
     fun s => (none, deleteDone flags s)]

/-! ## Reading traces and commands -/

/-- The docker commands of a trace, in order. -/
def execs : List Event → List (List String)
  | [] => []
  | Event.exec args :: rest => args :: execs rest
  | _ :: rest => execs rest

/-- An environment in which every docker command succeeds with empty output, the database
opens and every query returns no row. -/
def quietEnv : Env :=
  { docker := fun _ _ => ("", none)
    sqlOpen := fun _ _ => none
    sqlQuery := fun _ _ _ => Except.ok [] }

/-- The events a step is permitted to add: docker commands satisfying `C`, database calls
only when `D` holds, and any print or sleep. -/
def Allowed (C : List String → Prop) (D : Prop) : Event → Prop
  | Event.exec args => C args
  | Event.sqlOpen _ => D
  | Event.sqlQuery _ _ => D
  | _ => True

/-- State `t` comes after `s`: the reuse flag is untouched and the trace of `t` is the trace
of `s` followed by permitted events. -/
def Reaches (C : List String → Prop) (D : Prop) (s t : State) : Prop :=
  t.gokiVolumeAlreadyExist = s.gokiVolumeAlreadyExist ∧
    ∃ evs, t.trace = s.trace ++ evs ∧ ∀ e ∈ evs, Allowed C D e

/-- A step is tame when, from every state whose reuse flag is `b`, it reaches its final
state through permitted events only. -/
def Tame (C : List String → Prop) (D : Prop) (b : Bool) (f : Step) : Prop :=
  ∀ s, s.gokiVolumeAlreadyExist = b → Reaches C D s (f s).2

/-- The docker commands the bring-up may issue; the cluster initialisation, the two user
commands and the demonstration dataset only on a run that does not reuse data. -/
inductive BringUpCmd (flags : CreateCmdFlags) (reuse : Bool) : List String → Prop where
  | network : BringUpCmd flags reuse createGokiNetworkArgs
  | volume (suffix : String) : BringUpCmd flags reuse (volumeCreateArgs suffix)
  | client : BringUpCmd flags reuse (createClientContainerArgs flags)
  | certSafeDir : BringUpCmd flags reuse certMkSafeDirArgs
  | certNodeDir (i : Int) : BringUpCmd flags reuse (certMkNodeDirArgs i)
  | certCa : BringUpCmd flags reuse certCreateCaArgs
  | certNode (i : Int) : BringUpCmd flags reuse (certCreateNodeArgs i)
  | certCopyNode (i : Int) : BringUpCmd flags reuse (certCopyNodeArgs i)
  | certClient : BringUpCmd flags reuse certCreateClientArgs
  | certCopyClient : BringUpCmd flags reuse certCopyClientArgs
  | firstNode (r z : Int) : BringUpCmd flags reuse (createFirstGokiArgs flags r z)
  | init (h : reuse = false) : BringUpCmd flags reuse initClusterArgs
  | rootPassword (h : reuse = false) : BringUpCmd flags reuse setRootPasswordArgs
  | nonRootUser (h : reuse = false) : BringUpCmd flags reuse createNonRootUserArgs
  | node (i r z : Int) : BringUpCmd flags reuse (createGokiClusterArgs flags i r z)
  | sqlReady : BringUpCmd flags reuse checkSqlConnectionAcceptanceArgs
  | status : BringUpCmd flags reuse confirmClusterStatusArgs
  | introDB (h : reuse = false) : BringUpCmd flags reuse loadIntroDBArgs
  | cockroach : BringUpCmd flags reuse showCockroachArgs


/-- The commands that only read: `docker version` and the three kinds of listing. -/
def readOnlyCmd : List String → Bool
  | "version" :: _ => true
  | "ps" :: _ => true
  | "network" :: "ls" :: _ => true
  | "volume" :: "ls" :: _ => true
  | _ => false

/-- An event that changes something outside the process: a docker command that is not
read-only.  (The only database call of the program is a `SELECT`.) -/
def Event.mutates : Event → Bool
  | Event.exec args => !readOnlyCmd args
  | _ => false

/-- The answer to the labeled-sandbox listing `create` takes at its start, when run from
state `s`: it follows `docker version`. -/
def sandboxListing (env : Env) (s : State) : CmdResult :=
  (s.ran checkDockerArgs).ask env checkGokiContainerArgs

/-- The answer to the labeled-network listing `create` takes after the sandbox listing. -/
def networkListing (env : Env) (s : State) : CmdResult :=
  ((s.ran checkDockerArgs).ran checkGokiContainerArgs).ask env checkGokiNetworkArgs

/-- The answer to the labeled-volume listing `create` takes after the network listing. -/
def volumeListing (env : Env) (s : State) : CmdResult :=
  (((s.ran checkDockerArgs).ran checkGokiContainerArgs).ran checkGokiNetworkArgs).ask env
    checkGokiVolumeArgs

/-- The name of node `id`'s sandbox, as every function of the program spells it. -/
def gokiName (id : Int) : String := gokiResourceName ++ "-" ++ itoa id

/-- The error of `gokiIsDead` for a node that is in neither listing. -/
def doesNotExist (id : Int) : String :=
  "The specified container " ++ gokiResourceName ++ "-" ++ itoa id ++ " does not exist"

/-- The names of the running-only listing `gokiIsDead` takes in state `s`. -/
def runningNames (env : Env) (s : State) : List String :=
  parseList (s.ask env liveListArgs).1

/-- The names of the all-containers listing `gokiIsDead` takes after the running-only one. -/
def allNames (env : Env) (s : State) : List String :=
  parseList ((s.ran liveListArgs).ask env allListArgs).1

/-- The spec's zone rule: `nodeIndex mod 3`, and 3 when that remainder is 0. -/
def specZone (n : Int) : Int := if n % 3 = 0 then 3 else n % 3

/-- The spec's region rule: `ceil(nodeIndex / 3)`. -/
def specRegion (n : Int) : Int := ⌈(n : ℚ) / 3⌉

/-- An environment with a running `goki-1`, a stopped `goki-2` and the helper sandbox. -/
def twoNodeEnv : Env :=
  { docker := fun _ args =>
      if args = liveListArgs then ("goki-client\ngoki-1\n", none)
      else if args = allListArgs then ("goki-client\ngoki-1\ngoki-2\n", none)
      else ("", none)
    sqlOpen := fun _ _ => none
    sqlQuery := fun _ _ _ => Except.ok [] }

/-- An environment in which a cluster is already up: the entry listings of `create` show a
labeled sandbox and the labeled network. -/
def clusterUpEnv : Env :=
  { docker := fun _ args =>
      if args = checkGokiContainerArgs then ("0123456789ab : goki-1\n", none)
      else if args = checkGokiNetworkArgs then ("ba9876543210 : goki-net\n", none)
      else ("", none)
    sqlOpen := fun _ _ => none
    sqlQuery := fun _ _ _ => Except.ok [] }

/-- An environment in which only volumes are left over from an earlier cluster: the volume
listing of `create` is not empty, every other command succeeds with empty output. -/
def leftoverVolumeEnv : Env :=
  { docker := fun _ args =>
      if args = checkGokiVolumeArgs then ("goki-volume-1\ngoki-volume-client\n", none)
      else ("", none)
    sqlOpen := fun _ _ => none
    sqlQuery := fun _ _ _ => Except.ok [] }

/-- The argv run inside a sandbox by `docker exec [-t] <sandbox> argv...`. -/
def execArgv : List String → Option (List String)
  | "exec" :: "-t" :: _ :: argv => some argv
  | "exec" :: _ :: argv => some argv
  | _ => none

/-- The statement following `-e` in an argv. -/
def statementAfterE : List String → Option String
  | [] => none
  | [_] => none
  | a :: b :: rest => if a = "-e" then some b else statementAfterE (b :: rest)

/-- The SQL statement of a `cockroach sql ... -e <statement>` run inside a sandbox. -/
def sqlStatement (args : List String) : Option String :=
  match execArgv args with
  | some ("./cockroach" :: "sql" :: rest) => statementAfterE rest
  | _ => none

/-- Whether the text `s` begins with `p`. -/
def startsWith (p s : String) : Bool := p.data.isPrefixOf s.data

/-- A cluster-initialisation command: `cockroach init` run inside a sandbox. -/
def isClusterInit (args : List String) : Bool :=
  match execArgv args with
  | some ("./cockroach" :: "init" :: _) => true
  | _ => false

/-- A command that sets the password of the administrative user `root`. -/
def setsRootPassword (args : List String) : Bool :=
  match sqlStatement args with
  | some stmt => startsWith "ALTER USER root" stmt
  | none => false

/-- A command that creates a database user. -/
def createsUser (args : List String) : Bool :=
  match sqlStatement args with
  | some stmt => startsWith "CREATE USER" stmt
  | none => false

/-- The events of cluster initialisation, user bootstrap and node identity verification (the
only database calls of the program are those of `checkGokiNode`). -/
def Event.bootstraps : Event → Bool
  | Event.exec args => isClusterInit args || setsRootPassword args || createsUser args
  | Event.sqlOpen _ => true
  | Event.sqlQuery _ _ => true
  | _ => false

/-- The entry checks of `create` pass up to the volume listing: docker answers, no labeled
sandbox and no labeled network exists, and the volume listing succeeds. -/
def EntryClear (env : Env) (s : State) : Prop :=
  (s.ask env checkDockerArgs).2 = none ∧ sandboxListing env s = ("", none) ∧
    networkListing env s = ("", none) ∧ (volumeListing env s).2 = none

/-- The state in which `create` leaves the entry checks when they pass: the four read-only
commands have been issued and the reuse flag says whether the volume listing is non-empty. -/
def afterChecks (env : Env) (s : State) : State :=
  { (((s.ran checkDockerArgs).ran checkGokiContainerArgs).ran checkGokiNetworkArgs).ran
      checkGokiVolumeArgs with
    gokiVolumeAlreadyExist := decide ((volumeListing env s).1 ≠ "") }

/-- The pieces of a text between the occurrences of `sep`; `cur` is the piece being read,
reversed. -/
def splitAux (sep : Char) : List Char → List Char → List String
  | [], cur => [String.mk cur.reverse]
  | c :: cs, cur =>
    if c = sep then String.mk cur.reverse :: splitAux sep cs [] else splitAux sep cs (c :: cur)

/-- The peer list of a node start command: the value of its first `--join=` argument, split
at commas. -/
def joinList : List String → Option (List String)
  | [] => none
  | a :: rest =>
    if startsWith "--join=" a then some (splitAux ',' (a.data.drop 7) []) else joinList rest

/-- The names of the intended nodes of a cluster of `n` nodes: `goki-1`, ..., `goki-n`. -/
def intendedPeers (n : Int) : List String :=
  (List.range n.toNat).map (fun k => gokiName ((k : Int) + 1))

/-- The two container listings give the same successful answer at every moment. -/
def StaticListings (env : Env) (runOut allOut : String) : Prop :=
  ∀ h, env.docker h liveListArgs = (runOut, none) ∧ env.docker h allListArgs = (allOut, none)

/-- State `t` comes after `s` by effects none of which changes anything outside the process. -/
def Quiet (s t : State) : Prop :=
  ∃ evs, t.trace = s.trace ++ evs ∧ ∀ e ∈ evs, e.mutates = false

/-- An environment whose cluster reports, for every queried node id, an address that is not
the one expected for that ordinal: every docker command succeeds with empty output and the
query for id `g` returns the single row `(g, "goki-9:26257")`. -/
def wrongAddressEnv : Env :=
  { docker := fun _ _ => ("", none)
    sqlOpen := fun _ _ => none
    sqlQuery := fun _ _ g => Except.ok [Except.ok (g, "goki-9:26257")] }

/-- The trace of the readiness poller after `j` failed attempts, started on trace `t`: each
failed attempt adds the sleep, the query and the notice that the database is not ready. -/
def pollTrace (t : List Event) : Nat → List Event
  | 0 => t
  | j + 1 => pollTrace t j ++ [Event.sleep 1, Event.exec checkSqlConnectionAcceptanceArgs,
      Event.stdout "INFO: CockroachDB is NOT ready to accept connections.\n"]

/-- The outcome of attempt `j + 1` of the readiness poller started on trace `t`, when the
`j` attempts before it have failed: the answer to the query issued after the sleep. -/
def pollAttempt (env : Env) (t : List Event) (j : Nat) : CmdResult :=
  env.docker (pollTrace t j ++ [Event.sleep 1]) checkSqlConnectionAcceptanceArgs

/-- An environment in which the readiness query fails until three queries have been issued
and succeeds from the fourth on. -/
def slowStartEnv : Env :=
  { docker := fun h args =>
      if args = checkSqlConnectionAcceptanceArgs ∧ (execs h).length < 3 then
        ("connection refused", some "exit status 1")
      else ("", none)
    sqlOpen := fun _ _ => none
    sqlQuery := fun _ _ _ => Except.ok [] }

/-- An environment in which the readiness query always fails. -/
def neverReadyEnv : Env :=
  { docker := fun h args =>
      if args = checkSqlConnectionAcceptanceArgs then
        ("connection refused", some ("exit status " ++ toString (execs h).length))
      else ("", none)
    sqlOpen := fun _ _ => none
    sqlQuery := fun _ _ _ => Except.ok [] }

/-- Going from state `s` to state `t` the command `docker args...` has been issued. -/
def Issues (s t : State) (args : List String) : Prop :=
  ∃ evs, t.trace = s.trace ++ evs ∧ Event.exec args ∈ evs

/-- The calls of `createCmd.RunE` that follow the rollout `createGokiCluster`, in order: the
readiness poller, the status report, the guarded `loadIntroDB`, `showCockroach` and
`showAccessCommand`. -/
def createAfterRollout (env : Env) : Step :=
  seqSteps
    [checkSqlConnectionAcceptance env,
     confirmClusterStatus env,
     fun t => if ¬ t.gokiVolumeAlreadyExist then loadIntroDB env t else (none, t),
     showCockroach env,
     fun t => (none, showAccessCommand t)]

/-- The state after the docker commands `cmds` have been issued one after the other, nothing
else happening in between. -/
def ranAll (s : State) : List (List String) → State
  | [] => s
  | c :: cs => ranAll (s.ran c) cs

/-- A straight run of error-checked docker commands, each with the text that introduces its
output on the error stream when it fails. -/
def runScript (env : Env) (script : List (List String × String)) : Step :=
  seqSteps (script.map (fun c => execOrFail env c.1 c.2))

/-- The answer to command number `k` (from 0) of `cmds`, issued on trace `t` after the `k`
commands before it have been issued and have succeeded. -/
def scriptAnswer (env : Env) (t : List Event) (cmds : List (List String)) (k : Nat) : CmdResult :=
  env.docker (t ++ (cmds.take k).map Event.exec) (cmds.getD k [])

/-- The commands and failure texts of `createCertFile` for `n` nodes, in program order. -/
def certScript (n : Nat) : List (List String × String) :=
  [(certMkSafeDirArgs, "ERROR: docker exec command that creating certs dir failed.\n Error is: ")] ++
  (List.range n).map (fun (k : Nat) => (certMkNodeDirArgs ((k : Int) + 1),
    "ERROR: docker exec command that creating certs dir failed.\n Error is: ")) ++
  [(certCreateCaArgs, "ERROR: docker exec command that creating CA cert files failed.\n Error is: ")] ++
  ((List.range n).map (fun (k : Nat) =>
    [(certCreateNodeArgs ((k : Int) + 1),
        "ERROR: docker exec command that creating node cert files failed.\n Error is: "),
     (certCopyNodeArgs ((k : Int) + 1),
        "ERROR: docker exec command that copy node cert files failed.\n Error is: ")])).flatten ++
  [(certCreateClientArgs,
      "ERROR: docker exec command that create client cert files failed.\n Error is: "),
   (certCopyClientArgs,
      "ERROR: docker exec command that copy client cert files failed.\n Error is: ")]

/-- The certificate bootstrap sequence for `n` nodes: the private working directory, the
output directory of each node, the CA, for each node its certificate and the copy into its
directory, the client certificate and its copy to the root of the credential volume. -/
def certCommands (n : Nat) : List (List String) :=
  [certMkSafeDirArgs] ++
  (List.range n).map (fun (k : Nat) => certMkNodeDirArgs ((k : Int) + 1)) ++
  [certCreateCaArgs] ++
  ((List.range n).map (fun (k : Nat) =>
    [certCreateNodeArgs ((k : Int) + 1), certCopyNodeArgs ((k : Int) + 1)])).flatten ++
  [certCreateClientArgs, certCopyClientArgs]

/-- An environment in which creating the certificate of node 2 fails and every other command
succeeds. -/
def certFailEnv : Env :=
  { docker := fun _ args =>
      if args = certCreateNodeArgs 2 then ("cannot write key", some "exit status 1")
      else ("", none)
    sqlOpen := fun _ _ => none
    sqlQuery := fun _ _ _ => Except.ok [] }

/-- The `k` consecutive node indices from `i` on, ascending. -/
def nodesFrom (i : Int) : Nat → List Int
  | 0 => []
  | k + 1 => i :: nodesFrom (i + 1) k

/-- The nodes the rollout has to start for a node count `n`: 2, 3, ..., `n`. -/
def rolloutNodes (n : Int) : List Int := nodesFrom 2 (n - 1).toNat

/-- The command `c` is a start command of node `i`. -/
def IsStartOf (flags : CreateCmdFlags) (i : Int) (c : List String) : Prop :=
  ∃ r z, c = createGokiClusterArgs flags i r z

/-- The events of one successful round of the rollout for node `i`: the start command, the
report of the created sandbox, the settle delay and, unless data is reused, the two database
calls of the identity verification of node `i`. -/
def NodeRound (flags : CreateCmdFlags) (reuse : Bool) (i : Int) (chunk : List Event) : Prop :=
  ∃ r z out, chunk =
    [Event.exec (createGokiClusterArgs flags i r z),
      Event.stdout ("INFO: Created container is: " ++ out), Event.sleep 1] ++
    (if reuse = true then []
      else [Event.sqlOpen checkGokiNodeConnStr, Event.sqlQuery checkGokiNodeQuery i])

/-- An environment in which the start of node 3 fails and everything else succeeds. -/
def thirdNodeFailsEnv : Env :=
  { docker := fun _ args =>
      if args.take 3 = ["run", "-d", "--name=goki-3"] then ("name in use", some "exit status 125")
      else ("", none)
    sqlOpen := fun _ _ => none
    sqlQuery := fun _ _ _ => Except.ok [] }

/-- The names of the running listing `deleteGokiContainers` takes in state `s`. -/
def teardownLive (env : Env) (s : State) : List String :=
  parseList (s.ask env liveListArgs).1

/-- The state of `deleteGokiContainers` after the running listing and the kill of each of its
names, all successful. -/
def afterKills (env : Env) (s : State) : State :=
  ranAll (s.ran liveListArgs) ((teardownLive env s).map killArgs)

/-- The names of the all-containers listing `deleteGokiContainers` takes after the kills. -/
def teardownAll (env : Env) (s : State) : List String :=
  parseList ((afterKills env s).ask env allListArgs).1

/-- The network name `deleteGokiNetwork` reads from its listing in state `s`. -/
def teardownNetwork (env : Env) (s : State) : String :=
  networkNameOf (s.ask env deleteGokiNetworkLsArgs).1

/-- The names of the volume listing `deleteGokiVolume` takes in state `s`. -/
def teardownVolumes (env : Env) (s : State) : List String :=
  parseList (s.ask env deleteGokiVolumeLsArgs).1

/-- An environment with two running nodes, a stopped one, the helper sandbox, the network and
three volumes, in which every command succeeds. -/
def teardownEnv : Env :=
  { docker := fun _ args =>
      if args = liveListArgs then ("goki-client\ngoki-1\ngoki-2\n", none)
      else if args = allListArgs then ("goki-client\ngoki-1\ngoki-2\ngoki-3\n", none)
      else if args = deleteGokiNetworkLsArgs then ("goki-net\n", none)
      else if args = deleteGokiVolumeLsArgs then
        ("goki-volume-1\ngoki-volume-2\ngoki-volume-client\n", none)
      else ("", none)
    sqlOpen := fun _ _ => none
    sqlQuery := fun _ _ _ => Except.ok [] }

/-- The shape shared by the second half of `deleteGokiContainers` and by `deleteGokiVolume`:
list with `ls`, remove each listed name with `mk`, report the names under `header`. -/
def removePhase (env : Env) (ls : List String) (pre : String) (mk : String → List String)
    (pre2 header : String) : Step :=
  listThen env ls pre (fun names =>
    andThen (forEach names (fun c => execOrFail env (mk c) pre2))
      (fun s => (none, showDeleted names (s.out header))))

/-- An environment with three labeled volumes and nothing else, in which the removal of the
second volume fails and every other command succeeds. -/
def volumeInUseEnv : Env :=
  { docker := fun _ args =>
      if args = deleteGokiVolumeLsArgs then
        ("goki-volume-1\ngoki-volume-2\ngoki-volume-client\n", none)
      else if args = volumeRmArgs "goki-volume-2" then ("volume is in use", some "exit status 1")
      else ("", none)
    sqlOpen := fun _ _ => none
    sqlQuery := fun _ _ _ => Except.ok [] }

/-- The state in which `deleteGokiCluster` reaches its volume phase: the one left by
`deleteGokiContainers` and then `deleteGokiNetwork`. -/
def afterNetwork (env : Env) (s : State) : State :=
  (deleteGokiNetwork env (deleteGokiContainers env s).2).2

/-- The report contract of a teardown phase that ended with `result`, where the phase issued
its listing `ls` in state `t`, read the names `names` from it and removes a name `n` with the
command `mk n`:
* no name listed: only the listing is issued, the header and the line `Nothing` are printed,
  and the phase succeeds;
* names listed and every removal answered without error: the phase succeeds, having issued
  one removal per name and then printed the header and one line per name, in listing order
  (so the line `Nothing` is printed only if a listed resource has that very name);
* removal number `k` the first answered with an error: the phase returns that error, having
  issued the removals up to that one and printed the failure on the error stream, and
  nothing on the standard stream. -/
def PhaseReports (env : Env) (result : Option String × State) (t : State) (ls : List String)
    (names : List String) (mk : String → List String) (header : String) : Prop :=
  (names = [] → result = (none, ((t.ran ls).out header).out "    Nothing\n")) ∧
  (names ≠ [] →
    (∀ k, k < names.length → (scriptAnswer env (t.ran ls).trace (names.map mk) k).2 = none) →
    result.1 = none ∧
    result.2.trace = t.trace ++ Event.exec ls ::
      (names.map (fun n => Event.exec (mk n)) ++
        Event.stdout header :: names.map (fun n => Event.stdout ("    " ++ n ++ "\n"))) ∧
    ("Nothing" ∉ names →
      ∀ evs, result.2.trace = t.trace ++ evs → Event.stdout "    Nothing\n" ∉ evs)) ∧
  (∀ (k : Nat) (e : String), k < names.length →
    (∀ l, l < k → (scriptAnswer env (t.ran ls).trace (names.map mk) l).2 = none) →
    (scriptAnswer env (t.ran ls).trace (names.map mk) k).2 = some e →
    result.1 = some e ∧
    ∃ text, result.2.trace = t.trace ++ Event.exec ls ::
      ((names.take (k + 1)).map (fun n => Event.exec (mk n)) ++ [Event.stderr text]))

/-- The names `deleteGokiNetwork` acts on in state `s`: the listed network name, if any. -/
def teardownNetworks (env : Env) (s : State) : List String :=
  if teardownNetwork env s = "" then [] else [teardownNetwork env s]

/-- A model of the labeled resources the container tool holds: the running and the stopped
containers, the network (there is at most one) and the volumes, by name. -/
structure Store where
  running : List String
  stopped : List String
  network : Option String
  volumes : List String
  deriving DecidableEq

/-- The output of a listing: every name followed by a line feed. -/
def renderNames : List String → String
  | [] => ""
  | n :: rest => n ++ "\n" ++ renderNames rest

/-- A resource name: not empty and without a line feed. -/
def ValidName (n : String) : Prop := n ≠ "" ∧ '\n' ∉ n.data

/-- A store all of whose names are resource names. -/
def Store.Valid (σ : Store) : Prop :=
  (∀ n ∈ σ.running, ValidName n) ∧ (∀ n ∈ σ.stopped, ValidName n) ∧
    (∀ n ∈ σ.network.toList, ValidName n) ∧ (∀ n ∈ σ.volumes, ValidName n)

/-- The answer of the tool holding `σ`: the four listings always succeed; a kill succeeds on
a running container, a remove on a stopped container, a network or volume removal on an
existing network or volume; every other command fails. -/
def Store.answer (σ : Store) (args : List String) : CmdResult :=
  if args = liveListArgs then (renderNames σ.running, none)
  else if args = allListArgs then (renderNames (σ.running ++ σ.stopped), none)
  else if args = deleteGokiNetworkLsArgs then (renderNames σ.network.toList, none)
  else if args = deleteGokiVolumeLsArgs then (renderNames σ.volumes, none)
  else
    match args with
    | ["kill", c] =>
      if c ∈ σ.running then (c ++ "\n", none) else ("No such container", some "exit status 1")
    | ["rm", c] =>
      if c ∈ σ.stopped then (c ++ "\n", none) else ("No such container", some "exit status 1")
    | ["network", "rm", n] =>
      if σ.network = some n then (n ++ "\n", none) else ("No such network", some "exit status 1")
    | ["volume", "rm", v] =>
      if v ∈ σ.volumes then (v ++ "\n", none) else ("No such volume", some "exit status 1")
    | _ => ("", some "exit status 125")

/-- The store after a command: a kill stops the named running container, a remove deletes the
named stopped container, a network or volume removal deletes the named network or volume;
a command that fails, and every other command, changes nothing. -/
def Store.apply (σ : Store) (args : List String) : Store :=
  match args with
  | ["kill", c] =>
    if c ∈ σ.running then { σ with running := σ.running.erase c, stopped := σ.stopped ++ [c] }
    else σ
  | ["rm", c] => { σ with stopped := σ.stopped.erase c }
  | ["network", "rm", n] => if σ.network = some n then { σ with network := none } else σ
  | ["volume", "rm", v] => { σ with volumes := σ.volumes.erase v }
  | _ => σ

/-- The store after the commands of a trace, from the store `σ`. -/
def storeAfter (σ : Store) (t : List Event) : Store := (execs t).foldl Store.apply σ

/-- The environment of a tool that starts with the store `σ` and answers every command from
the store left by the commands issued so far. -/
def storeEnv (σ : Store) : Env :=
  { docker := fun t args => (storeAfter σ t).answer args
    sqlOpen := fun _ _ => none
    sqlQuery := fun _ _ _ => Except.ok [] }

/-- A store with two running nodes and the helper sandbox, a stopped node, the network and
three volumes. -/
def clusterStore : Store :=
  { running := ["goki-client", "goki-1", "goki-2"]
    stopped := ["goki-3"]
    network := some "goki-net"
    volumes := ["goki-volume-1", "goki-volume-2", "goki-volume-client"] }

/-- The events of a `deleteGokiCluster` run that finds nothing to delete: the two container
listings, the container header and `Nothing`, the network listing, its header and `Nothing`
and, when volume deletion is requested, the volume listing, its header and `Nothing`. -/
def nothingToDelete (flags : DeleteCmdFlags) : List Event :=
  [Event.exec liveListArgs, Event.exec allListArgs,
   Event.stdout "  Docker Containers:\n", Event.stdout "    Nothing\n",
   Event.exec deleteGokiNetworkLsArgs,
   Event.stdout "  Docker Network:\n", Event.stdout "    Nothing\n"] ++
  (if flags.volume = true then
    [Event.exec deleteGokiVolumeLsArgs,
     Event.stdout "  Docker Volumes:\n", Event.stdout "    Nothing\n"]
   else [])

/-- The address `checkGokiNode` compares the reported address with, for the expected
ordinal `g`. -/
def expectedAddress (g : Int) : String := gokiResourceName ++ "-" ++ itoa g ++ ":26257"

/-- The error `checkGokiNode` returns for a row it rejects. -/
def identityMismatch : String := "node number and internal ID does not match"

/-- An environment whose cluster reports, for every queried node id, the single row
`(7, "goki-9:26257")`; every docker command succeeds with empty output. -/
def strangerEnv : Env :=
  { docker := fun _ _ => ("", none)
    sqlOpen := fun _ _ => none
    sqlQuery := fun _ _ _ => Except.ok [Except.ok (7, "goki-9:26257")] }

/-- The value of a decimal digit character. -/
def digitValue (c : Char) : Nat := c.toNat - 48

/-- The number written by a list of decimal digits. -/
def decimalValue (l : List Char) : Nat := l.foldl (fun a c => 10 * a + digitValue c) 0

/-- The name of the volume with the given suffix, as built in `volumeCreateArgs` and in the
`--mount` arguments. -/
def volumeName (suffix : String) : String := gokiResourceName ++ "-volume-" ++ suffix

/-- The naming invariant of a node start command `c` for the ordinal `i`: the sandbox is
named `goki-<i>`, mounts the data volume `goki-volume-<i>` and uses the certificate directory
`node-certs/goki-<i>`. -/
def NamedForNode (i : Int) (c : List String) : Prop :=
  ("--name=" ++ gokiName i) ∈ c ∧
  ("--mount=type=volume,src=" ++ volumeName (itoa i) ++ ",dst=/cockroach/cockroach-data") ∈ c ∧
  ("--certs-dir=certs/node-certs/" ++ gokiName i) ∈ c

/-- The volumes `createGokiVolume` has to create for a node count `n`, in the order of
creation: the credential volume, then the data volumes of the nodes 1..`n`. -/
def volumeCommands (n : Int) : List (List String) :=
  volumeCreateArgs "client" :: (nodesFrom 1 n.toNat).map (fun i => volumeCreateArgs (itoa i))

/-- An environment in which the creation of the data volume of node 2 fails and every other
command succeeds. -/
def volumeFailEnv : Env :=
  { docker := fun _ args =>
      if args = volumeCreateArgs "2" then ("no space left", some "exit status 1")
      else ("", none)
    sqlOpen := fun _ _ => none
    sqlQuery := fun _ _ _ => Except.ok [] }

/-- The lines `showContainerStatus` prints for one of its two lists: `Nothing` when the list
is empty, and one indented line per name. -/
def statusLines (l : List String) : List Event :=
  (if l.length = 0 then [Event.stdout "  Nothing\n"] else []) ++
    l.map (fun name => Event.stdout ("  " ++ name ++ "\n"))

/-- An environment with the helper sandbox, a running `goki-1` and a stopped `goki-2`, as
seen by the three listings of the status command. -/
def statusEnv : Env :=
  { docker := fun _ args =>
      if args = getNumberOfContainersArgs then ("goki-client\ngoki-1\ngoki-2\n", none)
      else if args = liveListArgs then ("goki-client\ngoki-1\n", none)
      else if args = allListArgs then ("goki-client\ngoki-1\ngoki-2\n", none)
      else ("", none)
    sqlOpen := fun _ _ => none
    sqlQuery := fun _ _ _ => Except.ok [] }

/-- The answer of the tool to the start command of the first node, issued by
`createFirstGoki` from state `s`: after the opening print, with the region and zone as they
are after the locality block. -/
def firstNodeAnswer (env : Env) (flags : CreateCmdFlags) (s : State) : CmdResult :=
  env.docker (s.trace ++ [Event.stdout "INFO: Creating First node start.\n"])
    (createFirstGokiArgs flags (if flags.locality = true then 1 else s.gokiRegionId)
      (if flags.locality = true then 1 else s.gokiZoneId))

/-- The events of `createFirstGoki` on a fresh run from state `s`, up to and including the
cluster initialisation, when the first node starts with output `out`: the opening print, the
start command of the first node, the report of the created sandbox, the settle delay, two
prints and the initialisation command. -/
def firstNodeHead (flags : CreateCmdFlags) (s : State) (out : String) : List Event :=
  [Event.stdout "INFO: Creating First node start.\n",
   Event.exec (createFirstGokiArgs flags (if flags.locality = true then 1 else s.gokiRegionId)
     (if flags.locality = true then 1 else s.gokiZoneId)),
   Event.stdout ("INFO: Created container is: " ++ out),
   Event.sleep 1,
   Event.stdout "INFO: Creating First node done.\n",
   Event.stdout "INFO: Initializing Cluster start.\n",
   Event.exec initClusterArgs]

/-- The events of `createFirstGoki` after a successful cluster initialisation, when
everything succeeds: the closing print of the initialisation, the root password, the user
creation, the two database calls of the identity verification of node 1, the final print. -/
def firstNodeBootstrap : List Event :=
  [Event.stdout "INFO: Initializing Cluster done.\n",
   Event.exec setRootPasswordArgs,
   Event.exec createNonRootUserArgs,
   Event.sqlOpen checkGokiNodeConnStr,
   Event.sqlQuery checkGokiNodeQuery 1,
   Event.stdout "INFO: Creating First node done.\n"]

/-- The calls of `createCmd.RunE` between the entry checks and `createFirstGoki`: the banner,
the network, the volumes, the helper sandbox and the certificates. -/
def beforeFirstNode (env : Env) (flags : CreateCmdFlags) : Step :=
  seqSteps ((createBringUpSteps env flags).take 5)

/-- An event that starts one of the nodes 2, 3, ...: a start command built by the rollout. -/
def StartsLaterNode (flags : CreateCmdFlags) (e : Event) : Prop :=
  ∃ i r z, e = Event.exec (createGokiClusterArgs flags i r z)

/-- An environment in which the start of the first node fails and every other command
succeeds. -/
def firstNodeFailsEnv : Env :=
  { docker := fun _ args =>
      if args.take 3 = ["run", "-d", "--name=goki-1"] then
        ("port is already allocated", some "exit status 125")
      else ("", none)
    sqlOpen := fun _ _ => none
    sqlQuery := fun _ _ _ => Except.ok [] }

/-- An environment with three labeled sandboxes, the helper, a running `goki-1` and a stopped
`goki-3`: the index 2 of the range 1..2 the status command walks is in neither listing. -/
def statusGapEnv : Env :=
  { docker := fun _ args =>
      if args = getNumberOfContainersArgs then ("goki-client\ngoki-1\ngoki-3\n", none)
      else if args = liveListArgs then ("goki-client\ngoki-1\n", none)
      else if args = allListArgs then ("goki-client\ngoki-1\ngoki-3\n", none)
      else ("", none)
    sqlOpen := fun _ _ => none
    sqlQuery := fun _ _ _ => Except.ok [] }

/-- The state in which the loop of `showContainerStatus`, started in `s`, asks `gokiIsDead`
about the index `j + 1`, as long as no earlier index gave an error: the state `gokiIsDead`
left after the indices 1..`j`. -/
def statusStateAt (env : Env) (s : State) : Nat → State
  | 0 => s
  | j + 1 => (gokiIsDead env ((j : Int) + 1) (statusStateAt env s j)).2

/-- The answer `(bool, error)` of `gokiIsDead` for the index `j + 1`, in the state in which
the loop of `showContainerStatus` asks for it. -/
def statusVerdict (env : Env) (s : State) (j : Nat) : Bool × Option String :=
  (gokiIsDead env ((j : Int) + 1) (statusStateAt env s j)).1

/-- The names of the indices among 1..`k` that `gokiIsDead` answers with `(false, nil)`
(Running), in ascending order. -/
def statusAlive (env : Env) (s : State) (k : Nat) : List String :=
  ((List.range k).filter (fun j => decide (statusVerdict env s j = (false, none)))).map
    (fun (j : Nat) => gokiName ((j : Int) + 1))

/-- The names of the indices among 1..`k` that `gokiIsDead` answers with `(true, nil)`
(Stopped), in ascending order. -/
def statusDead (env : Env) (s : State) (k : Nat) : List String :=
  ((List.range k).filter (fun j => decide (statusVerdict env s j = (true, none)))).map
    (fun (j : Nat) => gokiName ((j : Int) + 1))

/-- The indices `j` (for the node `j + 1`) among 1..`k` that `gokiIsDead` answers with an
error: the does-not-exist error of an index in neither listing (Absent), or the error of a
listing that failed. -/
def statusRefused (env : Env) (s : State) (k : Nat) : List Nat :=
  (List.range k).filter (fun j => (statusVerdict env s j).2.isSome)

/-- A step reports its errors: it only adds events to the trace, and whenever it returns an
error it has written to the error stream. -/
def Loud (f : Step) : Prop :=
  ∀ s, ∃ evs, (f s).2.trace = s.trace ++ evs ∧
    ((f s).1 ≠ none → ∃ x, Event.stderr x ∈ evs)

/-- The operation `gokiIsDead` as a step: the error it returns and the state it leaves. -/
def gokiIsDeadStep (env : Env) (id : Int) : Step :=
  fun s => ((gokiIsDead env id s).1.2, (gokiIsDead env id s).2)

/-- A step over node `id` reports its errors, one return apart: it only adds events to the
trace, and whenever it returns an error that is not the does-not-exist error of `gokiIsDead`
it has written to the error stream. -/
def LoudButAbsent (id : Int) (f : Step) : Prop :=
  ∀ s, ∃ evs, (f s).2.trace = s.trace ++ evs ∧
    (∀ e, (f s).1 = some e → (∃ x, Event.stderr x ∈ evs) ∨ e = doesNotExist id)

/-- An environment in which every docker command fails with exit status 1 and the output
`daemon down`. -/
def dockerDownEnv : Env :=
  { docker := fun _ _ => ("daemon down", some "exit status 1")
    sqlOpen := fun _ _ => none
    sqlQuery := fun _ _ _ => Except.ok [] }

/-! ## Trace invariants -/

section Framework
variable {C : List String → Prop} {D : Prop} {b : Bool}

theorem Reaches.refl (s : State) : Reaches C D s s :=
  ⟨rfl, [], by simp, by simp⟩

theorem Reaches.trans {s t u : State} (h1 : Reaches C D s t) (h2 : Reaches C D t u) :
    Reaches C D s u := by
  obtain ⟨hf1, e1, ht1, ha1⟩ := h1
  obtain ⟨hf2, e2, ht2, ha2⟩ := h2
  refine ⟨hf2.trans hf1, e1 ++ e2, by rw [ht2, ht1, List.append_assoc], ?_⟩
  intro e he
  rcases List.mem_append.mp he with h | h
  · exact ha1 e h
  · exact ha2 e h

theorem Reaches.mono {E : List String → Prop} {F : Prop} {s t : State}
    (h : Reaches C D s t) (hC : ∀ a, C a → E a) (hD : D → F) : Reaches E F s t := by
  obtain ⟨hf, evs, ht, ha⟩ := h
  refine ⟨hf, evs, ht, ?_⟩
  intro e he
  have := ha e he
  cases e <;> simp only [Allowed] at this ⊢
  · exact hC _ this
  · exact hD this
  · exact hD this

theorem Reaches.emit {s t : State} {e : Event} (he : Allowed C D e) (h : Reaches C D s t) :
    Reaches C D s (t.emit e) :=
  h.trans ⟨rfl, [e], rfl, by simpa using he⟩

theorem Reaches.out {s t : State} {x : String} (h : Reaches C D s t) : Reaches C D s (t.out x) :=
  h.emit (by simp [Allowed])

theorem Reaches.err {s t : State} {x : String} (h : Reaches C D s t) : Reaches C D s (t.err x) :=
  h.emit (by simp [Allowed])

theorem Reaches.sleep {s t : State} {k : Nat} (h : Reaches C D s t) :
    Reaches C D s (t.emit (Event.sleep k)) :=
  h.emit (by simp [Allowed])

theorem Reaches.ran {s t : State} {args : List String} (ha : C args) (h : Reaches C D s t) :
    Reaches C D s (t.ran args) :=
  h.emit (by simpa [Allowed] using ha)

theorem andThen_tame {f g : Step} (hf : Tame C D b f) (hg : Tame C D b g) :
    Tame C D b (andThen f g) := by
  intro s hs
  have h1 := hf s hs
  unfold andThen
  split
  · next e s1 heq => rw [heq] at h1; exact h1
  · next s1 heq =>
    rw [heq] at h1
    exact h1.trans (hg s1 (h1.1.trans hs))

theorem seqSteps_tame {l : List Step} (h : ∀ f ∈ l, Tame C D b f) :
    Tame C D b (seqSteps l) := by
  induction l with
  | nil => intro s _; exact Reaches.refl s
  | cons a rest ih =>
    exact andThen_tame (h a (by simp)) (ih (fun f hf => h f (by simp [hf])))

theorem loopFrom_tame {body : Int → Step} (h : ∀ i, Tame C D b (body i)) (k : Nat) :
    ∀ i, Tame C D b (loopFrom body k i) := by
  induction k with
  | zero => intro i s _; exact Reaches.refl s
  | succ k ih =>
    intro i s hs
    have h1 := h i s hs
    unfold loopFrom
    split
    · next e s1 heq => rw [heq] at h1; exact h1
    · next s1 heq =>
      rw [heq] at h1
      exact h1.trans (ih (i + 1) s1 (h1.1.trans hs))

theorem forRange_tame {body : Int → Step} (h : ∀ i, Tame C D b (body i)) (lo hi : Int) :
    Tame C D b (forRange lo hi body) :=
  loopFrom_tame h _ lo

theorem Tame.after {f : Step} (hf : Tame C D b f) {s t : State}
    (h : Reaches C D s t) (hs : s.gokiVolumeAlreadyExist = b) : Reaches C D s (f t).2 :=
  h.trans (hf t (h.1.trans hs))

theorem say_tame (x : String) : Tame C D b (say x) :=
  fun s _ => (Reaches.refl s).out

theorem execOrFail_tame (env : Env) {args : List String} (pre : String) (ha : C args) :
    Tame C D b (execOrFail env args pre) := by
  intro s _
  unfold execOrFail
  dsimp only
  split
  · exact ((Reaches.refl s).ran ha).err
  · exact (Reaches.refl s).ran ha



theorem createGokiNetwork_tame (env : Env) (ha : C createGokiNetworkArgs) :
    Tame C D b (createGokiNetwork env) := by
  intro s _
  unfold createGokiNetwork
  dsimp only
  split
  · exact (((Reaches.refl s).out).ran ha).err
  · exact ((((Reaches.refl s).out).ran ha).out).out

theorem createOneVolume_tame (env : Env) (suffix : String) (ha : C (volumeCreateArgs suffix)) :
    Tame C D b (createOneVolume env suffix) := by
  intro s _
  unfold createOneVolume
  dsimp only
  split
  · exact ((Reaches.refl s).ran ha).err
  · exact ((Reaches.refl s).ran ha).out

theorem createGokiVolume_tame (env : Env) (flags : CreateCmdFlags)
    (ha : ∀ suffix, C (volumeCreateArgs suffix)) : Tame C D b (createGokiVolume env flags) := by
  unfold createGokiVolume
  apply seqSteps_tame
  intro f hf
  simp only [List.mem_cons, List.mem_singleton, List.not_mem_nil, or_false] at hf
  rcases hf with rfl | rfl | rfl | rfl
  · exact say_tame _
  · exact createOneVolume_tame env _ (ha _)
  · exact forRange_tame (fun i => createOneVolume_tame env _ (ha _)) _ _
  · exact say_tame _

theorem createClientContainer_tame (env : Env) (flags : CreateCmdFlags)
    (ha : C (createClientContainerArgs flags)) : Tame C D b (createClientContainer env flags) := by
  intro s _
  unfold createClientContainer
  dsimp only
  split
  · exact (((Reaches.refl s).out).ran ha).err
  · exact ((((Reaches.refl s).out).ran ha).out).out

theorem certNodeStep_tame (env : Env) (i : Int)
    (h1 : C (certCreateNodeArgs i)) (h2 : C (certCopyNodeArgs i)) :
    Tame C D b (certNodeStep env i) := by
  unfold certNodeStep
  apply seqSteps_tame
  intro f hf
  simp only [List.mem_cons, List.mem_singleton, List.not_mem_nil, or_false] at hf
  rcases hf with rfl | rfl
  · exact execOrFail_tame env _ h1
  · exact execOrFail_tame env _ h2

theorem createCertFile_tame (env : Env) (flags : CreateCmdFlags)
    (h1 : C certMkSafeDirArgs) (h2 : ∀ i, C (certMkNodeDirArgs i)) (h3 : C certCreateCaArgs)
    (h4 : ∀ i, C (certCreateNodeArgs i)) (h5 : ∀ i, C (certCopyNodeArgs i))
    (h6 : C certCreateClientArgs) (h7 : C certCopyClientArgs) :
    Tame C D b (createCertFile env flags) := by
  unfold createCertFile
  apply seqSteps_tame
  intro f hf
  simp only [List.mem_cons, List.mem_singleton, List.not_mem_nil, or_false] at hf
  rcases hf with rfl | rfl | rfl | rfl | rfl | rfl | rfl | rfl
  · exact say_tame _
  · exact execOrFail_tame env _ h1
  · exact forRange_tame (fun i => execOrFail_tame env _ (h2 i)) _ _
  · exact execOrFail_tame env _ h3
  · exact forRange_tame (fun i => certNodeStep_tame env i (h4 i) (h5 i)) _ _
  · exact execOrFail_tame env _ h6
  · exact execOrFail_tame env _ h7
  · exact say_tame _

theorem checkGokiNodeRows_reaches (g : Int) (rows : List Row) (s : State) :
    Reaches C D s (checkGokiNodeRows g rows s).2 := by
  induction rows with
  | nil => exact Reaches.refl s
  | cons r rest ih =>
    rcases r with e | ⟨id, address⟩
    · exact (Reaches.refl s).err
    · unfold checkGokiNodeRows
      split
      · exact (Reaches.refl s).err
      · exact ih

theorem checkGokiNode_tame (env : Env) (g : Int) (hD : D) : Tame C D b (checkGokiNode env g) := by
  intro s _
  unfold checkGokiNode
  dsimp only
  split
  · exact ((Reaches.refl s).emit (by simpa [Allowed] using hD)).err
  · split
    · exact (((Reaches.refl s).emit (by simpa [Allowed] using hD)).emit
        (by simpa [Allowed] using hD)).err
    · exact (((Reaches.refl s).emit (by simpa [Allowed] using hD)).emit
        (by simpa [Allowed] using hD)).trans (checkGokiNodeRows_reaches _ _ _)


theorem firstGokiBootstrap_tame (env : Env) (flags : CreateCmdFlags) :
    Tame (BringUpCmd flags false) (false = false) false (firstGokiBootstrap env) := by
  unfold firstGokiBootstrap
  apply seqSteps_tame
  intro f hf
  simp only [List.mem_cons, List.mem_singleton, List.not_mem_nil, or_false] at hf
  rcases hf with rfl | rfl | rfl
  · exact execOrFail_tame env _ (BringUpCmd.rootPassword rfl)
  · exact execOrFail_tame env _ (BringUpCmd.nonRootUser rfl)
  · exact checkGokiNode_tame env 1 rfl

theorem firstGokiInit_tame (env : Env) (flags : CreateCmdFlags) :
    Tame (BringUpCmd flags false) (false = false) false (firstGokiInit env) := by
  unfold firstGokiInit
  apply seqSteps_tame
  intro f hf
  simp only [List.mem_cons, List.mem_singleton, List.not_mem_nil, or_false] at hf
  rcases hf with rfl | rfl | rfl
  · exact say_tame _
  · exact execOrFail_tame env _ (BringUpCmd.init rfl)
  · exact say_tame _

theorem firstGokiTail_tame (env : Env) (flags : CreateCmdFlags) (b : Bool) :
    Tame (BringUpCmd flags b) (b = false) b (firstGokiTail env) := by
  unfold firstGokiTail
  apply seqSteps_tame
  intro f hf
  simp only [List.mem_cons, List.mem_singleton, List.not_mem_nil, or_false] at hf
  rcases hf with rfl | rfl | rfl
  · intro s hs
    cases b
    · simpa [hs] using firstGokiInit_tame env flags s hs
    · simpa [hs] using say_tame (C := BringUpCmd flags true) (D := true = false) (b := true) _ s hs
  · intro s hs
    cases b
    · simpa [hs] using firstGokiBootstrap_tame env flags s hs
    · simpa [hs] using Reaches.refl s
  · exact say_tame _

theorem createFirstGoki_tame (env : Env) (flags : CreateCmdFlags) (b : Bool) :
    Tame (BringUpCmd flags b) (b = false) b (createFirstGoki env flags) := by
  intro s hs
  unfold createFirstGoki
  dsimp only
  have h0 : Reaches (BringUpCmd flags b) (b = false) s
      (if flags.locality = true then
        { s.out "INFO: Creating First node start.\n" with gokiRegionId := 1, gokiZoneId := 1 }
       else s.out "INFO: Creating First node start.\n") := by
    split
    · exact ⟨rfl, [Event.stdout "INFO: Creating First node start.\n"], rfl, by simp [Allowed]⟩
    · exact (Reaches.refl s).out
  split
  · exact (h0.ran (BringUpCmd.firstNode _ _)).err
  · exact (firstGokiTail_tame env flags b).after
      (Reaches.out (Reaches.sleep (Reaches.out (h0.ran (BringUpCmd.firstNode _ _))))) hs

theorem setLocality_reaches (flags : CreateCmdFlags) (i : Int) (s : State) :
    Reaches C D s (setLocality flags i s) := by
  unfold setLocality
  refine ⟨?_, [], ?_, by simp⟩
  · repeat' split
    all_goals rfl
  · repeat' split
    all_goals simp

theorem checkNodeUnlessReuse_tame (env : Env) (flags : CreateCmdFlags) (b : Bool) (i : Int) :
    Tame (BringUpCmd flags b) (b = false) b (checkNodeUnlessReuse env i) := by
  intro s hs
  unfold checkNodeUnlessReuse
  cases b
  · simpa [hs] using checkGokiNode_tame (C := BringUpCmd flags false) (D := false = false) env i rfl s hs
  · simpa [hs] using Reaches.refl s

theorem createGokiClusterNode_tame (env : Env) (flags : CreateCmdFlags) (b : Bool) (i : Int) :
    Tame (BringUpCmd flags b) (b = false) b (createGokiClusterNode env flags i) := by
  intro s hs
  unfold createGokiClusterNode
  dsimp only
  have h0 : Reaches (BringUpCmd flags b) (b = false) s (setLocality flags i s) :=
    setLocality_reaches flags i s
  split
  · exact (h0.ran (BringUpCmd.node _ _ _)).err
  · exact (checkNodeUnlessReuse_tame env flags b i).after
      (Reaches.sleep (Reaches.out (h0.ran (BringUpCmd.node i _ _)))) hs

theorem createGokiCluster_tame (env : Env) (flags : CreateCmdFlags) (b : Bool) :
    Tame (BringUpCmd flags b) (b = false) b (createGokiCluster env flags) := by
  unfold createGokiCluster
  apply seqSteps_tame
  intro f hf
  simp only [List.mem_cons, List.mem_singleton, List.not_mem_nil, or_false] at hf
  rcases hf with rfl | rfl | rfl
  · exact say_tame _
  · exact forRange_tame (fun i => createGokiClusterNode_tame env flags b i) _ _
  · exact say_tame _

theorem checkSqlConnectionLoop_tame (env : Env) (ha : C checkSqlConnectionAcceptanceArgs) (k : Nat) :
    ∀ i, Tame C D b (checkSqlConnectionLoop env k i) := by
  induction k with
  | zero => intro i s _; exact Reaches.refl s
  | succ k ih =>
    intro i s hs
    unfold checkSqlConnectionLoop
    dsimp only
    have h1 : Reaches C D s ((s.emit (Event.sleep 1)).ran checkSqlConnectionAcceptanceArgs) :=
      ((Reaches.refl s).sleep).ran ha
    split
    · split
      · exact (ih (i + 1)).after h1.out hs
      · exact (h1.err).out
    · exact h1.out

theorem confirmClusterStatus_tame (env : Env) (ha : C confirmClusterStatusArgs) :
    Tame C D b (confirmClusterStatus env) := by
  intro s _
  unfold confirmClusterStatus
  dsimp only
  split
  · exact (((Reaches.refl s).out).ran ha).err
  · exact (((Reaches.refl s).out).ran ha).out

theorem showCockroach_tame (env : Env) (ha : C showCockroachArgs) :
    Tame C D b (showCockroach env) := by
  intro s _
  unfold showCockroach
  dsimp only
  split
  · exact ((Reaches.refl s).ran ha).err
  · exact ((Reaches.refl s).ran ha).out

theorem showAccessCommand_reaches (s : State) : Reaches C D s (showAccessCommand s) := by
  unfold showAccessCommand
  repeat' apply Reaches.out
  exact Reaches.refl s

theorem createBanner_tame (flags : CreateCmdFlags) : Tame C D b (createBanner flags) := by
  intro s _
  unfold createBanner
  dsimp only
  split
  · exact (((Reaches.refl s).out).out).out
  · exact ((Reaches.refl s).out).out

theorem createBringUpSteps_tame (env : Env) (flags : CreateCmdFlags) (b : Bool) :
    ∀ f ∈ createBringUpSteps env flags, Tame (BringUpCmd flags b) (b = false) b f := by
  unfold createBringUpSteps
  intro f hf
  simp only [List.mem_cons, List.mem_singleton, List.not_mem_nil, or_false] at hf
  rcases hf with rfl | rfl | rfl | rfl | rfl | rfl | rfl | rfl | rfl | rfl | rfl | rfl
  · exact createBanner_tame flags
  · exact createGokiNetwork_tame env BringUpCmd.network
  · exact createGokiVolume_tame env flags BringUpCmd.volume
  · exact createClientContainer_tame env flags BringUpCmd.client
  · exact createCertFile_tame env flags BringUpCmd.certSafeDir BringUpCmd.certNodeDir
      BringUpCmd.certCa BringUpCmd.certNode BringUpCmd.certCopyNode BringUpCmd.certClient
      BringUpCmd.certCopyClient
  · exact createFirstGoki_tame env flags b
  · exact createGokiCluster_tame env flags b
  · exact checkSqlConnectionLoop_tame env BringUpCmd.sqlReady 10 0
  · exact confirmClusterStatus_tame env BringUpCmd.status
  · intro s hs
    cases b
    · simpa [hs, loadIntroDB] using execOrFail_tame (C := BringUpCmd flags false)
        (D := false = false) (b := false) env _ (BringUpCmd.introDB rfl) s hs
    · simpa [hs] using Reaches.refl s
  · exact showCockroach_tame env BringUpCmd.cockroach
  · intro s _
    exact showAccessCommand_reaches s

theorem createBringUp_tame (env : Env) (flags : CreateCmdFlags) (b : Bool) :
    Tame (BringUpCmd flags b) (b = false) b (createBringUp env flags) :=
  seqSteps_tame (createBringUpSteps_tame env flags b)

end Framework

/-! ## Locality (C1, C2, C3) -/

theorem execs_append (a b : List Event) : execs (a ++ b) = execs a ++ execs b := by
  induction a with
  | nil => rfl
  | cons e rest ih => cases e <;> simp [execs, ih]

theorem Reaches.execs_extend {C : List String → Prop} {D : Prop} {s t : State}
    (h : Reaches C D s t) : ∃ rest, execs t.trace = execs s.trace ++ rest := by
  obtain ⟨_, evs, ht, _⟩ := h
  exact ⟨execs evs, by rw [ht, execs_append]⟩

theorem setLocality_trace (flags : CreateCmdFlags) (i : Int) (s : State) :
    (setLocality flags i s).trace = s.trace := by
  unfold setLocality
  repeat' split
  all_goals rfl

theorem setLocality_region (flags : CreateCmdFlags) (n : Int) (s : State)
    (hl : flags.locality = true) (h2 : 2 ≤ n) (h9 : n ≤ 9) :
    (setLocality flags n s).gokiRegionId = specRegion n := by
  have hz : ∀ (c : Prop) [Decidable c] (s1 : State) (a b : Int),
      (if c then { s1 with gokiZoneId := a } else { s1 with gokiZoneId := b }).gokiRegionId =
        s1.gokiRegionId := by
    intro c _ s1 a b
    split <;> rfl
  unfold setLocality specRegion
  rw [if_pos hl]
  dsimp only
  rw [hz]
  interval_cases n <;> simp <;> (symm; norm_num [Int.ceil_eq_iff])

theorem setLocality_zone (flags : CreateCmdFlags) (n : Int) (s : State)
    (hl : flags.locality = true) (h2 : 2 ≤ n) (h9 : n ≤ 9) :
    (setLocality flags n s).gokiZoneId = specZone n := by
  have hz : ∀ (c : Prop) [Decidable c] (s1 : State) (a b : Int),
      (if c then { s1 with gokiZoneId := a } else { s1 with gokiZoneId := b }).gokiZoneId =
        if c then a else b := by
    intro c _ s1 a b
    split <;> rfl
  unfold setLocality
  rw [if_pos hl]
  dsimp only
  rw [hz]
  interval_cases n <;> decide

theorem execs_after {C : List String → Prop} {D : Prop} {f : Step}
    (hf : ∀ t, Reaches C D t (f t).2) (t : State) (pre : List (List String)) (x : List String)
    (h : execs t.trace = pre ++ [x]) : ∃ rest, execs (f t).2.trace = pre ++ x :: rest := by
  obtain ⟨rest, hrest⟩ := (hf t).execs_extend
  exact ⟨rest, by rw [hrest, h]; simp⟩

/-- The first docker command `createFirstGoki` issues is the start of node 1 with the region
and zone variables as they are after the locality block. -/
theorem createFirstGoki_first_command (env : Env) (flags : CreateCmdFlags) (s : State) :
    ∃ rest, execs (createFirstGoki env flags s).2.trace =
      execs s.trace ++ createFirstGokiArgs flags
        (if flags.locality = true then 1 else s.gokiRegionId)
        (if flags.locality = true then 1 else s.gokiZoneId) :: rest := by
  unfold createFirstGoki
  dsimp only
  split
  · refine ⟨[], ?_⟩
    cases hl : flags.locality <;>
      simp [State.err, State.ran, State.out, State.emit, execs_append, execs]
  · apply execs_after (C := fun _ => True) (D := True) (fun t =>
      (firstGokiTail_tame env flags _ t rfl).mono (fun _ _ => trivial) (fun _ => trivial))
    cases hl : flags.locality <;>
      simp [State.err, State.ran, State.out, State.emit, execs_append, execs]

/-- The first docker command the loop body for node `i` issues is the start of node `i` with
the region and zone variables as `setLocality` leaves them. -/
theorem createGokiClusterNode_first_command (env : Env) (flags : CreateCmdFlags) (i : Int)
    (s : State) :
    ∃ rest, execs (createGokiClusterNode env flags i s).2.trace =
      execs s.trace ++ createGokiClusterArgs flags i (setLocality flags i s).gokiRegionId
        (setLocality flags i s).gokiZoneId :: rest := by
  unfold createGokiClusterNode
  dsimp only
  split
  · refine ⟨[], ?_⟩
    simp [State.err, State.ran, State.out, State.emit, execs_append, execs, setLocality_trace]
  · apply execs_after (C := fun _ => True) (D := True) (fun t =>
      (checkNodeUnlessReuse_tame env flags _ i t rfl).mono (fun _ _ => trivial) (fun _ => trivial))
    simp [State.err, State.ran, State.out, State.emit, execs_append, execs, setLocality_trace]

/-- C1: with locality assignment enabled, for every node index `n` in 1..9 the start command of
node `n` (the first docker command of `createFirstGoki` for `n = 1`, of the loop body of
`createGokiCluster` for `n >= 2`) is built with region `ceil(n / 3)`. -/
theorem start_command_region (env : Env) (flags : CreateCmdFlags) (s : State) (n : Int)
    (hl : flags.locality = true) (h1 : 1 ≤ n) (h9 : n ≤ 9) :
    (n = 1 → ∃ z rest, execs (createFirstGoki env flags s).2.trace =
        execs s.trace ++ createFirstGokiArgs flags ⌈(n : ℚ) / 3⌉ z :: rest) ∧
    (2 ≤ n → ∃ z rest, execs (createGokiClusterNode env flags n s).2.trace =
        execs s.trace ++ createGokiClusterArgs flags n ⌈(n : ℚ) / 3⌉ z :: rest) := by
  constructor
  · intro hn
    subst hn
    obtain ⟨rest, h⟩ := createFirstGoki_first_command env flags s
    have h3 : ⌈((1 : Int) : ℚ) / 3⌉ = 1 := by norm_num [Int.ceil_eq_iff]
    rw [if_pos hl, if_pos hl] at h
    exact ⟨1, rest, by rw [h, h3]⟩
  · intro h2
    obtain ⟨rest, h⟩ := createGokiClusterNode_first_command env flags n s
    refine ⟨(setLocality flags n s).gokiZoneId, rest, ?_⟩
    rw [h, setLocality_region flags n s hl h2 h9]
    rfl

theorem start_command_region_witness :
    ∃ z rest, execs (createGokiClusterNode quietEnv ⟨9, "v22.2.0", true⟩ 7 State.init).2.trace =
      execs State.init.trace ++
        createGokiClusterArgs ⟨9, "v22.2.0", true⟩ 7 ⌈((7 : Int) : ℚ) / 3⌉ z :: rest :=
  (start_command_region quietEnv ⟨9, "v22.2.0", true⟩ State.init 7 rfl (by decide) (by decide)).2
    (by decide)


/-- C2: with locality assignment enabled, for every node index `n` in 1..9 the start command of
node `n` is built with zone `n mod 3`, or 3 when that remainder is 0; the zone lies in 1..3;
and nodes 1, 3, 4, 9 get (region, zone) = (1,1), (1,3), (2,1), (3,3). -/
theorem start_command_zone (env : Env) (flags : CreateCmdFlags) (s : State) (n : Int)
    (hl : flags.locality = true) (h1 : 1 ≤ n) (h9 : n ≤ 9) :
    (n = 1 → ∃ r rest, execs (createFirstGoki env flags s).2.trace =
        execs s.trace ++ createFirstGokiArgs flags r (if n % 3 = 0 then 3 else n % 3) :: rest) ∧
    (2 ≤ n → ∃ r rest, execs (createGokiClusterNode env flags n s).2.trace =
        execs s.trace ++
          createGokiClusterArgs flags n r (if n % 3 = 0 then 3 else n % 3) :: rest) ∧
    (1 ≤ (if n % 3 = 0 then 3 else n % 3) ∧ (if n % 3 = 0 then 3 else n % 3) ≤ 3) ∧
    (∃ rest, execs (createFirstGoki env flags s).2.trace =
        execs s.trace ++ createFirstGokiArgs flags 1 1 :: rest) ∧
    (∃ rest, execs (createGokiClusterNode env flags 3 s).2.trace =
        execs s.trace ++ createGokiClusterArgs flags 3 1 3 :: rest) ∧
    (∃ rest, execs (createGokiClusterNode env flags 4 s).2.trace =
        execs s.trace ++ createGokiClusterArgs flags 4 2 1 :: rest) ∧
    (∃ rest, execs (createGokiClusterNode env flags 9 s).2.trace =
        execs s.trace ++ createGokiClusterArgs flags 9 3 3 :: rest) := by
  have hfirst : ∃ rest, execs (createFirstGoki env flags s).2.trace =
      execs s.trace ++ createFirstGokiArgs flags 1 1 :: rest := by
    obtain ⟨rest, h⟩ := createFirstGoki_first_command env flags s
    rw [if_pos hl, if_pos hl] at h
    exact ⟨rest, h⟩
  have hnode : ∀ m : Int, 2 ≤ m → m ≤ 9 →
      ∃ rest, execs (createGokiClusterNode env flags m s).2.trace =
        execs s.trace ++ createGokiClusterArgs flags m (specRegion m) (specZone m) :: rest := by
    intro m h2 hm
    obtain ⟨rest, h⟩ := createGokiClusterNode_first_command env flags m s
    rw [setLocality_region flags m s hl h2 hm, setLocality_zone flags m s hl h2 hm] at h
    exact ⟨rest, h⟩
  have hr : specRegion 3 = 1 ∧ specRegion 4 = 2 ∧ specRegion 9 = 3 := by
    unfold specRegion
    refine ⟨?_, ?_, ?_⟩ <;> norm_num [Int.ceil_eq_iff]
  have hz : specZone 3 = 3 ∧ specZone 4 = 1 ∧ specZone 9 = 3 := by decide
  refine ⟨?_, ?_, ?_, hfirst, ?_, ?_, ?_⟩
  · intro hn
    subst hn
    obtain ⟨rest, h⟩ := hfirst
    exact ⟨1, rest, h⟩
  · intro h2
    obtain ⟨rest, h⟩ := hnode n h2 h9
    exact ⟨specRegion n, rest, h⟩
  · interval_cases n <;> decide
  · have h := hnode 3 (by decide) (by decide)
    rwa [hr.1, hz.1] at h
  · have h := hnode 4 (by decide) (by decide)
    rwa [hr.2.1, hz.2.1] at h
  · have h := hnode 9 (by decide) (by decide)
    rwa [hr.2.2, hz.2.2] at h

theorem start_command_zone_witness :
    ∃ r rest, execs (createGokiClusterNode quietEnv ⟨9, "v22.2.0", true⟩ 6 State.init).2.trace =
      execs State.init.trace ++ createGokiClusterArgs ⟨9, "v22.2.0", true⟩ 6 r
        (if (6 : Int) % 3 = 0 then 3 else 6 % 3) :: rest :=
  (start_command_zone quietEnv ⟨9, "v22.2.0", true⟩ State.init 6 rfl (by decide) (by decide)).2.1
    (by decide)

/-- C3 (the code at the failing input): without `--set-locality` the region and zone variables
keep their initial value 0, and the start command of the first node and of every later node
still ends with the argument `--locality=region=region-0,zone=zone-0`: the locality flag is
not omitted. -/
theorem locality_argument_without_flag (env : Env) (node : Int) (version : String)
    (t : List Event) (reuse : Bool) (i : Int) :
    (∃ rest, execs (createFirstGoki env ⟨node, version, false⟩ ⟨t, reuse, 0, 0⟩).2.trace =
        execs t ++ createFirstGokiArgs ⟨node, version, false⟩ 0 0 :: rest) ∧
    (∃ rest, execs (createGokiClusterNode env ⟨node, version, false⟩ i ⟨t, reuse, 0, 0⟩).2.trace =
        execs t ++ createGokiClusterArgs ⟨node, version, false⟩ i 0 0 :: rest) ∧
    (createFirstGokiArgs ⟨node, version, false⟩ 0 0).getLast? =
        some "--locality=region=region-0,zone=zone-0" ∧
    (createGokiClusterArgs ⟨node, version, false⟩ i 0 0).getLast? =
        some "--locality=region=region-0,zone=zone-0" := by
  refine ⟨?_, ?_, ?_, ?_⟩
  · simpa using createFirstGoki_first_command env ⟨node, version, false⟩ ⟨t, reuse, 0, 0⟩
  · have h := createGokiClusterNode_first_command env ⟨node, version, false⟩ i ⟨t, reuse, 0, 0⟩
    simpa [setLocality] using h
  · simp only [createFirstGokiArgs, List.getLast?_cons_cons, List.getLast?_singleton]
    rfl
  · simp only [createGokiClusterArgs, List.getLast?_cons_cons, List.getLast?_singleton]
    rfl


/-! ## Liveness (C4, C5) -/

theorem gokiContains_iff (list : List String) (name : String) :
    gokiContains list name = true ↔ name ∈ list := by
  induction list with
  | nil => simp [gokiContains]
  | cons v rest ih =>
    unfold gokiContains
    by_cases h : name = v
    · simp [h]
    · simp [h, ih]

/-- The result and the trace of `gokiIsDead` when both listings succeed. -/
theorem gokiIsDead_eval (env : Env) (id : Int) (s : State)
    (h1 : (s.ask env liveListArgs).2 = none)
    (h2 : ((s.ran liveListArgs).ask env allListArgs).2 = none) :
    gokiIsDead env id s =
      if gokiName id ∈ runningNames env s then ((false, none), s.ran liveListArgs)
      else if gokiName id ∈ allNames env s then
        ((true, none), (s.ran liveListArgs).ran allListArgs)
      else ((false, some (doesNotExist id)), (s.ran liveListArgs).ran allListArgs) := by
  unfold gokiIsDead
  simp only [h1, h2, gokiContains_iff]
  rfl

/-- C4: when both listings succeed, `gokiIsDead` returns `(false, nil)` exactly when the name
`goki-<id>` is in the running listing, `(true, nil)` exactly when it is not there but in the
all-containers listing, and the does-not-exist error exactly when it is in neither; the three
cases exclude each other and cover everything. -/
theorem gokiIsDead_classification (env : Env) (id : Int) (s : State)
    (h1 : (s.ask env liveListArgs).2 = none)
    (h2 : ((s.ran liveListArgs).ask env allListArgs).2 = none) :
    ((gokiIsDead env id s).1 = (false, none) ↔ gokiName id ∈ runningNames env s) ∧
    ((gokiIsDead env id s).1 = (true, none) ↔
      gokiName id ∉ runningNames env s ∧ gokiName id ∈ allNames env s) ∧
    ((gokiIsDead env id s).1 = (false, some (doesNotExist id)) ↔
      gokiName id ∉ runningNames env s ∧ gokiName id ∉ allNames env s) ∧
    ((gokiIsDead env id s).1 = (false, none) ∨ (gokiIsDead env id s).1 = (true, none) ∨
      (gokiIsDead env id s).1 = (false, some (doesNotExist id))) := by
  rw [gokiIsDead_eval env id s h1 h2]
  by_cases hr : gokiName id ∈ runningNames env s
  · simp [hr]
  · by_cases ha : gokiName id ∈ allNames env s
    · simp [hr, ha]
    · simp [hr, ha]

theorem gokiIsDead_classification_witness :
    (gokiIsDead twoNodeEnv 2 State.init).1 = (true, none) ↔
      gokiName 2 ∉ runningNames twoNodeEnv State.init ∧
        gokiName 2 ∈ allNames twoNodeEnv State.init :=
  (gokiIsDead_classification twoNodeEnv 2 State.init (by decide) (by decide)).2.1


theorem gokiIsDead_static (env : Env) (runOut allOut : String)
    (hs : StaticListings env runOut allOut) (i : Int) (s : State) :
    gokiIsDead env i s =
      if gokiName i ∈ parseList runOut then ((false, none), s.ran liveListArgs)
      else if gokiName i ∈ parseList allOut then
        ((true, none), (s.ran liveListArgs).ran allListArgs)
      else ((false, some (doesNotExist i)), (s.ran liveListArgs).ran allListArgs) := by
  have e1 : s.ask env liveListArgs = (runOut, none) := (hs _).1
  have e2 : (s.ran liveListArgs).ask env allListArgs = (allOut, none) := (hs _).2
  rw [gokiIsDead_eval env i s (by rw [e1]) (by rw [e2])]
  simp only [runningNames, allNames, e1, e2]

theorem statusLoop_absent (env : Env) (runOut allOut : String)
    (hs : StaticListings env runOut allOut) (id : Int)
    (hr : gokiName id ∉ parseList runOut) (ha : gokiName id ∉ parseList allOut) (k : Nat) :
    ∀ (i : Int) (live dead : List String) (s : State), i ≤ id → id < i + k →
      ∃ j, i ≤ j ∧ j ≤ id ∧ (statusLoop env k i live dead s).1.1 = some (doesNotExist j) ∧
        ∀ x, Event.stdout x ∈ (statusLoop env k i live dead s).2.trace →
          Event.stdout x ∈ s.trace := by
  induction k with
  | zero =>
    intro i live dead s h1 h2
    simp only [Nat.cast_zero, add_zero] at h2
    omega
  | succ k ih =>
    intro i live dead s h1 h2
    unfold statusLoop
    rw [gokiIsDead_static env runOut allOut hs i s]
    have hne : gokiName i ∈ parseList runOut ∨ gokiName i ∈ parseList allOut → i + 1 ≤ id := by
      intro h
      have : i ≠ id := by
        rintro rfl
        rcases h with h | h
        · exact hr h
        · exact ha h
      omega
    have hk : id < i + 1 + (k : Int) := by
      push_cast at h2
      omega
    by_cases c1 : gokiName i ∈ parseList runOut
    · simp only [c1, if_true]
      obtain ⟨j, hj1, hj2, hj3, hj4⟩ := ih (i + 1) (live ++ [gokiResourceName ++ "-" ++ itoa i])
        dead (s.ran liveListArgs) (hne (Or.inl c1)) hk
      refine ⟨j, by omega, hj2, hj3, ?_⟩
      intro x hx
      simpa [State.ran, State.emit] using hj4 x hx
    · by_cases c2 : gokiName i ∈ parseList allOut
      · simp only [c1, c2, if_true, if_false]
        obtain ⟨j, hj1, hj2, hj3, hj4⟩ := ih (i + 1) live
          (dead ++ [gokiResourceName ++ "-" ++ itoa i])
          ((s.ran liveListArgs).ran allListArgs) (hne (Or.inr c2)) hk
        refine ⟨j, by omega, hj2, hj3, ?_⟩
        intro x hx
        simpa [State.ran, State.emit] using hj4 x hx
      · simp only [c1, c2, if_false]
        refine ⟨i, le_refl i, h1, rfl, ?_⟩
        intro x hx
        simpa [State.ran, State.emit] using hx

/-- C5: when `goki-<id>` is in neither listing, `gokiIsDead` returns the error "The specified
container goki-<id> does not exist"; `gokiJet` and `gokiRevive` return that error having issued
the two listings and nothing else; and `showContainerStatus`, over listings that do not change,
returns a does-not-exist error (that of the first absent index) without printing any report. -/
theorem absent_node_is_error (env : Env) (id : Int) :
    (∀ s : State, (s.ask env liveListArgs).2 = none →
      ((s.ran liveListArgs).ask env allListArgs).2 = none →
      gokiName id ∉ runningNames env s → gokiName id ∉ allNames env s →
        (gokiIsDead env id s).1 =
          (false, some ("The specified container " ++ gokiName id ++ " does not exist")) ∧
        gokiJet env id s =
          (some (doesNotExist id), (s.ran liveListArgs).ran allListArgs) ∧
        gokiRevive env id s =
          (some (doesNotExist id), (s.ran liveListArgs).ran allListArgs)) ∧
    (∀ (runOut allOut : String) (n : Int) (s : State), StaticListings env runOut allOut →
      gokiName id ∉ parseList runOut → gokiName id ∉ parseList allOut →
      1 ≤ id → id ≤ n - 1 →
        ∃ j, 1 ≤ j ∧ j ≤ id ∧ (showContainerStatus env n s).1 = some (doesNotExist j) ∧
          ∀ x, Event.stdout x ∈ (showContainerStatus env n s).2.trace →
            Event.stdout x ∈ s.trace) := by
  constructor
  · intro s h1 h2 hr ha
    have he := gokiIsDead_eval env id s h1 h2
    simp only [hr, ha, if_false] at he
    refine ⟨?_, ?_, ?_⟩
    · rw [he]
      simp [doesNotExist, gokiName, String.append_assoc]
    · unfold gokiJet
      rw [he]
    · unfold gokiRevive
      rw [he]
  · intro runOut allOut n s hs hr ha h1 hn
    obtain ⟨j, hj1, hj2, hj3, hj4⟩ := statusLoop_absent env runOut allOut hs id hr ha
      (n - 1 + 1 - 1).toNat 1 [] [] s h1 (by
        have : ((n - 1 + 1 - 1).toNat : Int) = n - 1 := by
          rw [Int.toNat_of_nonneg (by omega)]
          ring
        omega)
    refine ⟨j, hj1, hj2, ?_, ?_⟩
    · unfold showContainerStatus
      split
      · next e x y s1 heq =>
        rw [heq] at hj3
        exact hj3
      · next live dead s1 heq =>
        rw [heq] at hj3
        simp at hj3
    · unfold showContainerStatus
      split
      · next e x y s1 heq =>
        rw [heq] at hj4
        exact hj4
      · next live dead s1 heq =>
        rw [heq] at hj3
        simp at hj3

theorem absent_node_is_error_witness :
    gokiJet twoNodeEnv 3 State.init =
        (some (doesNotExist 3), (State.init.ran liveListArgs).ran allListArgs) ∧
      ∃ j, 1 ≤ j ∧ j ≤ 3 ∧
        (showContainerStatus twoNodeEnv 4 State.init).1 = some (doesNotExist j) ∧
        ∀ x, Event.stdout x ∈ (showContainerStatus twoNodeEnv 4 State.init).2.trace →
          Event.stdout x ∈ State.init.trace :=
  ⟨((absent_node_is_error twoNodeEnv 3).1 State.init (by decide) (by decide) (by decide)
      (by decide)).2.1,
    (absent_node_is_error twoNodeEnv 3).2 "goki-client\ngoki-1\n" "goki-client\ngoki-1\ngoki-2\n"
      4 State.init (fun _ => ⟨rfl, rfl⟩) (by decide) (by decide) (by decide)
      (by decide)⟩

/-! ## Entry guard and node count (C6, C9) -/

theorem seqSteps_cons_err {a : Step} {rest : List Step} {s t : State} {e : String}
    (h : a s = (some e, t)) : seqSteps (a :: rest) s = (some e, t) := by
  simp only [seqSteps, andThen, h]

theorem seqSteps_cons_ok {a : Step} {rest : List Step} {s t : State}
    (h : a s = (none, t)) : seqSteps (a :: rest) s = seqSteps rest t := by
  simp only [seqSteps, andThen, h]

theorem seqSteps_cons (a : Step) (rest : List Step) :
    seqSteps (a :: rest) = andThen a (seqSteps rest) := rfl

theorem seqSteps_single (a : Step) (s : State) : seqSteps [a] s = a s := by
  simp only [seqSteps, andThen]
  rcases h : a s with ⟨_ | e, t⟩ <;> rfl

theorem Quiet.same (s : State) : Quiet s s := ⟨[], by simp, by simp⟩

theorem Quiet.chain {s t u : State} (h1 : Quiet s t) (h2 : Quiet t u) : Quiet s u := by
  obtain ⟨e1, ht1, ha1⟩ := h1
  obtain ⟨e2, ht2, ha2⟩ := h2
  refine ⟨e1 ++ e2, by rw [ht2, ht1, List.append_assoc], ?_⟩
  intro e he
  rcases List.mem_append.mp he with h | h
  · exact ha1 e h
  · exact ha2 e h

theorem Quiet.emitQuiet {s t : State} {e : Event} (he : e.mutates = false) (h : Quiet s t) :
    Quiet s (t.emit e) :=
  h.chain ⟨[e], rfl, by simpa using he⟩

theorem Quiet.printOut {s t : State} {x : String} (h : Quiet s t) : Quiet s (t.out x) :=
  h.emitQuiet rfl

theorem Quiet.printErr {s t : State} {x : String} (h : Quiet s t) : Quiet s (t.err x) :=
  h.emitQuiet rfl

theorem Quiet.ranReadOnly {s t : State} {args : List String} (ha : readOnlyCmd args = true)
    (h : Quiet s t) : Quiet s (t.ran args) :=
  h.emitQuiet (by simp [Event.mutates, ha])

/-- The check `checkDocker`: read-only, and on success the state is the one after the command. -/
theorem checkDocker_spec (env : Env) (s : State) :
    Quiet s (checkDocker env s).2 ∧
      ((checkDocker env s).1 = none → (checkDocker env s).2 = s.ran checkDockerArgs) := by
  unfold checkDocker
  dsimp only
  split
  · exact ⟨(((Quiet.same s).ranReadOnly (by decide)).printErr).printErr, by simp⟩
  · exact ⟨(Quiet.same s).ranReadOnly (by decide), fun _ => rfl⟩

/-- The check `checkGokiContainer`: read-only; it succeeds only on an empty listing, leaving
the state after the command; a non-empty listing makes it fail. -/
theorem checkGokiContainer_spec (env : Env) (s : State) :
    Quiet s (checkGokiContainer env s).2 ∧
      ((checkGokiContainer env s).1 = none →
        (checkGokiContainer env s).2 = s.ran checkGokiContainerArgs ∧
          (s.ask env checkGokiContainerArgs).1 = "") ∧
      ((s.ask env checkGokiContainerArgs).1 ≠ "" → (checkGokiContainer env s).1.isSome = true) := by
  unfold checkGokiContainer
  dsimp only
  split
  · exact ⟨((Quiet.same s).ranReadOnly (by decide)).printErr, by simp, by simp⟩
  · split
    · next h =>
      exact ⟨(((((Quiet.same s).ranReadOnly (by decide)).printOut).printErr).printErr).printErr, by simp, by simp⟩
    · next h =>
      exact ⟨(Quiet.same s).ranReadOnly (by decide), fun _ => ⟨rfl, by simpa using h⟩,
        fun h2 => absurd h2 h⟩

/-- The check `checkGokiNetwork`: read-only; it succeeds only on an empty listing, leaving the
state after the command; a non-empty listing makes it fail. -/
theorem checkGokiNetwork_spec (env : Env) (s : State) :
    Quiet s (checkGokiNetwork env s).2 ∧
      ((checkGokiNetwork env s).1 = none →
        (checkGokiNetwork env s).2 = s.ran checkGokiNetworkArgs ∧
          (s.ask env checkGokiNetworkArgs).1 = "") ∧
      ((s.ask env checkGokiNetworkArgs).1 ≠ "" → (checkGokiNetwork env s).1.isSome = true) := by
  unfold checkGokiNetwork
  dsimp only
  split
  · exact ⟨((Quiet.same s).ranReadOnly (by decide)).printErr, by simp, by simp⟩
  · split
    · next h =>
      exact ⟨((((Quiet.same s).ranReadOnly (by decide)).printErr).printErr).printErr, by simp, by simp⟩
    · next h =>
      exact ⟨(Quiet.same s).ranReadOnly (by decide), fun _ => ⟨rfl, by simpa using h⟩,
        fun h2 => absurd h2 h⟩

/-- The check `checkGokiVolume`: read-only; it fails only when the listing command fails, and
on success it leaves the state after the command with the reuse flag set to whether the
listing is non-empty. -/
theorem checkGokiVolume_spec (env : Env) (s : State) :
    Quiet s (checkGokiVolume env s).2 ∧
      ((checkGokiVolume env s).1 = none ↔ (s.ask env checkGokiVolumeArgs).2 = none) ∧
      ((checkGokiVolume env s).1 = none →
        (checkGokiVolume env s).2 =
          { s.ran checkGokiVolumeArgs with
            gokiVolumeAlreadyExist := decide ((s.ask env checkGokiVolumeArgs).1 ≠ "") }) := by
  unfold checkGokiVolume
  dsimp only
  split
  · next e he =>
    exact ⟨((Quiet.same s).ranReadOnly (by decide)).printErr, by simp [he], by simp⟩
  · next he =>
    split
    · next h =>
      exact ⟨⟨[Event.exec checkGokiVolumeArgs], rfl, by decide⟩, by simp [he], by simp [h]⟩
    · next h =>
      have h2 : (s.ask env checkGokiVolumeArgs).1 = "" := by simpa using h
      rw [if_pos h2]
      exact ⟨⟨[Event.exec checkGokiVolumeArgs], rfl, by decide⟩, by simp [he], by simp [h2]⟩

/-- The check `checkNumOfNode`: it fails exactly outside 1..9, prints only, and on success
leaves the state alone. -/
theorem checkNumOfNode_spec (flags : CreateCmdFlags) (s : State) :
    Quiet s (checkNumOfNode flags s).2 ∧
      ((checkNumOfNode flags s).1.isSome = true ↔ (flags.node < 1 ∨ 9 < flags.node)) ∧
      ((checkNumOfNode flags s).1 = none → (checkNumOfNode flags s).2 = s) := by
  unfold checkNumOfNode
  split
  · next h => exact ⟨((Quiet.same s).printErr).printErr, by simp [h], by simp⟩
  · next h => exact ⟨Quiet.same s, by simp [h], fun _ => rfl⟩

/-- C6: if the labeled-sandbox listing or the labeled-network listing taken at the start of
`create` is not empty, `create` returns an error and every command it has issued is read-only
(`docker version` and listings): no network, volume, sandbox or certificate is created. -/
theorem create_aborts_on_sandbox_or_network (env : Env) (flags : CreateCmdFlags) (s : State)
    (h : (sandboxListing env s).1 ≠ "" ∨ (networkListing env s).1 ≠ "") :
    (createRunE env flags s).1.isSome = true ∧
      ∃ evs, (createRunE env flags s).2.trace = s.trace ++ evs ∧
        ∀ e ∈ evs, e.mutates = false := by
  unfold createRunE
  obtain ⟨q1, ok1⟩ := checkDocker_spec env s
  rcases h1 : checkDocker env s with ⟨_ | e, t1⟩
  swap
  · rw [seqSteps_cons_err h1]
    rw [h1] at q1
    exact ⟨rfl, q1⟩
  rw [seqSteps_cons_ok h1]
  rw [h1] at q1 ok1
  have ht1 : t1 = s.ran checkDockerArgs := ok1 rfl
  obtain ⟨q2, ok2, ne2⟩ := checkGokiContainer_spec env t1
  rcases h2 : checkGokiContainer env t1 with ⟨_ | e, t2⟩
  swap
  · rw [seqSteps_cons_err h2]
    rw [h2] at q2
    exact ⟨rfl, q1.chain q2⟩
  rw [seqSteps_cons_ok h2]
  rw [h2] at q2 ok2
  have ht2 : t2 = t1.ran checkGokiContainerArgs := (ok2 rfl).1
  have hempty := (ok2 rfl).2
  obtain ⟨q3, _, ne3⟩ := checkGokiNetwork_spec env t2
  have hnet : (networkListing env s).1 ≠ "" := by
    rcases h with h | h
    · exact absurd (by rw [← hempty, ht1]; rfl) h
    · exact h
  have h3 := ne3 (by rw [ht2, ht1]; exact hnet)
  rcases h3e : checkGokiNetwork env t2 with ⟨_ | e, t3⟩
  · rw [h3e] at h3
    simp at h3
  · rw [seqSteps_cons_err h3e]
    rw [h3e] at q3
    exact ⟨rfl, (q1.chain q2).chain q3⟩

theorem create_aborts_on_sandbox_or_network_witness :
    (createRunE clusterUpEnv ⟨3, "v22.2.0", false⟩ State.init).1.isSome = true ∧
      ∃ evs, (createRunE clusterUpEnv ⟨3, "v22.2.0", false⟩ State.init).2.trace =
          State.init.trace ++ evs ∧ ∀ e ∈ evs, e.mutates = false :=
  create_aborts_on_sandbox_or_network clusterUpEnv ⟨3, "v22.2.0", false⟩ State.init
    (Or.inl (by decide))


/-- C9: `checkNumOfNode` returns an error exactly when the requested node count is below 1 or
above 9 (so for 0 and for 10); and with such a count `create` returns an error having issued
read-only commands only: no network, volume or sandbox is created. -/
theorem create_rejects_node_count (env : Env) (flags : CreateCmdFlags) (s : State) :
    ((checkNumOfNode flags s).1.isSome = true ↔ (flags.node < 1 ∨ 9 < flags.node)) ∧
    ((flags.node < 1 ∨ 9 < flags.node) →
      (createRunE env flags s).1.isSome = true ∧
        ∃ evs, (createRunE env flags s).2.trace = s.trace ++ evs ∧
          ∀ e ∈ evs, e.mutates = false) := by
  refine ⟨(checkNumOfNode_spec flags s).2.1, ?_⟩
  intro hn
  unfold createRunE
  obtain ⟨q1, _⟩ := checkDocker_spec env s
  rcases h1 : checkDocker env s with ⟨_ | e, t1⟩
  swap
  · rw [seqSteps_cons_err h1]
    rw [h1] at q1
    exact ⟨rfl, q1⟩
  rw [seqSteps_cons_ok h1]
  rw [h1] at q1
  obtain ⟨q2, _⟩ := checkGokiContainer_spec env t1
  rcases h2 : checkGokiContainer env t1 with ⟨_ | e, t2⟩
  swap
  · rw [seqSteps_cons_err h2]
    rw [h2] at q2
    exact ⟨rfl, q1.chain q2⟩
  rw [seqSteps_cons_ok h2]
  rw [h2] at q2
  obtain ⟨q3, _⟩ := checkGokiNetwork_spec env t2
  rcases h3 : checkGokiNetwork env t2 with ⟨_ | e, t3⟩
  swap
  · rw [seqSteps_cons_err h3]
    rw [h3] at q3
    exact ⟨rfl, (q1.chain q2).chain q3⟩
  rw [seqSteps_cons_ok h3]
  rw [h3] at q3
  obtain ⟨q4, _⟩ := checkGokiVolume_spec env t3
  rcases h4 : checkGokiVolume env t3 with ⟨_ | e, t4⟩
  swap
  · rw [seqSteps_cons_err h4]
    rw [h4] at q4
    exact ⟨rfl, ((q1.chain q2).chain q3).chain q4⟩
  rw [seqSteps_cons_ok h4]
  rw [h4] at q4
  obtain ⟨q5, hsome, _⟩ := checkNumOfNode_spec flags t4
  have h5s := hsome.mpr hn
  rcases h5 : checkNumOfNode flags t4 with ⟨_ | e, t5⟩
  · rw [h5] at h5s
    simp at h5s
  · rw [seqSteps_cons_err h5]
    rw [h5] at q5
    exact ⟨rfl, (((q1.chain q2).chain q3).chain q4).chain q5⟩

theorem create_rejects_node_count_witness :
    ((createRunE quietEnv ⟨0, "v22.2.0", false⟩ State.init).1.isSome = true ∧
        ∃ evs, (createRunE quietEnv ⟨0, "v22.2.0", false⟩ State.init).2.trace =
          State.init.trace ++ evs ∧ ∀ e ∈ evs, e.mutates = false) ∧
      (createRunE quietEnv ⟨10, "v22.2.0", false⟩ State.init).1.isSome = true :=
  ⟨(create_rejects_node_count quietEnv ⟨0, "v22.2.0", false⟩ State.init).2 (Or.inl (by decide)),
    ((create_rejects_node_count quietEnv ⟨10, "v22.2.0", false⟩ State.init).2
      (Or.inr (by decide))).1⟩


/-! ## Volume reuse (C7, C8) -/

theorem bringUpCmd_reuse_no_bootstrap (flags : CreateCmdFlags) (args : List String)
    (h : BringUpCmd flags true args) : (Event.exec args).bootstraps = false := by
  cases h
  case init h => exact absurd h (by decide)
  case rootPassword h => exact absurd h (by decide)
  case nonRootUser h => exact absurd h (by decide)
  case introDB h => exact absurd h (by decide)
  all_goals first
    | decide
    | simp [Event.bootstraps, isClusterInit, setsRootPassword, createsUser, sqlStatement,
        execArgv, volumeCreateArgs, createClientContainerArgs, certMkNodeDirArgs,
        certCreateNodeArgs, certCopyNodeArgs, createFirstGokiArgs, createGokiClusterArgs,
        gokiResourceName]


theorem bringUpCmd_not_volume_listing (flags : CreateCmdFlags) (b : Bool) (args : List String)
    (h : BringUpCmd flags b args) : args ≠ checkGokiVolumeArgs := by
  cases h
  all_goals first
    | decide
    | simp [checkGokiVolumeArgs, volumeCreateArgs, createClientContainerArgs, certMkNodeDirArgs,
        certCreateNodeArgs, certCopyNodeArgs, createFirstGokiArgs, createGokiClusterArgs]

/-- When the entry checks pass, `create` stops at the node-count check or runs the bring-up
from the state `afterChecks`. -/
theorem createRunE_of_clear (env : Env) (flags : CreateCmdFlags) (s : State)
    (hc : EntryClear env s) :
    createRunE env flags s =
      seqSteps [checkNumOfNode flags, createBringUp env flags] (afterChecks env s) := by
  obtain ⟨hd, hs, hn, hv⟩ := hc
  unfold createRunE
  have h1 : checkDocker env s = (none, s.ran checkDockerArgs) := by
    unfold checkDocker
    simp only [hd]
  rw [seqSteps_cons_ok h1]
  have h2 : checkGokiContainer env (s.ran checkDockerArgs) =
      (none, (s.ran checkDockerArgs).ran checkGokiContainerArgs) := by
    unfold checkGokiContainer
    unfold sandboxListing at hs
    simp [hs]
  rw [seqSteps_cons_ok h2]
  have h3 : checkGokiNetwork env ((s.ran checkDockerArgs).ran checkGokiContainerArgs) =
      (none, ((s.ran checkDockerArgs).ran checkGokiContainerArgs).ran checkGokiNetworkArgs) := by
    unfold checkGokiNetwork
    unfold networkListing at hn
    simp [hn]
  rw [seqSteps_cons_ok h3]
  have h4 : checkGokiVolume env
      (((s.ran checkDockerArgs).ran checkGokiContainerArgs).ran checkGokiNetworkArgs) =
      (none, afterChecks env s) := by
    obtain ⟨_, hiff, hst⟩ := checkGokiVolume_spec env
      (((s.ran checkDockerArgs).ran checkGokiContainerArgs).ran checkGokiNetworkArgs)
    have hnone := hiff.mpr hv
    have := hst hnone
    exact Prod.ext hnone this
  rw [seqSteps_cons_ok h4]


theorem checkNumOfNode_tame {C : List String → Prop} {D : Prop} {b : Bool}
    (flags : CreateCmdFlags) : Tame C D b (checkNumOfNode flags) := by
  intro s _
  unfold checkNumOfNode
  split
  · exact ((Reaches.refl s).err).err
  · exact Reaches.refl s

/-- After entry checks that pass, the rest of `create` keeps the reuse flag and issues only
bring-up commands, those of a fresh cluster only when the flag is false. -/
theorem createRunE_reaches (env : Env) (flags : CreateCmdFlags) (s : State)
    (hc : EntryClear env s) :
    Reaches (BringUpCmd flags (afterChecks env s).gokiVolumeAlreadyExist)
      ((afterChecks env s).gokiVolumeAlreadyExist = false) (afterChecks env s)
      (createRunE env flags s).2 := by
  rw [createRunE_of_clear env flags s hc]
  apply seqSteps_tame (b := (afterChecks env s).gokiVolumeAlreadyExist) _ _ rfl
  intro f hf
  simp only [List.mem_cons, List.mem_singleton, List.not_mem_nil, or_false] at hf
  rcases hf with rfl | rfl
  · exact checkNumOfNode_tame flags
  · exact createBringUp_tame env flags _

theorem allowed_reuse_no_bootstrap (flags : CreateCmdFlags) (e : Event)
    (h : Allowed (BringUpCmd flags true) (true = false) e) : e.bootstraps = false := by
  cases e with
  | exec args => exact bringUpCmd_reuse_no_bootstrap flags args h
  | sqlOpen c => exact absurd h (by simp [Allowed])
  | sqlQuery q g => exact absurd h (by simp [Allowed])
  | sleep k => rfl
  | stdout x => rfl
  | stderr x => rfl

theorem afterChecks_trace (env : Env) (s : State) :
    (afterChecks env s).trace = s.trace ++ [Event.exec checkDockerArgs,
      Event.exec checkGokiContainerArgs, Event.exec checkGokiNetworkArgs,
      Event.exec checkGokiVolumeArgs] := by
  simp [afterChecks, State.ran, State.emit]

/-- C8: when the entry checks of `create` pass, a non-empty volume listing marks the run as
data-reuse and the whole run then issues no cluster-initialisation command, no command
setting the root password, no create-user command and no database call of the node identity
verification; an empty listing leaves the flag false; and after the entry checks the volume
listing is not taken again, so the flag keeps the value decided there. -/
theorem volume_reuse_skips_bootstrap (env : Env) (flags : CreateCmdFlags) (s : State)
    (hc : EntryClear env s) :
    ((volumeListing env s).1 ≠ "" →
      (createRunE env flags s).2.gokiVolumeAlreadyExist = true ∧
        ∃ evs, (createRunE env flags s).2.trace = s.trace ++ evs ∧
          ∀ e ∈ evs, e.bootstraps = false) ∧
    ((volumeListing env s).1 = "" →
      (createRunE env flags s).2.gokiVolumeAlreadyExist = false) ∧
    (∃ evs, (createRunE env flags s).2.trace = (afterChecks env s).trace ++ evs ∧
      Event.exec checkGokiVolumeArgs ∉ evs) := by
  obtain ⟨hflag, evs, htrace, hall⟩ := createRunE_reaches env flags s hc
  refine ⟨?_, ?_, ⟨evs, htrace, ?_⟩⟩
  · intro hne
    have hb : (afterChecks env s).gokiVolumeAlreadyExist = true := by simp [afterChecks, hne]
    refine ⟨hflag.trans hb, [Event.exec checkDockerArgs, Event.exec checkGokiContainerArgs,
      Event.exec checkGokiNetworkArgs, Event.exec checkGokiVolumeArgs] ++ evs, ?_, ?_⟩
    · rw [htrace, afterChecks_trace, List.append_assoc]
    · intro e he
      rcases List.mem_append.mp he with h | h
      · simp only [List.mem_cons, List.mem_singleton, List.not_mem_nil, or_false] at h
        rcases h with rfl | rfl | rfl | rfl <;> decide
      · have := hall e h
        rw [hb] at this
        exact allowed_reuse_no_bootstrap flags e this
  · intro he
    rw [hflag]
    simp [afterChecks, he]
  · intro hmem
    exact bringUpCmd_not_volume_listing flags _ _ (hall _ hmem) rfl

theorem volume_reuse_skips_bootstrap_witness :
    ((createRunE leftoverVolumeEnv ⟨3, "v22.2.0", false⟩ State.init).2.gokiVolumeAlreadyExist = true ∧
      ∃ evs, (createRunE leftoverVolumeEnv ⟨3, "v22.2.0", false⟩ State.init).2.trace =
          State.init.trace ++ evs ∧ ∀ e ∈ evs, e.bootstraps = false) ∧
    (createRunE quietEnv ⟨3, "v22.2.0", false⟩ State.init).2.gokiVolumeAlreadyExist = false :=
  ⟨(volume_reuse_skips_bootstrap leftoverVolumeEnv ⟨3, "v22.2.0", false⟩ State.init
      ⟨by decide, by decide, by decide, by decide⟩).1 (by decide),
    (volume_reuse_skips_bootstrap quietEnv ⟨3, "v22.2.0", false⟩ State.init
      ⟨by decide, by decide, by decide, by decide⟩).2.1 (by decide)⟩

/-- On a run that does not reuse data the bootstrap events do occur: the predicate
`Event.bootstraps` is not empty on the traces of `create`. -/
theorem fresh_run_bootstraps :
    ∃ e ∈ (createRunE quietEnv ⟨1, "v22.2.0", false⟩ State.init).2.trace, e.bootstraps = true :=
  ⟨Event.exec initClusterArgs, by decide, by decide⟩

theorem andThen_first_command {a b : Step} {s : State} {x : List String}
    (ha : ∃ rest, execs (a s).2.trace = execs s.trace ++ x :: rest)
    (hb : ∀ t, ∃ rest, execs (b t).2.trace = execs t.trace ++ rest) :
    ∃ rest, execs (andThen a b s).2.trace = execs s.trace ++ x :: rest := by
  obtain ⟨r1, h1⟩ := ha
  unfold andThen
  split
  · next e s1 heq =>
    rw [heq] at h1
    exact ⟨r1, h1⟩
  · next s1 heq =>
    rw [heq] at h1
    obtain ⟨r2, h2⟩ := hb s1
    exact ⟨r1 ++ r2, by rw [h2, h1]; simp⟩

theorem createGokiNetwork_first_command (env : Env) (s : State) :
    ∃ rest, execs (createGokiNetwork env s).2.trace =
      execs s.trace ++ createGokiNetworkArgs :: rest := by
  unfold createGokiNetwork
  dsimp only
  split <;> exact ⟨[], by simp [State.err, State.ran, State.out, State.emit, execs_append, execs]⟩

/-- C7 (counterexample): with leftover volumes and nothing else, `create` for one node returns
no error and has issued the network creation, a mutating command. -/
theorem create_proceeds_with_existing_volume :
    (volumeListing leftoverVolumeEnv State.init).1 ≠ "" ∧
      (createRunE leftoverVolumeEnv ⟨1, "v22.2.0", false⟩ State.init).1 = none ∧
      Event.exec createGokiNetworkArgs ∈
        (createRunE leftoverVolumeEnv ⟨1, "v22.2.0", false⟩ State.init).2.trace ∧
      (Event.exec createGokiNetworkArgs).mutates = true := by
  decide

/-- C7 (amended): if a labeled volume already exists at the start of `create`, while docker
answers, no labeled sandbox or network exists and the node count is within 1..9, `create`
does not abort: it marks the run as data-reuse and goes on to issue the network creation
right after the four read-only entry checks. -/
theorem create_reuses_existing_volume (env : Env) (flags : CreateCmdFlags) (s : State)
    (hc : EntryClear env s) (hv : (volumeListing env s).1 ≠ "")
    (h1 : 1 ≤ flags.node) (h9 : flags.node ≤ 9) :
    (createRunE env flags s).2.gokiVolumeAlreadyExist = true ∧
      ∃ rest, execs (createRunE env flags s).2.trace =
        execs s.trace ++ [checkDockerArgs, checkGokiContainerArgs, checkGokiNetworkArgs,
          checkGokiVolumeArgs, createGokiNetworkArgs] ++ rest := by
  refine ⟨(createRunE_reaches env flags s hc).1.trans (by simp [afterChecks, hv]), ?_⟩
  rw [createRunE_of_clear env flags s hc]
  have hnum : checkNumOfNode flags (afterChecks env s) = (none, afterChecks env s) := by
    unfold checkNumOfNode
    rw [if_neg (by omega)]
  rw [seqSteps_cons_ok hnum, seqSteps_single]
  unfold createBringUp createBringUpSteps
  have hb : createBanner flags (afterChecks env s) =
      (none, (createBanner flags (afterChecks env s)).2) := rfl
  rw [seqSteps_cons_ok hb, seqSteps_cons]
  have htail : ∀ t : State, ∃ rest, execs ((seqSteps
      [createGokiVolume env flags, createClientContainer env flags, createCertFile env flags,
        createFirstGoki env flags, createGokiCluster env flags, checkSqlConnectionAcceptance env,
        confirmClusterStatus env,
        fun t => if ¬ t.gokiVolumeAlreadyExist then loadIntroDB env t else (none, t),
        showCockroach env, fun t => (none, showAccessCommand t)]) t).2.trace =
        execs t.trace ++ rest := by
    intro t
    exact (seqSteps_tame (fun f hf => createBringUpSteps_tame env flags t.gokiVolumeAlreadyExist f
      (List.mem_cons_of_mem _ (List.mem_cons_of_mem _ hf))) t rfl).execs_extend
  obtain ⟨rest, h⟩ := andThen_first_command
    (createGokiNetwork_first_command env (createBanner flags (afterChecks env s)).2) htail
  refine ⟨rest, ?_⟩
  rw [h]
  have hpre : execs (createBanner flags (afterChecks env s)).2.trace =
      execs s.trace ++ [checkDockerArgs, checkGokiContainerArgs, checkGokiNetworkArgs,
        checkGokiVolumeArgs] := by
    unfold createBanner
    dsimp only
    split <;> simp [afterChecks_trace, State.out, State.emit, execs_append, execs]
  rw [hpre]
  simp

theorem create_reuses_existing_volume_witness :
    (createRunE leftoverVolumeEnv ⟨3, "v22.2.0", true⟩ State.init).2.gokiVolumeAlreadyExist = true ∧
      ∃ rest, execs (createRunE leftoverVolumeEnv ⟨3, "v22.2.0", true⟩ State.init).2.trace =
        execs State.init.trace ++ [checkDockerArgs, checkGokiContainerArgs, checkGokiNetworkArgs,
          checkGokiVolumeArgs, createGokiNetworkArgs] ++ rest :=
  create_reuses_existing_volume leftoverVolumeEnv ⟨3, "v22.2.0", true⟩ State.init
    ⟨by decide, by decide, by decide, by decide⟩ (by decide) (by decide) (by decide)


/-! ## Peer list (C10) -/

theorem isPrefixOf_append_left (j p q : List Char) (hlen : j.length ≤ p.length)
    (h : j.isPrefixOf p = false) : j.isPrefixOf (p ++ q) = false := by
  induction j generalizing p with
  | nil => simp at h
  | cons c j ih =>
    cases p with
    | nil => simp at hlen
    | cons d p =>
      simp only [List.cons_append, List.isPrefixOf, Bool.and_eq_false_imp] at h ⊢
      intro hcd
      exact ih p (by simpa using hlen) (h hcd)

theorem startsWith_append_left (j p q : String) (hlen : j.length ≤ p.length)
    (h : startsWith j p = false) : startsWith j (p ++ q) = false := by
  unfold startsWith at h ⊢
  rw [String.data_append]
  exact isPrefixOf_append_left _ _ _ hlen h

theorem startsWith_append_left2 (j p q r : String) (hlen : j.length ≤ p.length)
    (h : startsWith j p = false) : startsWith j (p ++ q ++ r) = false := by
  rw [String.append_assoc]
  exact startsWith_append_left j p (q ++ r) hlen h

theorem joinList_skip {a : String} {rest : List String} (h : startsWith "--join=" a = false) :
    joinList (a :: rest) = joinList rest := by
  simp [joinList, h]

theorem joinList_hit {a : String} {rest : List String} (h : startsWith "--join=" a = true) :
    joinList (a :: rest) = some (splitAux ',' (a.data.drop 7) []) := by
  simp [joinList, h]

theorem joinList_createFirstGokiArgs (flags : CreateCmdFlags) (r z : Int) :
    joinList (createFirstGokiArgs flags r z) = some ["goki-1", "goki-2", "goki-3"] := by
  unfold createFirstGokiArgs
  repeat (first
    | rw [joinList_skip (by decide)]
    | rw [joinList_skip (startsWith_append_left _ _ _ (by decide) (by decide))])
  rw [joinList_hit (by decide)]
  decide

theorem joinList_createGokiClusterArgs (flags : CreateCmdFlags) (i r z : Int) :
    joinList (createGokiClusterArgs flags i r z) = some ["goki-1", "goki-2", "goki-3"] := by
  unfold createGokiClusterArgs
  repeat (first
    | rw [joinList_skip (by decide)]
    | rw [joinList_skip (startsWith_append_left _ _ _ (by decide) (by decide))]
    | rw [joinList_skip (startsWith_append_left2 _ _ _ _ (by decide) (by decide))])
  rw [joinList_hit (by decide)]
  decide


/-- C10 (counterexample): for nine nodes the first node is started with the peer list
goki-1, goki-2, goki-3, which lacks the intended node goki-9; for one node the same list
holds goki-2, which is not an intended node. -/
theorem join_list_is_not_the_intended_nodes :
    ((execs (createFirstGoki quietEnv ⟨9, "v22.2.0", false⟩ State.init).2.trace).head? =
        some (createFirstGokiArgs ⟨9, "v22.2.0", false⟩ 0 0) ∧
      joinList (createFirstGokiArgs ⟨9, "v22.2.0", false⟩ 0 0) =
        some ["goki-1", "goki-2", "goki-3"] ∧
      "goki-9" ∈ intendedPeers 9 ∧ "goki-9" ∉ ["goki-1", "goki-2", "goki-3"]) ∧
    ((execs (createFirstGoki quietEnv ⟨1, "v22.2.0", false⟩ State.init).2.trace).head? =
        some (createFirstGokiArgs ⟨1, "v22.2.0", false⟩ 0 0) ∧
      joinList (createFirstGokiArgs ⟨1, "v22.2.0", false⟩ 0 0) =
        some ["goki-1", "goki-2", "goki-3"] ∧
      "goki-2" ∈ ["goki-1", "goki-2", "goki-3"] ∧ "goki-2" ∉ intendedPeers 1) :=
  ⟨⟨by decide, by decide, by decide, by decide⟩, ⟨by decide, by decide, by decide, by decide⟩⟩

/-- C10 (amended): whatever the node count, the start command of the first node and that of
every later node `i` carry the fixed peer list goki-1, goki-2, goki-3; for a node count in
1..9 this is the list of intended nodes exactly when there are three nodes. -/
theorem join_list_is_fixed (env : Env) (flags : CreateCmdFlags) (s : State) (i : Int) :
    (∃ r z rest, execs (createFirstGoki env flags s).2.trace =
        execs s.trace ++ createFirstGokiArgs flags r z :: rest ∧
      joinList (createFirstGokiArgs flags r z) = some ["goki-1", "goki-2", "goki-3"]) ∧
    (∃ r z rest, execs (createGokiClusterNode env flags i s).2.trace =
        execs s.trace ++ createGokiClusterArgs flags i r z :: rest ∧
      joinList (createGokiClusterArgs flags i r z) = some ["goki-1", "goki-2", "goki-3"]) ∧
    (1 ≤ flags.node → flags.node ≤ 9 →
      (intendedPeers flags.node = ["goki-1", "goki-2", "goki-3"] ↔ flags.node = 3)) := by
  refine ⟨?_, ?_, ?_⟩
  · obtain ⟨rest, h⟩ := createFirstGoki_first_command env flags s
    exact ⟨_, _, rest, h, joinList_createFirstGokiArgs flags _ _⟩
  · obtain ⟨rest, h⟩ := createGokiClusterNode_first_command env flags i s
    exact ⟨_, _, rest, h, joinList_createGokiClusterArgs flags i _ _⟩
  · intro h1 h9
    generalize flags.node = n at h1 h9
    interval_cases n <;> decide

theorem join_list_is_fixed_witness :
    intendedPeers 5 = ["goki-1", "goki-2", "goki-3"] ↔ (5 : Int) = 3 :=
  (join_list_is_fixed quietEnv ⟨5, "v22.2.0", false⟩ State.init 2).2.2 (by decide) (by decide)

/-! ## Node identity verification (C11) -/

/-- C11 (the code at the failing input): a row in which only one of the two values disagrees
with the expected ordinal is accepted by `checkGokiNode`: whatever the address when the id is
`g`, and whatever the id when the address is `goki-<g>:26257`; so with a cluster reporting
`(2, "goki-9:26257")` for node 2 the check of node 2 returns no error and the rollout goes on
to start node 3. -/
theorem identity_check_accepts_single_mismatch (g id : Int) (address : String) (s : State) :
    (checkGokiNodeRows g [Except.ok (g, address)] s).1 = none ∧
    (checkGokiNodeRows g [Except.ok (id, gokiResourceName ++ "-" ++ itoa g ++ ":26257")] s).1
      = none ∧
    (checkGokiNode wrongAddressEnv 2 State.init).1 = none ∧
    (execs (createGokiCluster wrongAddressEnv ⟨3, "v22.2.0", false⟩ State.init).2.trace =
      [createGokiClusterArgs ⟨3, "v22.2.0", false⟩ 2 0 0,
       createGokiClusterArgs ⟨3, "v22.2.0", false⟩ 3 0 0]) := by
  refine ⟨?_, ?_, by decide, by decide⟩
  · simp [checkGokiNodeRows]
  · simp [checkGokiNodeRows]

/-! ## Readiness poller (C12) -/

theorem pollTrace_shift (t : List Event) (j : Nat) :
    pollTrace (pollTrace t 1) j = pollTrace t (j + 1) := by
  induction j with
  | zero => rfl
  | succ j ih =>
    show pollTrace (pollTrace t 1) j ++ _ = pollTrace t (j + 1) ++ _
    rw [ih]

theorem pollAttempt_shift (env : Env) (t : List Event) (j : Nat) :
    pollAttempt env (pollTrace t 1) j = pollAttempt env t (j + 1) := by
  unfold pollAttempt
  rw [pollTrace_shift]

theorem execs_pollTrace (t : List Event) (j : Nat) :
    execs (pollTrace t j) = execs t ++ List.replicate j checkSqlConnectionAcceptanceArgs := by
  induction j with
  | zero => simp [pollTrace]
  | succ j ih =>
    simp only [pollTrace, execs_append, ih, execs, List.replicate_succ']
    simp

/-- The poller loop with `m` iterations left at loop variable `10 - m`: when attempts
`1..j` fail and attempt `j + 1` succeeds, with `j < m`, it returns success right after that
attempt. -/
theorem checkSqlConnectionLoop_success (env : Env) (j : Nat) :
    ∀ (m : Nat) (i : Int) (s : State), i + m = 10 → j < m →
      (∀ l, l < j → (pollAttempt env s.trace l).2 ≠ none) →
      (pollAttempt env s.trace j).2 = none →
      checkSqlConnectionLoop env m i s =
        (none, { s with trace := pollTrace s.trace j ++
          [Event.sleep 1, Event.exec checkSqlConnectionAcceptanceArgs,
            Event.stdout "INFO: CockroachDB is ready to accept connections.\n"] }) := by
  induction j with
  | zero =>
    intro m i s _ hm _ hok
    obtain ⟨m, rfl⟩ : ∃ k, m = k + 1 := ⟨m - 1, by omega⟩
    unfold checkSqlConnectionLoop
    have h0 : ((s.emit (Event.sleep 1)).ask env checkSqlConnectionAcceptanceArgs).2 = none := hok
    simp only [h0]
    simp [State.out, State.ran, State.emit, pollTrace]
  | succ j ih =>
    intro m i s him hm hfail hok
    obtain ⟨m, rfl⟩ : ∃ k, m = k + 1 := ⟨m - 1, by omega⟩
    unfold checkSqlConnectionLoop
    have h0 : ((s.emit (Event.sleep 1)).ask env checkSqlConnectionAcceptanceArgs).2 ≠ none :=
      hfail 0 (by omega)
    have hi : i < 9 := by
      push_cast at him
      omega
    cases hr : ((s.emit (Event.sleep 1)).ask env checkSqlConnectionAcceptanceArgs).2 with
    | none => exact absurd hr h0
    | some e =>
      simp only [hr, if_pos hi]
      have hs : (((s.emit (Event.sleep 1)).ran checkSqlConnectionAcceptanceArgs).out
          "INFO: CockroachDB is NOT ready to accept connections.\n").trace = pollTrace s.trace 1 := by
        simp [State.out, State.ran, State.emit, pollTrace]
      rw [ih m (i + 1) _ (by push_cast at him ⊢; omega) (by omega)
        (by
          intro l hl
          rw [hs, pollAttempt_shift]
          exact hfail (l + 1) (by omega))
        (by rw [hs, pollAttempt_shift]; exact hok)]
      rw [hs, pollTrace_shift]
      rfl

/-- The poller loop with `m + 1` iterations left at loop variable `9 - m`: when all the
attempts fail, it returns the error of the last one after reporting it. -/
theorem checkSqlConnectionLoop_failure (env : Env) (m : Nat) :
    ∀ (i : Int) (s : State), i + (m + 1 : Nat) = 10 →
      (∀ l, l < m + 1 → (pollAttempt env s.trace l).2 ≠ none) →
      checkSqlConnectionLoop env (m + 1) i s =
        ((pollAttempt env s.trace m).2, { s with trace := pollTrace s.trace m ++
          [Event.sleep 1, Event.exec checkSqlConnectionAcceptanceArgs,
            Event.stderr ("ERROR: CockroachDB was NOT ready to accept connections, even if try to connect to DB 10 times (even if waiting about 10 second).\n Error is: " ++
              (pollAttempt env s.trace m).1 ++ "\n"),
            Event.stdout "HINT: There is possibility that some error occurred. Please check the DB or Container log.\n"] }) := by
  induction m with
  | zero =>
    intro i s him hfail
    unfold checkSqlConnectionLoop
    have h0 : ((s.emit (Event.sleep 1)).ask env checkSqlConnectionAcceptanceArgs).2 ≠ none :=
      hfail 0 (by omega)
    have hi : ¬ i < 9 := by
      push_cast at him
      omega
    cases hr : ((s.emit (Event.sleep 1)).ask env checkSqlConnectionAcceptanceArgs).2 with
    | none => exact absurd hr h0
    | some e =>
      have hp : pollAttempt env s.trace 0 =
          (s.emit (Event.sleep 1)).ask env checkSqlConnectionAcceptanceArgs := rfl
      simp only [hr, if_neg hi, hp]
      simp [State.out, State.err, State.ran, State.emit, pollTrace]
  | succ m ih =>
    intro i s him hfail
    unfold checkSqlConnectionLoop
    have h0 : ((s.emit (Event.sleep 1)).ask env checkSqlConnectionAcceptanceArgs).2 ≠ none :=
      hfail 0 (by omega)
    have hi : i < 9 := by
      push_cast at him
      omega
    cases hr : ((s.emit (Event.sleep 1)).ask env checkSqlConnectionAcceptanceArgs).2 with
    | none => exact absurd hr h0
    | some e =>
      simp only [hr, if_pos hi]
      have hs : (((s.emit (Event.sleep 1)).ran checkSqlConnectionAcceptanceArgs).out
          "INFO: CockroachDB is NOT ready to accept connections.\n").trace = pollTrace s.trace 1 := by
        simp [State.out, State.ran, State.emit, pollTrace]
      rw [ih (i + 1) _ (by push_cast at him ⊢; omega)
        (by
          intro l hl
          rw [hs, pollAttempt_shift]
          exact hfail (l + 1) (by omega))]
      rw [hs, pollTrace_shift, pollAttempt_shift]
      rfl

/-- C12: over the outcomes of the successive readiness queries, if the query fails on attempts
`1..k-1` and succeeds on attempt `k`, `1 <= k <= 10`, `checkSqlConnectionAcceptance` returns
success having issued exactly `k` queries; if the query fails on all ten attempts it has
issued exactly ten queries and returns the error of the tenth. -/
theorem readiness_poller (env : Env) (s : State) :
    (∀ k : Nat, 1 ≤ k → k ≤ 10 →
      (∀ l, l < k - 1 → (pollAttempt env s.trace l).2 ≠ none) →
      (pollAttempt env s.trace (k - 1)).2 = none →
        (checkSqlConnectionAcceptance env s).1 = none ∧
        execs (checkSqlConnectionAcceptance env s).2.trace =
          execs s.trace ++ List.replicate k checkSqlConnectionAcceptanceArgs) ∧
    ((∀ l, l < 10 → (pollAttempt env s.trace l).2 ≠ none) →
      (checkSqlConnectionAcceptance env s).1 = (pollAttempt env s.trace 9).2 ∧
      (checkSqlConnectionAcceptance env s).1 ≠ none ∧
      execs (checkSqlConnectionAcceptance env s).2.trace =
        execs s.trace ++ List.replicate 10 checkSqlConnectionAcceptanceArgs) := by
  constructor
  · intro k h1 h10 hfail hok
    unfold checkSqlConnectionAcceptance
    rw [checkSqlConnectionLoop_success env (k - 1) 10 0 s (by norm_num) (by omega) hfail hok]
    refine ⟨rfl, ?_⟩
    simp only [execs_append, execs_pollTrace, execs]
    obtain ⟨k, rfl⟩ : ∃ j, k = j + 1 := ⟨k - 1, by omega⟩
    simp [List.replicate_succ']
  · intro hfail
    unfold checkSqlConnectionAcceptance
    rw [checkSqlConnectionLoop_failure env 9 0 s (by norm_num) hfail]
    refine ⟨rfl, hfail 9 (by omega), ?_⟩
    simp only [execs_append, execs_pollTrace, execs]
    simp [List.replicate_succ']

theorem readiness_poller_witness :
    ((checkSqlConnectionAcceptance slowStartEnv State.init).1 = none ∧
      execs (checkSqlConnectionAcceptance slowStartEnv State.init).2.trace =
        execs State.init.trace ++ List.replicate 4 checkSqlConnectionAcceptanceArgs) ∧
    ((checkSqlConnectionAcceptance neverReadyEnv State.init).1 =
        (pollAttempt neverReadyEnv State.init.trace 9).2 ∧
      (checkSqlConnectionAcceptance neverReadyEnv State.init).1 ≠ none ∧
      execs (checkSqlConnectionAcceptance neverReadyEnv State.init).2.trace =
        execs State.init.trace ++ List.replicate 10 checkSqlConnectionAcceptanceArgs) :=
  ⟨(readiness_poller slowStartEnv State.init).1 4 (by decide) (by decide)
      (by
        intro l hl
        have h3 : l < 3 := hl
        interval_cases l <;> decide)
      (by decide),
    (readiness_poller neverReadyEnv State.init).2
      (by
        intro l hl
        interval_cases l <;> decide)⟩

/-! ## Kill and revive (C18) -/

theorem gokiIsDead_quiet (env : Env) (id : Int) (s : State) :
    Quiet s (gokiIsDead env id s).2 := by
  unfold gokiIsDead
  dsimp only
  split
  · exact ((Quiet.same s).ranReadOnly (by decide)).printErr
  · split
    · exact (Quiet.same s).ranReadOnly (by decide)
    · split
      · exact (((Quiet.same s).ranReadOnly (by decide)).ranReadOnly (by decide)).printErr
      · split
        · exact ((Quiet.same s).ranReadOnly (by decide)).ranReadOnly (by decide)
        · exact ((Quiet.same s).ranReadOnly (by decide)).ranReadOnly (by decide)

theorem Quiet.not_issues {s t : State} (h : Quiet s t) (args : List String)
    (hm : (Event.exec args).mutates = true) : ¬ Issues s t args := by
  rintro ⟨evs, ht, hmem⟩
  obtain ⟨evs2, ht2, hall⟩ := h
  have : evs = evs2 := List.append_cancel_left (ht.symm.trans ht2)
  subst this
  have := hall _ hmem
  rw [hm] at this
  exact absurd this (by decide)

theorem Quiet.issues_after {s t u : State} {args : List String} (h : Quiet s t)
    (hu : u.trace = t.trace ++ [Event.exec args] ∨
      ∃ e, u.trace = t.trace ++ [Event.exec args, e]) : Issues s u args := by
  obtain ⟨evs, ht, _⟩ := h
  rcases hu with hu | ⟨e, hu⟩
  · exact ⟨evs ++ [Event.exec args], by rw [hu, ht, List.append_assoc], by simp⟩
  · exact ⟨evs ++ [Event.exec args, e], by rw [hu, ht, List.append_assoc], by simp⟩

/-- The step `execOrFail` followed by a print: one command, then one print. -/
theorem execOrFail_say_trace (env : Env) (args : List String) (pre text : String) (s : State) :
    ∃ e, (seqSteps [execOrFail env args pre, say text] s).2.trace =
      s.trace ++ [Event.exec args, e] := by
  simp only [seqSteps, andThen, execOrFail, say]
  split
  · next e t heq =>
    split at heq
    · simp only [Prod.mk.injEq] at heq
      obtain ⟨_, rfl⟩ := heq
      exact ⟨Event.stderr (pre ++ (s.ask env args).1 ++ "\n"),
        by simp [State.err, State.ran, State.emit]⟩
    · simp at heq
  · next t heq =>
    split at heq
    · simp at heq
    · simp only [Prod.mk.injEq, true_and] at heq
      subst heq
      exact ⟨Event.stdout text, by simp [State.out, State.ran, State.emit]⟩

/-- C18: `gokiJet(id)` issues the kill command exactly when `gokiIsDead` classifies `id` as
running (`(false, nil)`); otherwise it returns an error having issued no mutating command, and
the error is "the specified container is not running" when the node is stopped.  `gokiRevive(id)`
issues the start command exactly when the classification is stopped (`(true, nil)`); otherwise
it returns an error having issued no mutating command, and the error is "the specified
container is running" when the node is running. -/
theorem kill_revive_precondition (env : Env) (id : Int) (s : State) :
    (Issues s (gokiJet env id s).2 (killGokiContainerArgs id) ↔
      (gokiIsDead env id s).1 = (false, none)) ∧
    ((gokiIsDead env id s).1 ≠ (false, none) →
      (gokiJet env id s).1.isSome = true ∧ Quiet s (gokiJet env id s).2) ∧
    ((gokiIsDead env id s).1 = (true, none) →
      (gokiJet env id s).1 = some "the specified container is not running") ∧
    (Issues s (gokiRevive env id s).2 (reviveGokiContainerArgs id) ↔
      (gokiIsDead env id s).1 = (true, none)) ∧
    ((gokiIsDead env id s).1 ≠ (true, none) →
      (gokiRevive env id s).1.isSome = true ∧ Quiet s (gokiRevive env id s).2) ∧
    ((gokiIsDead env id s).1 = (false, none) →
      (gokiRevive env id s).1 = some "the specified container is running") := by
  have hq := gokiIsDead_quiet env id s
  have hkill : (Event.exec (killGokiContainerArgs id)).mutates = true := by
    simp [Event.mutates, killGokiContainerArgs, readOnlyCmd]
  have hstart : (Event.exec (reviveGokiContainerArgs id)).mutates = true := by
    simp [Event.mutates, reviveGokiContainerArgs, readOnlyCmd]
  rcases hd : gokiIsDead env id s with ⟨⟨dead, err⟩, t⟩
  rw [hd] at hq
  have hjet : gokiJet env id s =
      match ((dead, err), t) with
      | ((_, some e), s1) => (some e, s1)
      | ((true, none), s1) =>
        (some "the specified container is not running",
          s1.err (gokiResourceName ++ "-" ++ itoa id ++ " is not running\n"))
      | ((false, none), s1) => killGokiContainer env id s1 := by
    unfold gokiJet
    rw [hd]
  have hrev : gokiRevive env id s =
      match ((dead, err), t) with
      | ((_, some e), s1) => (some e, s1)
      | ((false, none), s1) =>
        (some "the specified container is running",
          s1.err (gokiResourceName ++ "-" ++ itoa id ++ " is running\n"))
      | ((true, none), s1) => reviveGokiContainer env id s1 := by
    unfold gokiRevive
    rw [hd]
  rw [hjet, hrev]
  have hsome : ∀ e : String,
      (Issues s t (killGokiContainerArgs id) ↔ ((dead, some e) : Bool × Option String) = (false, none)) ∧
      (((dead, some e) : Bool × Option String) ≠ (false, none) →
        (some e : Option String).isSome = true ∧ Quiet s t) ∧
      (((dead, some e) : Bool × Option String) = (true, none) →
        some e = some "the specified container is not running") ∧
      (Issues s t (reviveGokiContainerArgs id) ↔ ((dead, some e) : Bool × Option String) = (true, none)) ∧
      (((dead, some e) : Bool × Option String) ≠ (true, none) →
        (some e : Option String).isSome = true ∧ Quiet s t) ∧
      (((dead, some e) : Bool × Option String) = (false, none) →
        some e = some "the specified container is running") := by
    intro e
    exact ⟨⟨fun h => absurd h (hq.not_issues _ hkill), fun h => by simp at h⟩,
      fun _ => ⟨rfl, hq⟩, fun h => by simp at h,
      ⟨fun h => absurd h (hq.not_issues _ hstart), fun h => by simp at h⟩,
      fun _ => ⟨rfl, hq⟩, fun h => by simp at h⟩
  cases dead with
  | true =>
    cases err with
    | some e => exact hsome e
    | none =>
      exact ⟨⟨fun h => absurd h (hq.printErr.not_issues _ hkill), fun h => by simp at h⟩,
        fun _ => ⟨rfl, hq.printErr⟩, fun _ => rfl,
        ⟨fun _ => rfl, fun _ => hq.issues_after (Or.inr (execOrFail_say_trace env _ _ _ t))⟩,
        fun h => absurd rfl h, fun h => by simp at h⟩
  | false =>
    cases err with
    | some e => exact hsome e
    | none =>
      exact ⟨⟨fun _ => rfl, fun _ => hq.issues_after (Or.inr (execOrFail_say_trace env _ _ _ t))⟩,
        fun h => absurd rfl h, fun h => by simp at h,
        ⟨fun h => absurd h (hq.printErr.not_issues _ hstart), fun h => by simp at h⟩,
        fun _ => ⟨rfl, hq.printErr⟩, fun _ => rfl⟩

theorem kill_revive_precondition_witness :
    (gokiJet twoNodeEnv 2 State.init).1 = some "the specified container is not running" ∧
      Issues State.init (gokiJet twoNodeEnv 1 State.init).2 (killGokiContainerArgs 1) ∧
      ((gokiRevive twoNodeEnv 3 State.init).1.isSome = true ∧
        Quiet State.init (gokiRevive twoNodeEnv 3 State.init).2) :=
  ⟨(kill_revive_precondition twoNodeEnv 2 State.init).2.2.1 (by decide),
    (kill_revive_precondition twoNodeEnv 1 State.init).1.mpr (by decide),
    (kill_revive_precondition twoNodeEnv 3 State.init).2.2.2.2.1 (by decide)⟩

/-! ## After the rollout (C20) -/

theorem andThen_assoc (a b c : Step) : andThen (andThen a b) c = andThen a (andThen b c) := by
  funext s
  simp only [andThen]
  rcases ha : a s with ⟨_ | e, t⟩
  · rfl
  · rfl

theorem andThen_done (a : Step) : andThen a (fun s => (none, s)) = a := by
  funext s
  simp only [andThen]
  rcases ha : a s with ⟨_ | e, t⟩ <;> rfl

theorem seqSteps_append (l1 l2 : List Step) :
    seqSteps (l1 ++ l2) = andThen (seqSteps l1) (seqSteps l2) := by
  induction l1 with
  | nil =>
    funext s
    simp [seqSteps, andThen]
  | cons a rest ih =>
    show andThen a (seqSteps (rest ++ l2)) = andThen (andThen a (seqSteps rest)) (seqSteps l2)
    rw [ih, andThen_assoc]

theorem seqSteps_cons_none {a : Step} {rest : List Step} {s : State}
    (h : (seqSteps (a :: rest) s).1 = none) :
    (a s).1 = none ∧ seqSteps (a :: rest) s = seqSteps rest (a s).2 := by
  rcases ha : a s with ⟨_ | e, t⟩
  · exact ⟨rfl, seqSteps_cons_ok ha⟩
  · rw [seqSteps_cons_err ha] at h
    simp at h

/-- The poller loop, when it returns success, has issued between one and `m` queries (none
when no iteration is left) and nothing else. -/
theorem checkSqlConnectionLoop_none (env : Env) (m : Nat) :
    ∀ (i : Int) (s : State), (checkSqlConnectionLoop env m i s).1 = none →
      ∃ k, k ≤ m ∧ (1 ≤ m → 1 ≤ k) ∧
        execs (checkSqlConnectionLoop env m i s).2.trace =
          execs s.trace ++ List.replicate k checkSqlConnectionAcceptanceArgs ∧
        (checkSqlConnectionLoop env m i s).2.gokiVolumeAlreadyExist = s.gokiVolumeAlreadyExist := by
  induction m with
  | zero =>
    intro i s _
    exact ⟨0, le_refl 0, by omega, by simp [checkSqlConnectionLoop], rfl⟩
  | succ m ih =>
    intro i s h
    unfold checkSqlConnectionLoop at h ⊢
    dsimp only at h ⊢
    rcases hr : ((s.emit (Event.sleep 1)).ask env checkSqlConnectionAcceptanceArgs).2 with _ | e
    · simp only [hr]
      exact ⟨1, by omega, by omega,
        by simp [State.out, State.ran, State.emit, execs_append, execs], rfl⟩
    · simp only [hr] at h ⊢
      by_cases hi : i < 9
      · simp only [if_pos hi] at h ⊢
        obtain ⟨k, hk, _, hx, hf⟩ := ih _ _ h
        refine ⟨k + 1, by omega, by omega, ?_, ?_⟩
        · rw [hx]
          simp [State.out, State.ran, State.emit, execs_append, execs, List.replicate_succ]
        · rw [hf]
          rfl
      · simp [if_neg hi] at h

theorem confirmClusterStatus_none (env : Env) (s : State)
    (h : (confirmClusterStatus env s).1 = none) :
    execs (confirmClusterStatus env s).2.trace = execs s.trace ++ [confirmClusterStatusArgs] ∧
      (confirmClusterStatus env s).2.gokiVolumeAlreadyExist = s.gokiVolumeAlreadyExist := by
  unfold confirmClusterStatus at h ⊢
  dsimp only at h ⊢
  rcases hr : ((s.out "INFO: CockroachDB Cluster Status is the following.\n").ask env
      confirmClusterStatusArgs).2 with _ | e
  · simp only [hr]
    exact ⟨by simp [State.out, State.ran, State.emit, execs_append, execs], rfl⟩
  · simp [hr] at h

theorem execOrFail_none (env : Env) (args : List String) (pre : String) (s : State)
    (h : (execOrFail env args pre s).1 = none) :
    (execOrFail env args pre s).2 = s.ran args ∧ (s.ask env args).2 = none := by
  unfold execOrFail at h ⊢
  dsimp only at h ⊢
  rcases hr : (s.ask env args).2 with _ | e
  · exact ⟨by simp only [hr], rfl⟩
  · simp [hr] at h

theorem showCockroach_none (env : Env) (s : State) (h : (showCockroach env s).1 = none) :
    execs (showCockroach env s).2.trace = execs s.trace ++ [showCockroachArgs] := by
  unfold showCockroach at h ⊢
  dsimp only at h ⊢
  rcases hr : (s.ask env showCockroachArgs).2 with _ | e
  · simp only [hr]
    simp [State.out, State.ran, State.emit, execs_append, execs]
  · simp [hr] at h

theorem execs_showAccessCommand (s : State) :
    execs (showAccessCommand s).trace = execs s.trace := by
  simp [showAccessCommand, State.out, State.emit, execs_append, execs]

/-- C20 (counterexample): on a data-reuse run (leftover volumes) `create` does not load the
demonstration dataset but still issues the query that displays the value derived from it. -/
theorem reuse_run_still_shows_value :
    (createRunE leftoverVolumeEnv ⟨1, "v22.2.0", false⟩ State.init).2.gokiVolumeAlreadyExist = true ∧
      (createRunE leftoverVolumeEnv ⟨1, "v22.2.0", false⟩ State.init).1 = none ∧
      loadIntroDBArgs ∉ execs (createRunE leftoverVolumeEnv ⟨1, "v22.2.0", false⟩ State.init).2.trace ∧
      showCockroachArgs ∈ execs (createRunE leftoverVolumeEnv ⟨1, "v22.2.0", false⟩ State.init).2.trace :=
  ⟨by decide, by decide, by decide, by decide⟩

/-- C20 (amended): after the rollout `create` runs the readiness poller, then the status
report, then, only on a fresh (non-reused) cluster, the load of the demonstration dataset, and
then, on every run, the display of the value derived from it: when these calls succeed from
state `t` the commands issued are one to ten readiness queries, the status command, the load
command exactly when the reuse flag is false, and the display query. -/
theorem after_rollout_sequence (env : Env) (flags : CreateCmdFlags) (t : State) :
    createBringUp env flags =
      andThen (seqSteps [createBanner flags, createGokiNetwork env, createGokiVolume env flags,
        createClientContainer env flags, createCertFile env flags, createFirstGoki env flags,
        createGokiCluster env flags]) (createAfterRollout env) ∧
    ((createAfterRollout env t).1 = none →
      ∃ k, 1 ≤ k ∧ k ≤ 10 ∧
        execs (createAfterRollout env t).2.trace =
          execs t.trace ++ List.replicate k checkSqlConnectionAcceptanceArgs ++
            [confirmClusterStatusArgs] ++
            (if t.gokiVolumeAlreadyExist = true then [] else [loadIntroDBArgs]) ++
            [showCockroachArgs]) := by
  constructor
  · unfold createBringUp createBringUpSteps createAfterRollout
    rw [← seqSteps_append]
    rfl
  · intro h
    unfold createAfterRollout at h ⊢
    obtain ⟨h1, e1⟩ := seqSteps_cons_none h
    rw [e1] at h ⊢
    obtain ⟨k, hk10, hk1, hx1, hf1⟩ := checkSqlConnectionLoop_none env 10 0 t h1
    obtain ⟨h2, e2⟩ := seqSteps_cons_none h
    rw [e2] at h ⊢
    obtain ⟨hx2, hf2⟩ := confirmClusterStatus_none env _ h2
    obtain ⟨h3, e3⟩ := seqSteps_cons_none h
    rw [e3] at h ⊢
    obtain ⟨h4, e4⟩ := seqSteps_cons_none h
    rw [e4] at h ⊢
    rw [seqSteps_single]
    refine ⟨k, hk1 (by omega), hk10, ?_⟩
    rw [execs_showAccessCommand, showCockroach_none env _ h4]
    have hflag : (confirmClusterStatus env (checkSqlConnectionAcceptance env t).2).2.gokiVolumeAlreadyExist
        = t.gokiVolumeAlreadyExist := hf2.trans hf1
    cases hb : t.gokiVolumeAlreadyExist with
    | true =>
      rw [hb] at hflag
      simp only [hflag, not_true_eq_false, if_false, if_true]
      rw [hx2]
      unfold checkSqlConnectionAcceptance
      rw [hx1]
      simp
    | false =>
      rw [hb] at hflag
      simp only [hflag, Bool.false_eq_true, not_false_eq_true, if_true, if_false] at h3 ⊢
      unfold loadIntroDB at h3 ⊢
      rw [(execOrFail_none env _ _ _ h3).1]
      simp only [State.ran, State.emit, execs_append, execs]
      rw [hx2]
      unfold checkSqlConnectionAcceptance
      rw [hx1]

theorem after_rollout_sequence_witness :
    ∃ k, 1 ≤ k ∧ k ≤ 10 ∧
      execs (createAfterRollout quietEnv ⟨[], true, 0, 0⟩).2.trace =
        execs (⟨[], true, 0, 0⟩ : State).trace ++
          List.replicate k checkSqlConnectionAcceptanceArgs ++ [confirmClusterStatusArgs] ++
          (if (⟨[], true, 0, 0⟩ : State).gokiVolumeAlreadyExist = true then []
            else [loadIntroDBArgs]) ++ [showCockroachArgs] :=
  (after_rollout_sequence quietEnv ⟨3, "v22.2.0", false⟩ ⟨[], true, 0, 0⟩).2 (by decide)

/-! ## Runs of commands and the certificate bootstrap (C17) -/

theorem ranAll_trace (s : State) (cmds : List (List String)) :
    (ranAll s cmds).trace = s.trace ++ cmds.map Event.exec := by
  induction cmds generalizing s with
  | nil => simp [ranAll]
  | cons c cs ih => simp [ranAll, ih, State.ran, State.emit]

theorem ranAll_flag (s : State) (cmds : List (List String)) :
    (ranAll s cmds).gokiVolumeAlreadyExist = s.gokiVolumeAlreadyExist := by
  induction cmds generalizing s with
  | nil => rfl
  | cons c cs ih => simp [ranAll, ih, State.ran, State.emit]

theorem execs_map_exec (cmds : List (List String)) : execs (cmds.map Event.exec) = cmds := by
  induction cmds with
  | nil => rfl
  | cons c cs ih => simp [execs, ih]

theorem scriptAnswer_zero (env : Env) (s : State) (c : List String) (cs : List (List String)) :
    scriptAnswer env s.trace (c :: cs) 0 = s.ask env c := by
  simp [scriptAnswer, State.ask]

theorem scriptAnswer_succ (env : Env) (s : State) (c : List String) (cs : List (List String))
    (k : Nat) :
    scriptAnswer env s.trace (c :: cs) (k + 1) = scriptAnswer env (s.ran c).trace cs k := by
  simp [scriptAnswer, State.ran, State.emit]

/-- A run of commands all of which succeed returns no error and leaves the state in which
exactly these commands have been issued. -/
theorem runScript_success (env : Env) (script : List (List String × String)) :
    ∀ s : State,
      (∀ k, k < script.length → (scriptAnswer env s.trace (script.map Prod.fst) k).2 = none) →
      runScript env script s = (none, ranAll s (script.map Prod.fst)) := by
  induction script with
  | nil => intro s _; rfl
  | cons c cs ih =>
    intro s h
    have h0 : (s.ask env c.1).2 = none := by
      have := h 0 (by simp)
      rwa [List.map_cons, scriptAnswer_zero] at this
    have hstep : execOrFail env c.1 c.2 s = (none, s.ran c.1) := by
      unfold execOrFail
      simp only [h0]
    show seqSteps (execOrFail env c.1 c.2 :: cs.map (fun c => execOrFail env c.1 c.2)) s = _
    rw [seqSteps_cons_ok hstep]
    exact ih (s.ran c.1) (fun k hk => by
      have := h (k + 1) (by simp; omega)
      rwa [List.map_cons, scriptAnswer_succ] at this)

/-- A run of commands in which command number `k` (from 0) is the first to fail returns the
error of that command, having issued the commands up to it and reported the failure. -/
theorem runScript_failure (env : Env) (script : List (List String × String)) :
    ∀ (s : State) (k : Nat) (e : String), k < script.length →
      (∀ l, l < k → (scriptAnswer env s.trace (script.map Prod.fst) l).2 = none) →
      (scriptAnswer env s.trace (script.map Prod.fst) k).2 = some e →
      ∃ text, runScript env script s =
        (some e, (ranAll s ((script.map Prod.fst).take (k + 1))).err text) := by
  induction script with
  | nil => intro s k e hk; simp at hk
  | cons c cs ih =>
    intro s k e hk hok hfail
    show ∃ text, seqSteps (execOrFail env c.1 c.2 :: cs.map (fun c => execOrFail env c.1 c.2)) s = _
    cases k with
    | zero =>
      rw [List.map_cons, scriptAnswer_zero] at hfail
      have hstep : execOrFail env c.1 c.2 s =
          (some e, (s.ran c.1).err (c.2 ++ (s.ask env c.1).1 ++ "\n")) := by
        unfold execOrFail
        simp only [hfail]
      rw [seqSteps_cons_err hstep]
      exact ⟨_, rfl⟩
    | succ k =>
      have h0 : (s.ask env c.1).2 = none := by
        have := hok 0 (by omega)
        rwa [List.map_cons, scriptAnswer_zero] at this
      have hstep : execOrFail env c.1 c.2 s = (none, s.ran c.1) := by
        unfold execOrFail
        simp only [h0]
      rw [seqSteps_cons_ok hstep]
      rw [List.map_cons, scriptAnswer_succ] at hfail
      obtain ⟨text, ht⟩ := ih (s.ran c.1) k e (by simpa using hk)
        (fun l hl => by
          have := hok (l + 1) (by omega)
          rwa [List.map_cons, scriptAnswer_succ] at this) hfail
      exact ⟨text, ht⟩

theorem loopFrom_eq_seqSteps (body : Int → Step) (k : Nat) :
    ∀ i : Int, loopFrom body k i =
      seqSteps ((List.range k).map (fun (j : Nat) => body (i + (j : Int)))) := by
  induction k with
  | zero => intro i; rfl
  | succ k ih =>
    intro i
    funext s
    rw [List.range_succ_eq_map, List.map_cons, List.map_map]
    show loopFrom body (k + 1) i s = andThen (body (i + ((0 : Nat) : Int))) _ s
    simp only [loopFrom, andThen, Nat.cast_zero, add_zero]
    rw [ih (i + 1)]
    have : (fun j : Nat => body (i + 1 + (j : Int))) =
        ((fun j : Nat => body (i + (j : Int))) ∘ Nat.succ) := by
      funext j
      simp only [Function.comp, Nat.succ_eq_add_one, Nat.cast_add, Nat.cast_one]
      rw [add_assoc, add_comm (1 : Int)]
    rw [this]

theorem seqSteps_nested (l rest : List Step) :
    seqSteps (seqSteps l :: rest) = seqSteps (l ++ rest) := by
  rw [seqSteps_append]
  rfl

theorem seqSteps_map_seqSteps (ls : List (List Step)) :
    seqSteps (ls.map seqSteps) = seqSteps ls.flatten := by
  induction ls with
  | nil => rfl
  | cons l rest ih =>
    rw [List.map_cons, seqSteps_nested, List.flatten_cons, seqSteps_append, seqSteps_append, ih]

theorem forRange_one (body : Int → Step) (n : Nat) :
    forRange 1 (n : Int) body = seqSteps ((List.range n).map (fun (k : Nat) => body ((k : Int) + 1))) := by
  unfold forRange
  have hn : ((n : Int) + 1 - 1).toNat = n := by simp
  rw [hn, loopFrom_eq_seqSteps]
  have : (fun (j : Nat) => body (1 + (j : Int))) = (fun (k : Nat) => body ((k : Int) + 1)) := by
    funext j
    rw [add_comm]
  rw [this]

theorem seqSteps_nil : seqSteps [] = fun s => (none, s) := rfl

theorem done_andThen (b : Step) : andThen (fun s => (none, s)) b = b := by
  funext s
  rfl

/-- The function `createCertFile` is the announcement, the run of the certificate script and
the closing print. -/
theorem createCertFile_eq_script (env : Env) (flags : CreateCmdFlags) (n : Nat)
    (hn : flags.node = n) :
    createCertFile env flags =
      seqSteps [say "INFO: Creating cert files start.\n", runScript env (certScript n),
        say "INFO: Creating cert files done.\n"] := by
  unfold createCertFile runScript certScript
  rw [hn, forRange_one, forRange_one]
  have hnode : (fun (k : Nat) => certNodeStep env ((k : Int) + 1)) =
      seqSteps ∘ (fun (k : Nat) =>
        [execOrFail env (certCreateNodeArgs ((k : Int) + 1))
          "ERROR: docker exec command that creating node cert files failed.\n Error is: ",
         execOrFail env (certCopyNodeArgs ((k : Int) + 1))
          "ERROR: docker exec command that copy node cert files failed.\n Error is: "]) := by
    funext k
    rfl
  rw [hnode, ← List.map_map, seqSteps_map_seqSteps]
  simp only [List.map_append, List.map_cons, List.map_nil, List.map_map, List.map_flatten,
    seqSteps_append, seqSteps_cons, seqSteps_nil, andThen_assoc, andThen_done, done_andThen,
    Function.comp_def]

theorem execs_stdout (x : String) : execs [Event.stdout x] = [] := rfl

theorem execs_stderr (x : String) : execs [Event.stderr x] = [] := rfl

theorem certScript_commands (n : Nat) : (certScript n).map Prod.fst = certCommands n := by
  simp [certScript, certCommands, List.map_flatten, Function.comp_def]

theorem certCommands_length (n : Nat) : (certCommands n).length = 3 * n + 4 := by
  simp [certCommands, List.length_flatten, Function.comp_def]
  omega

theorem certCommands_in_helper (n : Nat) (c : List String) (h : c ∈ certCommands n) :
    c.take 2 = ["exec", "goki-client"] := by
  simp only [certCommands, List.mem_append, List.mem_cons, List.mem_singleton, List.mem_map,
    List.mem_flatten, List.not_mem_nil, or_false, List.mem_range] at h
  rcases h with (((rfl | ⟨k, _, rfl⟩) | rfl) | ⟨l, ⟨k, _, rfl⟩, hc⟩) | rfl | rfl
  · rfl
  · rfl
  · rfl
  · simp only [List.mem_cons, List.mem_singleton, List.not_mem_nil, or_false] at hc
    rcases hc with rfl | rfl <;> rfl
  · rfl
  · rfl

/-- C17: for `n` nodes `createCertFile` runs, inside the helper sandbox, the `3n + 4` commands
of `certCommands n` (working directory; output directory of each node; CA; for each node its
certificate then the copy into its directory; client certificate then its copy).  When every
command succeeds it returns no error and has issued exactly that sequence; when command number
`k` (from 0) is the first to fail it returns the error of that command and has issued the
commands up to that one and none after it. -/
theorem cert_bootstrap_sequence (env : Env) (flags : CreateCmdFlags) (n : Nat) (s : State)
    (hn : flags.node = n) :
    (certCommands n).length = 3 * n + 4 ∧
    (∀ c ∈ certCommands n, c.take 2 = ["exec", "goki-client"]) ∧
    ((∀ k, k < 3 * n + 4 →
        (scriptAnswer env (s.trace ++ [Event.stdout "INFO: Creating cert files start.\n"])
          (certCommands n) k).2 = none) →
      (createCertFile env flags s).1 = none ∧
      execs (createCertFile env flags s).2.trace = execs s.trace ++ certCommands n) ∧
    (∀ (k : Nat) (e : String), k < 3 * n + 4 →
      (∀ l, l < k →
        (scriptAnswer env (s.trace ++ [Event.stdout "INFO: Creating cert files start.\n"])
          (certCommands n) l).2 = none) →
      (scriptAnswer env (s.trace ++ [Event.stdout "INFO: Creating cert files start.\n"])
          (certCommands n) k).2 = some e →
      (createCertFile env flags s).1 = some e ∧
      execs (createCertFile env flags s).2.trace =
        execs s.trace ++ (certCommands n).take (k + 1)) := by
  have hlen : (certScript n).length = 3 * n + 4 := by
    rw [← certCommands_length, ← certScript_commands, List.length_map]
  have hstart : say "INFO: Creating cert files start.\n" s =
      (none, s.out "INFO: Creating cert files start.\n") := rfl
  have htr : (s.out "INFO: Creating cert files start.\n").trace =
      s.trace ++ [Event.stdout "INFO: Creating cert files start.\n"] := rfl
  refine ⟨certCommands_length n, certCommands_in_helper n, ?_, ?_⟩
  · intro hok
    rw [createCertFile_eq_script env flags n hn, seqSteps_cons_ok hstart]
    have hrun := runScript_success env (certScript n) (s.out "INFO: Creating cert files start.\n")
      (by
        intro k hk
        rw [certScript_commands, htr]
        exact hok k (by omega))
    rw [certScript_commands] at hrun
    rw [seqSteps_cons_ok hrun, seqSteps_single]
    refine ⟨rfl, ?_⟩
    simp only [say, State.out, State.emit, ranAll_trace, execs_append, execs_map_exec,
      execs_stdout, List.append_nil, List.append_assoc, List.nil_append]
  · intro k e hk hok hfail
    rw [createCertFile_eq_script env flags n hn, seqSteps_cons_ok hstart]
    obtain ⟨text, hrun⟩ := runScript_failure env (certScript n)
      (s.out "INFO: Creating cert files start.\n") k e (by omega)
      (by
        intro l hl
        rw [certScript_commands, htr]
        exact hok l hl)
      (by
        rw [certScript_commands, htr]
        exact hfail)
    rw [certScript_commands] at hrun
    rw [seqSteps_cons_err hrun]
    refine ⟨rfl, ?_⟩
    simp only [State.err, State.out, State.emit, ranAll_trace, execs_append, execs_map_exec,
      execs_stdout, execs_stderr, List.append_nil, List.append_assoc, List.nil_append]

theorem cert_bootstrap_sequence_witness :
    ((createCertFile quietEnv ⟨2, "v22.2.0", false⟩ State.init).1 = none ∧
      execs (createCertFile quietEnv ⟨2, "v22.2.0", false⟩ State.init).2.trace =
        execs State.init.trace ++ certCommands 2) ∧
    ((createCertFile certFailEnv ⟨2, "v22.2.0", false⟩ State.init).1 = some "exit status 1" ∧
      execs (createCertFile certFailEnv ⟨2, "v22.2.0", false⟩ State.init).2.trace =
        execs State.init.trace ++ (certCommands 2).take (6 + 1)) :=
  ⟨(cert_bootstrap_sequence quietEnv ⟨2, "v22.2.0", false⟩ 2 State.init rfl).2.2.1
      (fun _ _ => rfl),
    (cert_bootstrap_sequence certFailEnv ⟨2, "v22.2.0", false⟩ 2 State.init rfl).2.2.2 6
      "exit status 1" (by decide)
      (by
        intro l hl
        interval_cases l <;> decide)
      (by decide)⟩

/-! ## Rollout (C19) -/

theorem execs_of_no_exec {D : Prop} (evs : List Event)
    (h : ∀ e ∈ evs, Allowed (fun _ => False) D e) : execs evs = [] := by
  induction evs with
  | nil => rfl
  | cons e rest ih =>
    have h1 := h e (by simp)
    have h2 := ih (fun x hx => h x (by simp [hx]))
    cases e with
    | exec args => exact absurd h1 (by simp [Allowed])
    | sqlOpen c => simpa [execs] using h2
    | sqlQuery q g => simpa [execs] using h2
    | sleep k => simpa [execs] using h2
    | stdout x => simpa [execs] using h2
    | stderr x => simpa [execs] using h2

theorem Reaches.execs_same {D : Prop} {s t : State} (h : Reaches (fun _ => False) D s t) :
    execs t.trace = execs s.trace := by
  obtain ⟨_, evs, ht, hall⟩ := h
  rw [ht, execs_append, execs_of_no_exec evs hall, List.append_nil]

theorem checkGokiNodeRows_none (g : Int) (rows : List Row) (s : State)
    (h : (checkGokiNodeRows g rows s).1 = none) : (checkGokiNodeRows g rows s).2 = s := by
  induction rows with
  | nil => rfl
  | cons r rest ih =>
    rcases r with e | ⟨id, address⟩
    · simp [checkGokiNodeRows] at h
    · unfold checkGokiNodeRows at h ⊢
      split
      · next hc => simp [hc] at h
      · next hc =>
        rw [if_neg hc] at h
        exact ih h

theorem checkGokiNode_none (env : Env) (g : Int) (s : State)
    (h : (checkGokiNode env g s).1 = none) :
    (checkGokiNode env g s).2 =
      (s.emit (Event.sqlOpen checkGokiNodeConnStr)).emit (Event.sqlQuery checkGokiNodeQuery g) := by
  unfold checkGokiNode at h ⊢
  dsimp only at h ⊢
  rcases ho : env.sqlOpen s.trace checkGokiNodeConnStr with _ | e
  · simp only [ho] at h ⊢
    rcases hq : env.sqlQuery (s.emit (Event.sqlOpen checkGokiNodeConnStr)).trace
        checkGokiNodeQuery g with e | rows
    · simp [hq] at h
    · simp only [hq] at h ⊢
      exact checkGokiNodeRows_none g rows _ h
  · simp [ho] at h

/-- Whatever its outcome, one round of the rollout issues exactly one docker command, the
start of its node. -/
theorem createGokiClusterNode_one_start (env : Env) (flags : CreateCmdFlags) (i : Int)
    (s : State) :
    ∃ c, IsStartOf flags i c ∧
      execs (createGokiClusterNode env flags i s).2.trace = execs s.trace ++ [c] := by
  refine ⟨createGokiClusterArgs flags i (setLocality flags i s).gokiRegionId
    (setLocality flags i s).gokiZoneId, ⟨_, _, rfl⟩, ?_⟩
  unfold createGokiClusterNode
  dsimp only
  split
  · simp [State.err, State.ran, State.emit, execs_append, execs, setLocality_trace]
  · have hq : ∀ t : State, execs (checkNodeUnlessReuse env i t).2.trace = execs t.trace := by
      intro t
      unfold checkNodeUnlessReuse
      split
      · exact (checkGokiNode_tame (C := fun _ => False) (D := True)
          (b := t.gokiVolumeAlreadyExist) env i trivial t rfl).execs_same
      · rfl
    rw [hq]
    simp [State.out, State.ran, State.emit, execs_append, execs, setLocality_trace]

theorem setLocality_flag (flags : CreateCmdFlags) (i : Int) (s : State) :
    (setLocality flags i s).gokiVolumeAlreadyExist = s.gokiVolumeAlreadyExist :=
  (setLocality_reaches (C := fun _ => True) (D := True) flags i s).1

theorem checkNodeUnlessReuse_none (env : Env) (i : Int) (t : State)
    (h : (checkNodeUnlessReuse env i t).1 = none) :
    (checkNodeUnlessReuse env i t).2.trace = t.trace ++
        (if t.gokiVolumeAlreadyExist = true then []
          else [Event.sqlOpen checkGokiNodeConnStr, Event.sqlQuery checkGokiNodeQuery i]) ∧
      (checkNodeUnlessReuse env i t).2.gokiVolumeAlreadyExist = t.gokiVolumeAlreadyExist := by
  unfold checkNodeUnlessReuse at h ⊢
  cases hb : t.gokiVolumeAlreadyExist with
  | true => simp [hb]
  | false =>
    simp only [hb, Bool.false_eq_true, not_false_eq_true, if_true, if_false] at h ⊢
    rw [checkGokiNode_none env i t h]
    exact ⟨by simp [State.emit], hb⟩

/-- A successful round of the rollout adds exactly the events of `NodeRound` and leaves the
reuse flag alone. -/
theorem createGokiClusterNode_round (env : Env) (flags : CreateCmdFlags) (i : Int) (s : State)
    (h : (createGokiClusterNode env flags i s).1 = none) :
    ∃ chunk, NodeRound flags s.gokiVolumeAlreadyExist i chunk ∧
      (createGokiClusterNode env flags i s).2.trace = s.trace ++ chunk ∧
      (createGokiClusterNode env flags i s).2.gokiVolumeAlreadyExist =
        s.gokiVolumeAlreadyExist := by
  unfold createGokiClusterNode at h ⊢
  dsimp only at h ⊢
  rcases hr : ((setLocality flags i s).ask env (createGokiClusterArgs flags i
      (setLocality flags i s).gokiRegionId (setLocality flags i s).gokiZoneId)).2 with _ | e
  · simp only [hr] at h ⊢
    obtain ⟨h1, h2⟩ := checkNodeUnlessReuse_none env i _ h
    refine ⟨_, ⟨(setLocality flags i s).gokiRegionId, (setLocality flags i s).gokiZoneId,
      ((setLocality flags i s).ask env (createGokiClusterArgs flags i
        (setLocality flags i s).gokiRegionId (setLocality flags i s).gokiZoneId)).1, rfl⟩, ?_, ?_⟩
    · rw [h1]
      have hf : ((((setLocality flags i s).ran (createGokiClusterArgs flags i
          (setLocality flags i s).gokiRegionId (setLocality flags i s).gokiZoneId)).out
          ("INFO: Created container is: " ++ ((setLocality flags i s).ask env
            (createGokiClusterArgs flags i (setLocality flags i s).gokiRegionId
              (setLocality flags i s).gokiZoneId)).1)).emit (Event.sleep 1)).gokiVolumeAlreadyExist
          = s.gokiVolumeAlreadyExist := setLocality_flag flags i s
      rw [hf]
      simp [State.out, State.ran, State.emit, setLocality_trace]
    · rw [h2]
      exact setLocality_flag flags i s
  · simp [hr] at h

/-- The rollout loop, whatever its outcome, has issued exactly the start commands of the
first `m` of its nodes, in order; `m` is the whole range when it returns no error, and when it
returns an error that error is the one of the round of the last node started. -/
theorem loopFrom_rollout_execs (env : Env) (flags : CreateCmdFlags) (k : Nat) :
    ∀ (i : Int) (s : State), ∃ (m : Nat) (cmds : List (List String)), m ≤ k ∧
      List.Forall₂ (IsStartOf flags) (nodesFrom i m) cmds ∧
      execs (loopFrom (createGokiClusterNode env flags) k i s).2.trace = execs s.trace ++ cmds ∧
      ((loopFrom (createGokiClusterNode env flags) k i s).1 = none → m = k) ∧
      (∀ e, (loopFrom (createGokiClusterNode env flags) k i s).1 = some e →
        1 ≤ m ∧ ∃ t, createGokiClusterNode env flags (i + m - 1) t =
          (some e, (loopFrom (createGokiClusterNode env flags) k i s).2)) := by
  induction k with
  | zero =>
    intro i s
    exact ⟨0, [], le_refl 0, List.Forall₂.nil, by simp [loopFrom], fun _ => rfl,
      fun e h => by simp [loopFrom] at h⟩
  | succ k ih =>
    intro i s
    obtain ⟨c, hc, hx⟩ := createGokiClusterNode_one_start env flags i s
    unfold loopFrom
    rcases hb : createGokiClusterNode env flags i s with ⟨_ | e, s1⟩
    · rw [hb] at hx
      obtain ⟨m, cmds, hm, hall, hex, hnone, hsome⟩ := ih (i + 1) s1
      refine ⟨m + 1, c :: cmds, by omega, List.Forall₂.cons hc hall, ?_, ?_, ?_⟩
      · simp only [hex, hx, List.append_assoc, List.singleton_append]
      · intro h
        rw [hnone h]
      · intro e h
        obtain ⟨_, t, ht⟩ := hsome e h
        refine ⟨by omega, t, ?_⟩
        have : i + ((m + 1 : Nat) : Int) - 1 = i + 1 + (m : Int) - 1 := by
          push_cast
          ring
        rw [this]
        exact ht
    · rw [hb] at hx
      refine ⟨1, [c], by omega, List.Forall₂.cons hc List.Forall₂.nil, hx, ?_, ?_⟩
      · intro h
        simp at h
      · intro e2 h
        simp only [Option.some.injEq] at h
        subst h
        exact ⟨le_refl 1, s, by simpa using hb⟩

/-- The rollout loop, when it returns no error, has added one `NodeRound` per node of its
range, in order, and nothing else. -/
theorem loopFrom_rollout_rounds (env : Env) (flags : CreateCmdFlags) (k : Nat) :
    ∀ (i : Int) (s : State), (loopFrom (createGokiClusterNode env flags) k i s).1 = none →
      ∃ chunks, List.Forall₂ (NodeRound flags s.gokiVolumeAlreadyExist) (nodesFrom i k) chunks ∧
        (loopFrom (createGokiClusterNode env flags) k i s).2.trace = s.trace ++ chunks.flatten := by
  induction k with
  | zero =>
    intro i s _
    exact ⟨[], List.Forall₂.nil, by simp [loopFrom]⟩
  | succ k ih =>
    intro i s h
    unfold loopFrom at h ⊢
    rcases hb : createGokiClusterNode env flags i s with ⟨_ | e, s1⟩
    · simp only [hb] at h ⊢
      obtain ⟨chunk, hround, htr, hflag⟩ := createGokiClusterNode_round env flags i s (by rw [hb])
      rw [hb] at htr hflag
      obtain ⟨chunks, hall, htr2⟩ := ih (i + 1) s1 h
      refine ⟨chunk :: chunks, List.Forall₂.cons hround ?_, ?_⟩
      · have : s1.gokiVolumeAlreadyExist = s.gokiVolumeAlreadyExist := hflag
        rw [this] at hall
        exact hall
      · have : s1.trace = s.trace ++ chunk := htr
        rw [htr2, this, List.flatten_cons, List.append_assoc]
    · simp [hb] at h

theorem nodesFrom_eq_map (k : Nat) :
    ∀ i : Int, nodesFrom i k = (List.range k).map (fun (j : Nat) => i + (j : Int)) := by
  induction k with
  | zero => intro i; rfl
  | succ k ih =>
    intro i
    rw [List.range_succ_eq_map, List.map_cons, List.map_map]
    simp only [nodesFrom, ih (i + 1), Nat.cast_zero, add_zero, List.cons.injEq, true_and]
    apply List.map_congr_left
    intro j _
    simp only [Function.comp, Nat.succ_eq_add_one, Nat.cast_add, Nat.cast_one]
    rw [add_assoc, add_comm (1 : Int)]

/-- C19: `createGokiCluster` for node count `N` starts the nodes 2, 3, ..., `N` in ascending
order, one round after the other.  When it returns no error its trace is the opening print, one
round per node (start command, report, settle delay and, unless data is reused, the identity
verification of that node) and the closing print: `N - 1` starts, none for `N = 1`.  When it
returns an error, that error is the one of the round of some node `i` in 2..`N`, and the
commands issued are exactly the starts of the nodes 2..`i`: no later node is started and no
rollback command is issued. -/
theorem rollout_sequence (env : Env) (flags : CreateCmdFlags) (s : State) :
    ((createGokiCluster env flags s).1 = none →
      ∃ chunks,
        List.Forall₂ (NodeRound flags s.gokiVolumeAlreadyExist) (rolloutNodes flags.node) chunks ∧
        (createGokiCluster env flags s).2.trace =
          s.trace ++ [Event.stdout "INFO: Creating Cluster start.\n"] ++ chunks.flatten ++
            [Event.stdout "INFO: Creating Cluster done.\n"]) ∧
    (∀ e, (createGokiCluster env flags s).1 = some e →
      ∃ (i : Int) (cmds : List (List String)) (t : State), 2 ≤ i ∧ i ≤ flags.node ∧
        List.Forall₂ (IsStartOf flags) (rolloutNodes i) cmds ∧
        execs (createGokiCluster env flags s).2.trace = execs s.trace ++ cmds ∧
        createGokiClusterNode env flags i t = (some e, (createGokiCluster env flags s).2)) ∧
    (rolloutNodes flags.node =
        (List.range (flags.node - 1).toNat).map (fun (j : Nat) => 2 + (j : Int)) ∧
      (rolloutNodes flags.node).length = (flags.node - 1).toNat ∧ rolloutNodes 1 = []) := by
  have hstart : say "INFO: Creating Cluster start.\n" s =
      (none, s.out "INFO: Creating Cluster start.\n") := rfl
  have hcount : (flags.node + 1 - 2).toNat = (flags.node - 1).toNat := by
    congr 1
    ring
  refine ⟨?_, ?_, ⟨nodesFrom_eq_map _ 2, ?_, rfl⟩⟩
  · intro h
    unfold createGokiCluster at h ⊢
    rw [seqSteps_cons_ok hstart] at h ⊢
    obtain ⟨h1, e1⟩ := seqSteps_cons_none h
    rw [e1, seqSteps_single]
    unfold forRange at h1 ⊢
    rw [hcount] at h1 ⊢
    obtain ⟨chunks, hall, htr⟩ := loopFrom_rollout_rounds env flags _ 2 _ h1
    refine ⟨chunks, hall, ?_⟩
    simp only [say, State.out, State.emit] at htr ⊢
    rw [htr]
  · intro e h
    unfold createGokiCluster at h ⊢
    rw [seqSteps_cons_ok hstart] at h ⊢
    unfold forRange at h ⊢
    rw [hcount] at h ⊢
    obtain ⟨m, cmds, hm, hall, hex, hnone, hsome⟩ := loopFrom_rollout_execs env flags
      (flags.node - 1).toNat 2 (s.out "INFO: Creating Cluster start.\n")
    rcases hl : loopFrom (createGokiClusterNode env flags) (flags.node - 1).toNat 2
        (s.out "INFO: Creating Cluster start.\n") with ⟨_ | e2, s1⟩
    · rw [seqSteps_cons_ok hl] at h
      simp [seqSteps, andThen, say] at h
    · rw [seqSteps_cons_err hl] at h ⊢
      simp only [Option.some.injEq] at h
      subst h
      rw [hl] at hex hsome
      obtain ⟨hm1, t, ht⟩ := hsome e2 rfl
      have hmn : ((m : Int)) ≤ flags.node - 1 := by
        have := Int.toNat_of_nonneg (a := flags.node - 1) (by omega)
        omega
      refine ⟨2 + (m : Int) - 1, cmds, t, by omega, by omega, ?_, ?_, ht⟩
      · have : (2 + (m : Int) - 1 - 1).toNat = m := by
          have : 2 + (m : Int) - 1 - 1 = (m : Int) := by ring
          rw [this]
          exact Int.toNat_natCast m
        unfold rolloutNodes
        rw [this]
        exact hall
      · rw [hex]
        simp [State.out, State.emit, execs_append, execs]
  · unfold rolloutNodes
    rw [nodesFrom_eq_map]
    simp

theorem rollout_sequence_witness :
    (∃ chunks,
      List.Forall₂ (NodeRound ⟨3, "v22.2.0", true⟩ State.init.gokiVolumeAlreadyExist)
        (rolloutNodes (⟨3, "v22.2.0", true⟩ : CreateCmdFlags).node) chunks ∧
      (createGokiCluster quietEnv ⟨3, "v22.2.0", true⟩ State.init).2.trace =
        State.init.trace ++ [Event.stdout "INFO: Creating Cluster start.\n"] ++ chunks.flatten ++
          [Event.stdout "INFO: Creating Cluster done.\n"]) ∧
    (∃ (i : Int) (cmds : List (List String)) (t : State), 2 ≤ i ∧
      i ≤ (⟨4, "v22.2.0", false⟩ : CreateCmdFlags).node ∧
      List.Forall₂ (IsStartOf ⟨4, "v22.2.0", false⟩) (rolloutNodes i) cmds ∧
      execs (createGokiCluster thirdNodeFailsEnv ⟨4, "v22.2.0", false⟩ State.init).2.trace =
        execs State.init.trace ++ cmds ∧
      createGokiClusterNode thirdNodeFailsEnv ⟨4, "v22.2.0", false⟩ i t =
        (some "exit status 125",
          (createGokiCluster thirdNodeFailsEnv ⟨4, "v22.2.0", false⟩ State.init).2)) :=
  ⟨(rollout_sequence quietEnv ⟨3, "v22.2.0", true⟩ State.init).1 (by decide),
    (rollout_sequence thirdNodeFailsEnv ⟨4, "v22.2.0", false⟩ State.init).2.1 "exit status 125"
      (by decide)⟩

/-! ## Teardown (C13, C14, C15, C16) -/

theorem forEach_none (env : Env) (mk : String → List String) (pre : String)
    (names : List String) :
    ∀ s : State, (forEach names (fun c => execOrFail env (mk c) pre) s).1 = none →
      (forEach names (fun c => execOrFail env (mk c) pre) s).2 = ranAll s (names.map mk) := by
  induction names with
  | nil => intro s _; rfl
  | cons c cs ih =>
    intro s h
    have h' : (seqSteps (execOrFail env (mk c) pre ::
        cs.map (fun c => execOrFail env (mk c) pre)) s).1 = none := h
    obtain ⟨h1, e1⟩ := seqSteps_cons_none h'
    show (seqSteps (execOrFail env (mk c) pre ::
        cs.map (fun c => execOrFail env (mk c) pre)) s).2 = _
    rw [e1] at h' ⊢
    rw [(execOrFail_none env _ _ _ h1).1] at h' ⊢
    exact ih (s.ran (mk c)) h'

theorem listThen_none (env : Env) (args : List String) (pre : String)
    (next : List String → Step) (s : State) (h : (listThen env args pre next s).1 = none) :
    (s.ask env args).2 = none ∧
      listThen env args pre next s = next (parseList (s.ask env args).1) (s.ran args) := by
  unfold listThen at h ⊢
  dsimp only at h ⊢
  rcases hr : (s.ask env args).2 with _ | e
  · exact ⟨rfl, by simp only [hr]⟩
  · simp [hr] at h

theorem andThen_none {a b : Step} {s : State} (h : (andThen a b s).1 = none) :
    (a s).1 = none ∧ andThen a b s = b (a s).2 := by
  unfold andThen at h ⊢
  rcases ha : a s with ⟨_ | e, t⟩
  · exact ⟨rfl, rfl⟩
  · simp [ha] at h

theorem execs_foldl_out (f : String → String) (names : List String) :
    ∀ s : State, execs (names.foldl (fun t name => t.out (f name)) s).trace = execs s.trace := by
  induction names with
  | nil => intro s; rfl
  | cons c cs ih =>
    intro s
    rw [List.foldl_cons, ih]
    simp [State.out, State.emit, execs_append, execs]

theorem execs_showDeleted (list : List String) (s : State) :
    execs (showDeleted list s).trace = execs s.trace := by
  unfold showDeleted
  split
  · exact execs_foldl_out _ _ _
  · split
    · simp [State.out, State.emit, execs_append, execs]
    · rfl

theorem execs_ranAll (s : State) (cmds : List (List String)) :
    execs (ranAll s cmds).trace = execs s.trace ++ cmds := by
  rw [ranAll_trace, execs_append, execs_map_exec]

theorem execs_ran (s : State) (args : List String) :
    execs (s.ran args).trace = execs s.trace ++ [args] := by
  simp [State.ran, State.emit, execs_append, execs]

theorem execs_out (s : State) (x : String) : execs (s.out x).trace = execs s.trace := by
  simp [State.out, State.emit, execs_append, execs]

/-- A successful `removeGokiContainers` has issued the all-containers listing and one remove
per listed name, in order. -/
theorem removeGokiContainers_none (env : Env) (s : State)
    (h : (removeGokiContainers env s).1 = none) :
    execs (removeGokiContainers env s).2.trace =
      execs s.trace ++ allListArgs :: (parseList (s.ask env allListArgs).1).map rmArgs := by
  unfold removeGokiContainers at h ⊢
  obtain ⟨_, e1⟩ := listThen_none env _ _ _ s h
  rw [e1] at h ⊢
  obtain ⟨h2, e2⟩ := andThen_none h
  rw [e2, execs_showDeleted, execs_out, forEach_none env rmArgs _ _ _ h2, execs_ranAll, execs_ran]
  simp

/-- A successful `deleteGokiContainers` has issued the running listing, one kill per running
name, the all-containers listing taken after the kills and one remove per name of it. -/
theorem deleteGokiContainers_none (env : Env) (s : State)
    (h : (deleteGokiContainers env s).1 = none) :
    execs (deleteGokiContainers env s).2.trace =
      execs s.trace ++ (liveListArgs :: (teardownLive env s).map killArgs) ++
        (allListArgs :: (teardownAll env s).map rmArgs) := by
  unfold deleteGokiContainers at h ⊢
  obtain ⟨_, e1⟩ := listThen_none env _ _ _ s h
  rw [e1] at h ⊢
  obtain ⟨h2, e2⟩ := andThen_none h
  rw [e2] at h ⊢
  rw [forEach_none env killArgs _ _ _ h2] at h ⊢
  rw [removeGokiContainers_none env _ h]
  unfold teardownAll afterKills teardownLive
  rw [execs_ranAll, execs_ran]
  simp

/-- A successful `deleteGokiNetwork` has issued the network listing and, when a name was
listed, the removal of that network. -/
theorem deleteGokiNetwork_none (env : Env) (s : State)
    (h : (deleteGokiNetwork env s).1 = none) :
    execs (deleteGokiNetwork env s).2.trace =
      execs s.trace ++ deleteGokiNetworkLsArgs ::
        (if teardownNetwork env s = "" then [] else [networkRmArgs (teardownNetwork env s)]) := by
  unfold deleteGokiNetwork at h ⊢
  dsimp only at h ⊢
  rcases hr : (s.ask env deleteGokiNetworkLsArgs).2 with _ | e
  · simp only [hr] at h ⊢
    obtain ⟨h2, e2⟩ := andThen_none h
    rw [e2]
    unfold teardownNetwork
    by_cases hn : networkNameOf (s.ask env deleteGokiNetworkLsArgs).1 = ""
    · simp only [hn, ne_eq, not_true_eq_false, if_false, if_true] at h2 ⊢
      simp [showNetwork, execs_out, execs_ran]
    · simp only [hn, ne_eq, not_false_eq_true, if_true, if_false] at h2 ⊢
      rw [(execOrFail_none env _ _ _ h2).1]
      simp [showNetwork, hn, execs_out, execs_ran]
  · simp [hr] at h

/-- A successful `deleteGokiVolume` has issued the volume listing and one removal per listed
name, in order. -/
theorem deleteGokiVolume_none (env : Env) (s : State) (h : (deleteGokiVolume env s).1 = none) :
    execs (deleteGokiVolume env s).2.trace =
      execs s.trace ++ deleteGokiVolumeLsArgs :: (teardownVolumes env s).map volumeRmArgs := by
  unfold deleteGokiVolume at h ⊢
  obtain ⟨_, e1⟩ := listThen_none env _ _ _ s h
  rw [e1] at h ⊢
  obtain ⟨h2, e2⟩ := andThen_none h
  rw [e2, execs_showDeleted, execs_out, forEach_none env volumeRmArgs _ _ _ h2, execs_ranAll,
    execs_ran]
  unfold teardownVolumes
  simp

/-- C13: in every successful run of `deleteGokiCluster` the commands issued are, in this order:
the running listing and a kill for each of its names; the all-containers listing, taken after
the kills, and a remove for each of its names; the network listing and the removal of the
listed network (when there is one); and, when volume deletion is requested, the volume listing
and a removal for each of its names. -/
theorem teardown_order (env : Env) (flags : DeleteCmdFlags) (s : State)
    (h : (deleteGokiCluster env flags s).1 = none) :
    execs (deleteGokiCluster env flags s).2.trace =
      execs s.trace ++
        (liveListArgs :: (teardownLive env s).map killArgs) ++
        (allListArgs :: (teardownAll env s).map rmArgs) ++
        (deleteGokiNetworkLsArgs ::
          (if teardownNetwork env (deleteGokiContainers env s).2 = "" then []
            else [networkRmArgs (teardownNetwork env (deleteGokiContainers env s).2)])) ++
        (if flags.volume = true then
          deleteGokiVolumeLsArgs ::
            (teardownVolumes env (deleteGokiNetwork env (deleteGokiContainers env s).2).2).map
              volumeRmArgs
          else []) := by
  unfold deleteGokiCluster at h ⊢
  obtain ⟨h1, e1⟩ := seqSteps_cons_none h
  rw [e1] at h ⊢
  obtain ⟨h2, e2⟩ := seqSteps_cons_none h
  rw [e2] at h ⊢
  rw [seqSteps_single] at h ⊢
  cases hv : flags.volume with
  | true =>
    simp only [hv, if_true] at h ⊢
    rw [deleteGokiVolume_none env _ h, deleteGokiNetwork_none env _ h2,
      deleteGokiContainers_none env _ h1]
  | false =>
    simp only [hv, Bool.false_eq_true, if_false, List.append_nil]
    rw [deleteGokiNetwork_none env _ h2, deleteGokiContainers_none env _ h1]

theorem teardown_order_witness :
    execs (deleteGokiCluster teardownEnv ⟨true⟩ State.init).2.trace =
      execs State.init.trace ++
        (liveListArgs :: (teardownLive teardownEnv State.init).map killArgs) ++
        (allListArgs :: (teardownAll teardownEnv State.init).map rmArgs) ++
        (deleteGokiNetworkLsArgs ::
          (if teardownNetwork teardownEnv (deleteGokiContainers teardownEnv State.init).2 = ""
            then []
            else [networkRmArgs
              (teardownNetwork teardownEnv (deleteGokiContainers teardownEnv State.init).2)])) ++
        (if (⟨true⟩ : DeleteCmdFlags).volume = true then
          deleteGokiVolumeLsArgs ::
            (teardownVolumes teardownEnv
              (deleteGokiNetwork teardownEnv
                (deleteGokiContainers teardownEnv State.init).2).2).map volumeRmArgs
          else []) :=
  teardown_order teardownEnv ⟨true⟩ State.init (by decide)

theorem forEach_eq_runScript (env : Env) (mk : String → List String) (pre : String)
    (names : List String) :
    forEach names (fun c => execOrFail env (mk c) pre) =
      runScript env (names.map (fun c => (mk c, pre))) := by
  unfold forEach runScript
  rw [List.map_map]
  rfl

theorem script_commands (mk : String → List String) (pre : String) (names : List String) :
    (names.map (fun c => (mk c, pre))).map Prod.fst = names.map mk := by
  rw [List.map_map]
  rfl

theorem foldl_out_trace (f : String → String) (names : List String) :
    ∀ s : State, (names.foldl (fun t name => t.out (f name)) s).trace =
      s.trace ++ names.map (fun n => Event.stdout (f n)) := by
  induction names with
  | nil => intro s; simp
  | cons c cs ih =>
    intro s
    rw [List.foldl_cons, ih]
    simp [State.out, State.emit]

theorem showDeleted_trace (names : List String) (s : State) :
    (showDeleted names s).trace = s.trace ++
      (if names = [] then [Event.stdout "    Nothing\n"]
        else names.map (fun n => Event.stdout ("    " ++ n ++ "\n"))) := by
  unfold showDeleted
  cases names with
  | nil => simp [State.out, State.emit]
  | cons c cs =>
    simp only [List.length_cons, ne_eq, Nat.add_one_ne_zero, not_false_eq_true, if_true,
      reduceCtorEq, if_false]
    exact foldl_out_trace (fun n => "    " ++ n ++ "\n") (c :: cs) s

/-- A phase whose listing and removals all succeed returns no error, having issued the
listing and one removal per listed name and printed the report. -/
theorem removePhase_success (env : Env) (ls : List String) (pre : String)
    (mk : String → List String) (pre2 header : String) (s : State)
    (hl : (s.ask env ls).2 = none)
    (hok : ∀ k, k < (parseList (s.ask env ls).1).length →
      (scriptAnswer env (s.ran ls).trace ((parseList (s.ask env ls).1).map mk) k).2 = none) :
    removePhase env ls pre mk pre2 header s =
      (none, showDeleted (parseList (s.ask env ls).1)
        ((ranAll (s.ran ls) ((parseList (s.ask env ls).1).map mk)).out header)) := by
  unfold removePhase listThen
  simp only [hl]
  rw [forEach_eq_runScript]
  unfold andThen
  rw [runScript_success env _ (s.ran ls) (by
    intro k hk
    rw [script_commands]
    exact hok k (by simpa using hk))]
  simp only [script_commands]

/-- A phase whose listing succeeds and in which removal number `k` is the first to fail returns
the error of that removal, having issued the listing and the removals up to it; it prints
the failure and no report. -/
theorem removePhase_failure (env : Env) (ls : List String) (pre : String)
    (mk : String → List String) (pre2 header : String) (s : State)
    (hl : (s.ask env ls).2 = none) (k : Nat) (e : String)
    (hk : k < (parseList (s.ask env ls).1).length)
    (hok : ∀ l, l < k →
      (scriptAnswer env (s.ran ls).trace ((parseList (s.ask env ls).1).map mk) l).2 = none)
    (hfail :
      (scriptAnswer env (s.ran ls).trace ((parseList (s.ask env ls).1).map mk) k).2 = some e) :
    ∃ text, removePhase env ls pre mk pre2 header s =
      (some e, (ranAll (s.ran ls) (((parseList (s.ask env ls).1).map mk).take (k + 1))).err
        text) := by
  unfold removePhase listThen
  simp only [hl]
  rw [forEach_eq_runScript]
  unfold andThen
  obtain ⟨text, ht⟩ := runScript_failure env
    ((parseList (s.ask env ls).1).map (fun c => (mk c, pre2))) (s.ran ls) k e
    (by simpa using hk)
    (by intro l hl2; rw [script_commands]; exact hok l hl2)
    (by rw [script_commands]; exact hfail)
  refine ⟨text, ?_⟩
  rw [ht]
  simp only [script_commands]

theorem showDeleted_reaches {s t : State} (names : List String) (h : Reaches C D s t) :
    Reaches C D s (showDeleted names t) := by
  refine h.trans ⟨?_, _, showDeleted_trace names t, ?_⟩
  · unfold showDeleted
    have hf : ∀ (l : List String) (u : State),
        (l.foldl (fun t name => t.out ("    " ++ name ++ "\n")) u).gokiVolumeAlreadyExist =
          u.gokiVolumeAlreadyExist := by
      intro l
      induction l with
      | nil => intro u; rfl
      | cons c cs ih => intro u; rw [List.foldl_cons, ih]; rfl
    split
    · exact hf _ _
    · split <;> rfl
  · intro e he
    split at he
    · simp at he; subst he; simp [Allowed]
    · simp at he; obtain ⟨n, _, rfl⟩ := he; simp [Allowed]

theorem listThen_tame (env : Env) {args : List String} (pre : String)
    {next : List String → Step} (ha : C args) (hn : ∀ names, Tame C D b (next names)) :
    Tame C D b (listThen env args pre next) := by
  intro s hs
  unfold listThen
  dsimp only
  split
  · exact ((Reaches.refl s).ran ha).err
  · exact ((Reaches.refl s).ran ha).trans (hn _ (s.ran args) hs)

theorem forEach_tame (env : Env) {mk : String → List String} (pre : String)
    (names : List String) (h : ∀ c, C (mk c)) :
    Tame C D b (forEach names (fun c => execOrFail env (mk c) pre)) := by
  unfold forEach
  apply seqSteps_tame
  intro f hf
  obtain ⟨c, _, rfl⟩ := List.mem_map.1 hf
  exact execOrFail_tame env pre (h c)

theorem deleteGokiContainers_tame (env : Env) (h1 : C liveListArgs) (h2 : ∀ c, C (killArgs c))
    (h3 : C allListArgs) (h4 : ∀ c, C (rmArgs c)) : Tame C D b (deleteGokiContainers env) := by
  unfold deleteGokiContainers
  refine listThen_tame env _ h1 (fun live => andThen_tame (forEach_tame env _ _ h2) ?_)
  unfold removeGokiContainers
  refine listThen_tame env _ h3 (fun dead => andThen_tame (forEach_tame env _ _ h4) ?_)
  intro s _
  exact showDeleted_reaches dead (Reaches.refl s).out

theorem deleteGokiNetwork_tame (env : Env) (h1 : C deleteGokiNetworkLsArgs)
    (h2 : ∀ c, C (networkRmArgs c)) : Tame C D b (deleteGokiNetwork env) := by
  intro s hs
  unfold deleteGokiNetwork
  dsimp only
  split
  · exact ((Reaches.refl s).ran h1).err
  · refine ((Reaches.refl s).ran h1).trans ?_
    refine andThen_tame (b := b) ?_ ?_ (s.ran deleteGokiNetworkLsArgs) hs
    · intro t ht
      split
      · exact execOrFail_tame env _ (h2 _) t ht
      · exact Reaches.refl t
    · intro t _
      unfold showNetwork
      split
      · exact (Reaches.refl t).out.out
      · split
        · exact (Reaches.refl t).out.out
        · exact (Reaches.refl t).out

/-- With the volume flag unset `deleteGokiCluster` adds to the trace only commands that are
not volume commands. -/
theorem deleteGokiCluster_keeps_volumes (env : Env) (flags : DeleteCmdFlags)
    (hv : flags.volume = false) (s : State) :
    Reaches (fun a => a.head? ≠ some "volume") True s (deleteGokiCluster env flags s).2 := by
  have h : Tame (fun a => a.head? ≠ some "volume") True s.gokiVolumeAlreadyExist
      (deleteGokiCluster env flags) := by
    unfold deleteGokiCluster
    apply seqSteps_tame
    intro f hf
    simp only [List.mem_cons, List.mem_singleton, List.not_mem_nil, or_false] at hf
    rcases hf with rfl | rfl | rfl
    · exact deleteGokiContainers_tame env (by decide) (fun c => by simp [killArgs])
        (by decide) (fun c => by simp [rmArgs])
    · exact deleteGokiNetwork_tame env (by decide) (fun c => by simp [networkRmArgs])
    · intro t _
      simp only [hv, Bool.false_eq_true, if_false]
      exact Reaches.refl t
  exact h s rfl

theorem deleteGokiCluster_volume_phase (env : Env) (flags : DeleteCmdFlags) (s : State)
    (hv : flags.volume = true) (h1 : (deleteGokiContainers env s).1 = none)
    (h2 : (deleteGokiNetwork env (deleteGokiContainers env s).2).1 = none) :
    deleteGokiCluster env flags s = deleteGokiVolume env (afterNetwork env s) := by
  unfold deleteGokiCluster afterNetwork
  rw [seqSteps_cons_ok (Prod.ext h1 rfl), seqSteps_cons_ok (Prod.ext h2 rfl), seqSteps_single]
  simp only [hv, if_true]

/-- C14 (counterexample): with volume deletion requested and the container and network phases
successful, the volume listing names three volumes, the removal of the second fails, and no
removal is issued for the third. -/
theorem volume_removal_stops_at_failure :
    (deleteGokiContainers volumeInUseEnv State.init).1 = none ∧
    (deleteGokiNetwork volumeInUseEnv (deleteGokiContainers volumeInUseEnv State.init).2).1 =
      none ∧
    teardownVolumes volumeInUseEnv (afterNetwork volumeInUseEnv State.init) =
      ["goki-volume-1", "goki-volume-2", "goki-volume-client"] ∧
    volumeRmArgs "goki-volume-client" ∉
      execs (deleteGokiCluster volumeInUseEnv ⟨true⟩ State.init).2.trace := by
  decide

/-- C14 (amended): when the volume flag is false `deleteGokiCluster` issues no command whose
first word is `volume` (no volume listing, no volume removal), whatever the tool answers; when
the flag is true, the container and network phases succeed and the volume listing succeeds,
it issues the removals of the listed names in listing order, for every name when every
removal succeeds and up to and including the first removal that fails otherwise. -/
theorem volumes_kept_by_default (env : Env) (flags : DeleteCmdFlags) (s : State) :
    (flags.volume = false →
      ∀ args, Issues s (deleteGokiCluster env flags s).2 args → args.head? ≠ some "volume") ∧
    (flags.volume = true → (deleteGokiContainers env s).1 = none →
      (deleteGokiNetwork env (deleteGokiContainers env s).2).1 = none →
      ((afterNetwork env s).ask env deleteGokiVolumeLsArgs).2 = none →
      ((∀ k, k < (teardownVolumes env (afterNetwork env s)).length →
          (scriptAnswer env ((afterNetwork env s).ran deleteGokiVolumeLsArgs).trace
            ((teardownVolumes env (afterNetwork env s)).map volumeRmArgs) k).2 = none) →
        (deleteGokiCluster env flags s).1 = none ∧
        execs (deleteGokiCluster env flags s).2.trace =
          execs (afterNetwork env s).trace ++ deleteGokiVolumeLsArgs ::
            (teardownVolumes env (afterNetwork env s)).map volumeRmArgs) ∧
      (∀ (k : Nat) (e : String), k < (teardownVolumes env (afterNetwork env s)).length →
        (∀ l, l < k →
          (scriptAnswer env ((afterNetwork env s).ran deleteGokiVolumeLsArgs).trace
            ((teardownVolumes env (afterNetwork env s)).map volumeRmArgs) l).2 = none) →
        (scriptAnswer env ((afterNetwork env s).ran deleteGokiVolumeLsArgs).trace
            ((teardownVolumes env (afterNetwork env s)).map volumeRmArgs) k).2 = some e →
        (deleteGokiCluster env flags s).1 = some e ∧
        execs (deleteGokiCluster env flags s).2.trace =
          execs (afterNetwork env s).trace ++ deleteGokiVolumeLsArgs ::
            ((teardownVolumes env (afterNetwork env s)).take (k + 1)).map volumeRmArgs)) := by
  refine ⟨?_, ?_⟩
  · intro hv args hi
    obtain ⟨_, evs, he, hall⟩ := deleteGokiCluster_keeps_volumes env flags hv s
    obtain ⟨evs2, he2, hm⟩ := hi
    have : evs = evs2 := List.append_cancel_left (he.symm.trans he2)
    subst this
    exact hall _ hm
  · intro hv h1 h2 hl
    rw [deleteGokiCluster_volume_phase env flags s hv h1 h2]
    refine ⟨?_, ?_⟩
    · intro hok
      have h := removePhase_success env deleteGokiVolumeLsArgs "docker volume ls command failed: "
        volumeRmArgs "docker volume rm command failed: " "  Docker Volumes:\n"
        (afterNetwork env s) hl hok
      have h' : deleteGokiVolume env (afterNetwork env s) = _ := h
      rw [h']
      refine ⟨rfl, ?_⟩
      simp only [execs_showDeleted, execs_out, execs_ranAll, execs_ran, teardownVolumes,
        List.append_assoc, List.singleton_append]
    · intro k e hk hok hfail
      obtain ⟨text, h⟩ := removePhase_failure env deleteGokiVolumeLsArgs
        "docker volume ls command failed: " volumeRmArgs "docker volume rm command failed: "
        "  Docker Volumes:\n" (afterNetwork env s) hl k e hk hok hfail
      have h' : deleteGokiVolume env (afterNetwork env s) = _ := h
      rw [h']
      refine ⟨rfl, ?_⟩
      simp only [State.err, State.emit, execs_append, execs_stderr, execs_ranAll, execs_ran,
        teardownVolumes, List.append_assoc, List.singleton_append, List.map_take,
        List.append_nil]

theorem volumes_kept_by_default_witness :
    (∀ args, Issues State.init (deleteGokiCluster teardownEnv ⟨false⟩ State.init).2 args →
      args.head? ≠ some "volume") ∧
    ((deleteGokiCluster teardownEnv ⟨true⟩ State.init).1 = none ∧
      execs (deleteGokiCluster teardownEnv ⟨true⟩ State.init).2.trace =
        execs (afterNetwork teardownEnv State.init).trace ++ deleteGokiVolumeLsArgs ::
          (teardownVolumes teardownEnv (afterNetwork teardownEnv State.init)).map
            volumeRmArgs) ∧
    ((deleteGokiCluster volumeInUseEnv ⟨true⟩ State.init).1 = some "exit status 1" ∧
      execs (deleteGokiCluster volumeInUseEnv ⟨true⟩ State.init).2.trace =
        execs (afterNetwork volumeInUseEnv State.init).trace ++ deleteGokiVolumeLsArgs ::
          ((teardownVolumes volumeInUseEnv (afterNetwork volumeInUseEnv State.init)).take
            (1 + 1)).map volumeRmArgs) :=
  ⟨(volumes_kept_by_default teardownEnv ⟨false⟩ State.init).1 rfl,
    ((volumes_kept_by_default teardownEnv ⟨true⟩ State.init).2 rfl (by decide) (by decide)
      (by decide)).1 (by intro k hk; have hk3 : k < 3 := hk; interval_cases k <;> decide),
    ((volumes_kept_by_default volumeInUseEnv ⟨true⟩ State.init).2 rfl (by decide) (by decide)
      (by decide)).2 1 "exit status 1" (by decide)
      (by intro l hl; interval_cases l; decide) (by decide)⟩

theorem nothing_line (n : String) (h : "    " ++ n ++ "\n" = "    Nothing\n") :
    n = "Nothing" := by
  have h2 : ("    " ++ n ++ "\n").data = ("    " ++ "Nothing" ++ "\n").data := by
    rw [h]; decide
  simp only [String.data_append] at h2
  exact String.ext (List.append_cancel_left (List.append_cancel_right h2))

theorem no_nothing_line (ls : List String) (names : List String) (mk : String → List String)
    (header : String) (hh : header ≠ "    Nothing\n") (hn : "Nothing" ∉ names) :
    Event.stdout "    Nothing\n" ∉ Event.exec ls ::
      (names.map (fun n => Event.exec (mk n)) ++
        Event.stdout header :: names.map (fun n => Event.stdout ("    " ++ n ++ "\n"))) := by
  intro hm
  simp only [List.mem_cons, List.mem_append, List.mem_map, reduceCtorEq, and_false,
    exists_false, false_or, Event.stdout.injEq] at hm
  rcases hm with h | ⟨n, hmem, hline⟩
  · exact hh h.symm
  · exact hn (nothing_line n hline ▸ hmem)

/-- The report contract for the shared shape of the container and volume phases. -/
theorem removePhase_reports (env : Env) (ls : List String) (pre : String)
    (mk : String → List String) (pre2 header : String) (s : State)
    (hl : (s.ask env ls).2 = none) (hh : header ≠ "    Nothing\n") :
    PhaseReports env (removePhase env ls pre mk pre2 header s) s ls (parseList (s.ask env ls).1)
      mk header := by
  refine ⟨?_, ?_, ?_⟩
  · intro hnil
    rw [removePhase_success env ls pre mk pre2 header s hl (by rw [hnil]; intro k hk; simp at hk)]
    rw [hnil]
    rfl
  · intro hne hok
    rw [removePhase_success env ls pre mk pre2 header s hl hok]
    have htr : (showDeleted (parseList (s.ask env ls).1)
        ((ranAll (s.ran ls) ((parseList (s.ask env ls).1).map mk)).out header)).trace =
        s.trace ++ Event.exec ls ::
          ((parseList (s.ask env ls).1).map (fun n => Event.exec (mk n)) ++
            Event.stdout header ::
              (parseList (s.ask env ls).1).map (fun n => Event.stdout ("    " ++ n ++ "\n"))) := by
      rw [showDeleted_trace, if_neg hne]
      simp [State.out, State.emit, State.ran, ranAll_trace, List.map_map, Function.comp_def]
    refine ⟨rfl, htr, ?_⟩
    intro hn evs hevs
    rw [List.append_cancel_left (hevs.symm.trans htr)]
    exact no_nothing_line ls _ mk header hh hn
  · intro k e hk hok hfail
    obtain ⟨text, h⟩ := removePhase_failure env ls pre mk pre2 header s hl k e hk hok hfail
    rw [h]
    refine ⟨rfl, text, ?_⟩
    simp [State.err, State.emit, State.ran, ranAll_trace, List.map_take, List.map_map,
      Function.comp_def]

/-- When the running listing and every kill succeed, `deleteGokiContainers` goes on with its
second half in the state after the kills. -/
theorem deleteGokiContainers_after_kills (env : Env) (s : State)
    (hl : (s.ask env liveListArgs).2 = none)
    (hok : ∀ k, k < (teardownLive env s).length →
      (scriptAnswer env (s.ran liveListArgs).trace ((teardownLive env s).map killArgs) k).2 =
        none) :
    deleteGokiContainers env s = removeGokiContainers env (afterKills env s) := by
  unfold deleteGokiContainers listThen
  simp only [hl]
  rw [forEach_eq_runScript]
  unfold andThen
  rw [runScript_success env _ (s.ran liveListArgs) (by
    intro k hk
    rw [script_commands]
    exact hok k (by simpa [teardownLive] using hk))]
  simp only [script_commands]
  rfl

/-- The report contract for the network phase. -/
theorem deleteGokiNetwork_reports (env : Env) (s : State)
    (hl : (s.ask env deleteGokiNetworkLsArgs).2 = none) :
    PhaseReports env (deleteGokiNetwork env s) s deleteGokiNetworkLsArgs
      (teardownNetworks env s) networkRmArgs "  Docker Network:\n" := by
  unfold teardownNetworks teardownNetwork
  unfold deleteGokiNetwork
  simp only [hl]
  by_cases hn : networkNameOf (s.ask env deleteGokiNetworkLsArgs).1 = ""
  · simp only [hn, if_true, ne_eq, not_true_eq_false, if_false]
    refine ⟨fun _ => rfl, fun h => absurd rfl h, ?_⟩
    intro k e hk
    simp at hk
  · simp only [hn, if_false, ne_eq, not_false_eq_true, if_true]
    refine ⟨fun h => by simp at h, ?_, ?_⟩
    · intro _ hok
      have h0 := hok 0 (by simp)
      rw [List.map_cons, scriptAnswer_zero] at h0
      have hstep : execOrFail env
          (networkRmArgs (networkNameOf (s.ask env deleteGokiNetworkLsArgs).1))
          "docker network rm command failed: " (s.ran deleteGokiNetworkLsArgs) =
          (none, (s.ran deleteGokiNetworkLsArgs).ran
            (networkRmArgs (networkNameOf (s.ask env deleteGokiNetworkLsArgs).1))) := by
        unfold execOrFail
        simp only [h0]
      unfold andThen
      dsimp only
      rw [hstep]
      dsimp only
      have htr : (showNetwork (networkNameOf (s.ask env deleteGokiNetworkLsArgs).1)
          (((s.ran deleteGokiNetworkLsArgs).ran
            (networkRmArgs (networkNameOf (s.ask env deleteGokiNetworkLsArgs).1))).out
              "  Docker Network:\n")).trace =
          s.trace ++ Event.exec deleteGokiNetworkLsArgs ::
            ([networkNameOf (s.ask env deleteGokiNetworkLsArgs).1].map
                (fun n => Event.exec (networkRmArgs n)) ++
              Event.stdout "  Docker Network:\n" ::
                [networkNameOf (s.ask env deleteGokiNetworkLsArgs).1].map
                  (fun n => Event.stdout ("    " ++ n ++ "\n"))) := by
        simp [showNetwork, hn, State.out, State.ran, State.emit]
      refine ⟨rfl, htr, ?_⟩
      intro hno evs hevs
      rw [List.append_cancel_left (hevs.symm.trans htr)]
      exact no_nothing_line _ _ networkRmArgs _ (by decide) hno
    · intro k e hk _ hfail
      have hk0 : k = 0 := by simpa using hk
      subst hk0
      rw [List.map_cons, scriptAnswer_zero] at hfail
      have hstep : execOrFail env
          (networkRmArgs (networkNameOf (s.ask env deleteGokiNetworkLsArgs).1))
          "docker network rm command failed: " (s.ran deleteGokiNetworkLsArgs) =
          (some e, ((s.ran deleteGokiNetworkLsArgs).ran
            (networkRmArgs (networkNameOf (s.ask env deleteGokiNetworkLsArgs).1))).err
            ("docker network rm command failed: " ++
              ((s.ran deleteGokiNetworkLsArgs).ask env
                (networkRmArgs (networkNameOf (s.ask env deleteGokiNetworkLsArgs).1))).1 ++
              "\n")) := by
        unfold execOrFail
        simp only [hfail]
      unfold andThen
      dsimp only
      rw [hstep]
      dsimp only
      exact ⟨rfl, "docker network rm command failed: " ++
        ((s.ran deleteGokiNetworkLsArgs).ask env
          (networkRmArgs (networkNameOf (s.ask env deleteGokiNetworkLsArgs).1))).1 ++ "\n",
        by simp [State.err, State.ran, State.emit]⟩

/-- C16 (counterexample): the volume phase lists three names, removes the first, fails on the
second, and ends having printed the failure only: no header and none of the names, although
the listing was not empty and one volume was removed. -/
theorem failed_phase_prints_no_names :
    teardownVolumes volumeInUseEnv State.init =
      ["goki-volume-1", "goki-volume-2", "goki-volume-client"] ∧
    ((State.init.ran deleteGokiVolumeLsArgs).ask volumeInUseEnv
      (volumeRmArgs "goki-volume-1")).2 = none ∧
    (deleteGokiVolume volumeInUseEnv State.init).2.trace =
      [Event.exec deleteGokiVolumeLsArgs,
       Event.exec (volumeRmArgs "goki-volume-1"),
       Event.exec (volumeRmArgs "goki-volume-2"),
       Event.stderr "docker volume rm command failed: volume is in use\n"] := by
  decide

/-- C16 (amended): each teardown phase whose listing succeeds (for `deleteGokiContainers`:
the listing of all containers, reached after a successful running listing and successful
kills) meets the report contract `PhaseReports`: with no name listed it issues no removal,
prints its header and the line `Nothing` and succeeds; with names listed and every removal
successful it prints the header and exactly the listed names, in listing order, and not the
line `Nothing`; when a removal fails it returns the error and prints no report. -/
theorem phase_report (env : Env) (s : State) :
    ((s.ask env liveListArgs).2 = none →
      (∀ k, k < (teardownLive env s).length →
        (scriptAnswer env (s.ran liveListArgs).trace ((teardownLive env s).map killArgs) k).2 =
          none) →
      ((afterKills env s).ask env allListArgs).2 = none →
      PhaseReports env (deleteGokiContainers env s) (afterKills env s) allListArgs
        (teardownAll env s) rmArgs "  Docker Containers:\n") ∧
    ((s.ask env deleteGokiNetworkLsArgs).2 = none →
      PhaseReports env (deleteGokiNetwork env s) s deleteGokiNetworkLsArgs
        (teardownNetworks env s) networkRmArgs "  Docker Network:\n") ∧
    ((s.ask env deleteGokiVolumeLsArgs).2 = none →
      PhaseReports env (deleteGokiVolume env s) s deleteGokiVolumeLsArgs
        (teardownVolumes env s) volumeRmArgs "  Docker Volumes:\n") := by
  refine ⟨?_, deleteGokiNetwork_reports env s, ?_⟩
  · intro hl hok hall
    rw [deleteGokiContainers_after_kills env s hl hok]
    exact removePhase_reports env allListArgs "docker ps command failed: " rmArgs
      "docker rm command failed: " "  Docker Containers:\n" (afterKills env s) hall (by decide)
  · intro hl
    exact removePhase_reports env deleteGokiVolumeLsArgs "docker volume ls command failed: "
      volumeRmArgs "docker volume rm command failed: " "  Docker Volumes:\n" s hl (by decide)

theorem phase_report_witness :
    deleteGokiContainers quietEnv State.init =
      (none, (((afterKills quietEnv State.init).ran allListArgs).out
        "  Docker Containers:\n").out "    Nothing\n") ∧
    deleteGokiNetwork quietEnv State.init =
      (none, ((State.init.ran deleteGokiNetworkLsArgs).out "  Docker Network:\n").out
        "    Nothing\n") ∧
    deleteGokiVolume quietEnv State.init =
      (none, ((State.init.ran deleteGokiVolumeLsArgs).out "  Docker Volumes:\n").out
        "    Nothing\n") ∧
    (deleteGokiVolume teardownEnv State.init).2.trace =
      State.init.trace ++ Event.exec deleteGokiVolumeLsArgs ::
        ((teardownVolumes teardownEnv State.init).map (fun n => Event.exec (volumeRmArgs n)) ++
          Event.stdout "  Docker Volumes:\n" ::
            (teardownVolumes teardownEnv State.init).map
              (fun n => Event.stdout ("    " ++ n ++ "\n"))) :=
  ⟨((phase_report quietEnv State.init).1 (by decide) (by
        intro k hk
        have h0 : (teardownLive quietEnv State.init).length = 0 := by decide
        omega)
      (by decide)).1 (by decide),
    ((phase_report quietEnv State.init).2.1 (by decide)).1 (by decide),
    ((phase_report quietEnv State.init).2.2 (by decide)).1 (by decide),
    (((phase_report teardownEnv State.init).2.2 (by decide)).2.1 (by decide)
      (by intro k hk; have hk3 : k < 3 := hk; interval_cases k <;> decide)).2.1⟩

/-! ## Teardown over a resource store (C15) -/

theorem renderNames_data (n : String) (rest : List String) :
    (renderNames (n :: rest)).data = n.data ++ '\n' :: (renderNames rest).data := by
  show (n ++ "\n" ++ renderNames rest).data = _
  simp only [String.data_append]
  simp

theorem fieldsAux_line (cs rest : List Char) (hcs : '\n' ∉ cs) :
    ∀ cur : List Char, cur ≠ [] ∨ cs ≠ [] →
      fieldsAux (fun r => r == '\n') (cs ++ '\n' :: rest) cur =
        String.mk (cur.reverse ++ cs) :: fieldsAux (fun r => r == '\n') rest [] := by
  induction cs with
  | nil =>
    intro cur hne
    have hcur : cur ≠ [] := by rcases hne with h | h; exact h; exact absurd rfl h
    simp [fieldsAux, hcur]
  | cons c cs ih =>
    intro cur _
    have hc : c ≠ '\n' := fun h => hcs (by simp [h])
    have hcs2 : '\n' ∉ cs := fun h => hcs (by simp [h])
    simp only [List.cons_append, fieldsAux, beq_iff_eq, hc, if_false]
    exact (ih hcs2 (c :: cur) (Or.inl (by simp))).trans (by simp)

theorem fieldsAux_renderNames (names : List String) (h : ∀ n ∈ names, ValidName n) :
    fieldsAux (fun r => r == '\n') (renderNames names).data [] = names := by
  induction names with
  | nil => rfl
  | cons n rest ih =>
    have hn := h n (by simp)
    rw [renderNames_data, fieldsAux_line n.data _ hn.2 [] (Or.inr (fun hd => hn.1 (String.ext hd))),
      ih (fun m hm => h m (by simp [hm]))]
    simp

/-- Parsing the listing of resource names gives the names back. -/
theorem parseList_renderNames (names : List String) (h : ∀ n ∈ names, ValidName n) :
    parseList (renderNames names) = names := by
  unfold parseList
  cases names with
  | nil => simp [renderNames]
  | cons n rest =>
    have hne : renderNames (n :: rest) ≠ "" := by
      intro he
      have := congrArg String.data he
      rw [renderNames_data] at this
      simp at this
    rw [if_pos hne]
    exact fieldsAux_renderNames _ h

theorem networkNameOf_render (net : Option String) (h : ∀ n ∈ net.toList, ValidName n) :
    networkNameOf (renderNames net.toList) = net.getD "" := by
  cases net with
  | none => simp [networkNameOf, renderNames]
  | some n =>
    have hn := h n (by simp)
    have hne : renderNames [n] ≠ "" := by
      intro he
      have := congrArg String.data he
      rw [renderNames_data] at this
      simp at this
    show networkNameOf (renderNames [n]) = n
    unfold networkNameOf
    rw [if_pos hne]
    unfold trimRight
    rw [renderNames_data]
    apply String.ext
    show ((n.data ++ '\n' :: (renderNames []).data).reverse.dropWhile
      (fun x => x == '\n')).reverse = n.data
    have hr : (renderNames []).data = [] := rfl
    rw [hr, List.reverse_append]
    simp only [List.reverse_cons, List.reverse_nil, List.nil_append, List.singleton_append,
      List.dropWhile_cons, beq_self_eq_true, if_true]
    have hd : n.data.reverse.dropWhile (fun x => x == '\n') = n.data.reverse := by
      cases hrev : n.data.reverse with
      | nil => rfl
      | cons x xs =>
        have hx : x ∈ n.data := by
          have : x ∈ n.data.reverse := by rw [hrev]; simp
          simpa using this
        have hxn : x ≠ '\n' := fun he => hn.2 (he ▸ hx)
        simp [List.dropWhile_cons, hxn]
    rw [hd, List.reverse_reverse]

theorem storeAfter_ran (σ : Store) (s : State) (args : List String) :
    storeAfter σ (s.ran args).trace = (storeAfter σ s.trace).apply args := by
  unfold storeAfter
  rw [execs_ran, List.foldl_append]
  rfl

theorem storeAfter_out (σ : Store) (s : State) (x : String) :
    storeAfter σ (s.out x).trace = storeAfter σ s.trace := by
  unfold storeAfter
  rw [execs_out]

theorem storeAfter_showDeleted (σ : Store) (names : List String) (s : State) :
    storeAfter σ (showDeleted names s).trace = storeAfter σ s.trace := by
  unfold storeAfter
  rw [execs_showDeleted]

theorem ask_storeEnv (σ : Store) (s : State) (args : List String) :
    s.ask (storeEnv σ) args = (storeAfter σ s.trace).answer args := rfl

theorem apply_liveList (σ : Store) : σ.apply liveListArgs = σ := rfl

theorem apply_allList (σ : Store) : σ.apply allListArgs = σ := rfl

theorem apply_networkLs (σ : Store) : σ.apply deleteGokiNetworkLsArgs = σ := rfl

theorem apply_volumeLs (σ : Store) : σ.apply deleteGokiVolumeLsArgs = σ := rfl

theorem answer_liveList (σ : Store) : σ.answer liveListArgs = (renderNames σ.running, none) :=
  rfl

theorem answer_allList (σ : Store) :
    σ.answer allListArgs = (renderNames (σ.running ++ σ.stopped), none) := rfl

theorem answer_networkLs (σ : Store) :
    σ.answer deleteGokiNetworkLsArgs = (renderNames σ.network.toList, none) := rfl

theorem answer_volumeLs (σ : Store) :
    σ.answer deleteGokiVolumeLsArgs = (renderNames σ.volumes, none) := rfl

/-- A removal loop over the store: when an invariant `P` of the names still to process and
the store guarantees that the command for the next name succeeds and re-establishes `P` for
the remaining names, the loop succeeds, issues one command per name, and ends with `P []`. -/
theorem forEach_store (σ0 : Store) (mk : String → List String) (pre : String)
    (P : List String → Store → Prop)
    (hstep : ∀ c cs σ, P (c :: cs) σ → (σ.answer (mk c)).2 = none ∧ P cs (σ.apply (mk c))) :
    ∀ (names : List String) (s : State), P names (storeAfter σ0 s.trace) →
      forEach names (fun c => execOrFail (storeEnv σ0) (mk c) pre) s =
        (none, ranAll s (names.map mk)) ∧
      P [] (storeAfter σ0 (ranAll s (names.map mk)).trace) := by
  intro names
  induction names with
  | nil => intro s h; exact ⟨rfl, h⟩
  | cons c cs ih =>
    intro s h
    obtain ⟨hans, hP⟩ := hstep c cs _ h
    have hone : execOrFail (storeEnv σ0) (mk c) pre s = (none, s.ran (mk c)) := by
      unfold execOrFail
      simp only [ask_storeEnv, hans]
    have hP2 : P cs (storeAfter σ0 (s.ran (mk c)).trace) := by
      rw [storeAfter_ran]; exact hP
    obtain ⟨hrun, hend⟩ := ih (s.ran (mk c)) hP2
    refine ⟨?_, hend⟩
    show seqSteps (execOrFail (storeEnv σ0) (mk c) pre ::
      cs.map (fun c => execOrFail (storeEnv σ0) (mk c) pre)) s = _
    rw [seqSteps_cons_ok hone]
    exact hrun

theorem store_kill_step (V : List String) (N : Option String) (c : String) (cs : List String)
    (σ : Store)
    (h : σ.running = c :: cs ∧ (∀ n ∈ c :: cs, ValidName n) ∧ (∀ n ∈ σ.stopped, ValidName n) ∧
      σ.network = N ∧ σ.volumes = V) :
    (σ.answer (killArgs c)).2 = none ∧
      ((σ.apply (killArgs c)).running = cs ∧ (∀ n ∈ cs, ValidName n) ∧
        (∀ n ∈ (σ.apply (killArgs c)).stopped, ValidName n) ∧
        (σ.apply (killArgs c)).network = N ∧ (σ.apply (killArgs c)).volumes = V) := by
  obtain ⟨hr, hv, hs, hn, hvol⟩ := h
  have hmem : c ∈ σ.running := by rw [hr]; simp
  have hans : σ.answer (killArgs c) = (c ++ "\n", none) := by
    simp [Store.answer, killArgs, liveListArgs, allListArgs, deleteGokiNetworkLsArgs,
      deleteGokiVolumeLsArgs, hmem]
  have happ : σ.apply (killArgs c) =
      { σ with running := σ.running.erase c, stopped := σ.stopped ++ [c] } := by
    simp [Store.apply, killArgs, hmem]
  rw [hans, happ]
  refine ⟨rfl, by simp [hr], fun n hn2 => hv n (by simp [hn2]), ?_, hn, hvol⟩
  intro n hn2
  rcases List.mem_append.1 hn2 with h1 | h1
  · exact hs n h1
  · exact hv n (by simp at h1; simp [h1])

theorem store_rm_step (V : List String) (N : Option String) (c : String) (cs : List String)
    (σ : Store)
    (h : σ.running = [] ∧ σ.stopped = c :: cs ∧ σ.network = N ∧ σ.volumes = V) :
    (σ.answer (rmArgs c)).2 = none ∧
      ((σ.apply (rmArgs c)).running = [] ∧ (σ.apply (rmArgs c)).stopped = cs ∧
        (σ.apply (rmArgs c)).network = N ∧ (σ.apply (rmArgs c)).volumes = V) := by
  obtain ⟨hr, hs, hn, hvol⟩ := h
  have hmem : c ∈ σ.stopped := by rw [hs]; simp
  have hans : σ.answer (rmArgs c) = (c ++ "\n", none) := by
    simp [Store.answer, rmArgs, liveListArgs, allListArgs, deleteGokiNetworkLsArgs,
      deleteGokiVolumeLsArgs, hmem]
  have happ : σ.apply (rmArgs c) = { σ with stopped := σ.stopped.erase c } := by
    simp [Store.apply, rmArgs]
  rw [hans, happ]
  exact ⟨rfl, hr, by simp [hs], hn, hvol⟩

theorem store_volume_step (R S : List String) (N : Option String) (c : String)
    (cs : List String) (σ : Store)
    (h : σ.running = R ∧ σ.stopped = S ∧ σ.network = N ∧ σ.volumes = c :: cs) :
    (σ.answer (volumeRmArgs c)).2 = none ∧
      ((σ.apply (volumeRmArgs c)).running = R ∧ (σ.apply (volumeRmArgs c)).stopped = S ∧
        (σ.apply (volumeRmArgs c)).network = N ∧ (σ.apply (volumeRmArgs c)).volumes = cs) := by
  obtain ⟨hr, hs, hn, hvol⟩ := h
  have hmem : c ∈ σ.volumes := by rw [hvol]; simp
  have hans : σ.answer (volumeRmArgs c) = (c ++ "\n", none) := by
    simp [Store.answer, volumeRmArgs, liveListArgs, allListArgs, deleteGokiNetworkLsArgs,
      deleteGokiVolumeLsArgs, hmem]
  have happ : σ.apply (volumeRmArgs c) = { σ with volumes := σ.volumes.erase c } := by
    simp [Store.apply, volumeRmArgs]
  rw [hans, happ]
  exact ⟨rfl, hr, hs, hn, by simp [hvol]⟩

theorem store_eq (σ : Store) (R S : List String) (N : Option String) (V : List String)
    (h : σ.running = R ∧ σ.stopped = S ∧ σ.network = N ∧ σ.volumes = V) :
    σ = { running := R, stopped := S, network := N, volumes := V } := by
  cases σ
  obtain ⟨h1, h2, h3, h4⟩ := h
  simp only at h1 h2 h3 h4
  subst h1 h2 h3 h4
  rfl

/-- Over a store of resource names `deleteGokiContainers` succeeds and leaves no container. -/
theorem deleteGokiContainers_store (σ0 : Store) (s : State)
    (hσ : (storeAfter σ0 s.trace).Valid) :
    (deleteGokiContainers (storeEnv σ0) s).1 = none ∧
    storeAfter σ0 (deleteGokiContainers (storeEnv σ0) s).2.trace =
      { running := [], stopped := [], network := (storeAfter σ0 s.trace).network,
        volumes := (storeAfter σ0 s.trace).volumes } := by
  obtain ⟨hk, hP⟩ := forEach_store σ0 killArgs "docker kill command failed: "
    (fun rem σ => σ.running = rem ∧ (∀ n ∈ rem, ValidName n) ∧ (∀ n ∈ σ.stopped, ValidName n) ∧
      σ.network = (storeAfter σ0 s.trace).network ∧ σ.volumes = (storeAfter σ0 s.trace).volumes)
    (fun c cs σ h => store_kill_step _ _ c cs σ h)
    (storeAfter σ0 s.trace).running (s.ran liveListArgs)
    (by rw [storeAfter_ran, apply_liveList]; exact ⟨rfl, hσ.1, hσ.2.1, rfl, rfl⟩)
  obtain ⟨hr, -, hs, hn, hv⟩ := hP
  obtain ⟨hrm, hQ⟩ := forEach_store σ0 rmArgs "docker rm command failed: "
    (fun rem σ => σ.running = [] ∧ σ.stopped = rem ∧
      σ.network = (storeAfter σ0 s.trace).network ∧ σ.volumes = (storeAfter σ0 s.trace).volumes)
    (fun c cs σ h => store_rm_step _ _ c cs σ h)
    (storeAfter σ0 (ranAll (s.ran liveListArgs)
      ((storeAfter σ0 s.trace).running.map killArgs)).trace).stopped
    ((ranAll (s.ran liveListArgs) ((storeAfter σ0 s.trace).running.map killArgs)).ran
      allListArgs)
    (by rw [storeAfter_ran, apply_allList]; exact ⟨hr, rfl, hn, hv⟩)
  unfold deleteGokiContainers listThen
  simp only [ask_storeEnv, answer_liveList]
  rw [parseList_renderNames _ hσ.1]
  unfold andThen
  rw [hk]
  dsimp only
  unfold removeGokiContainers listThen
  simp only [ask_storeEnv, answer_allList, hr, List.nil_append]
  rw [parseList_renderNames _ hs]
  unfold andThen
  rw [hrm]
  dsimp only
  refine ⟨rfl, ?_⟩
  rw [storeAfter_showDeleted, storeAfter_out]
  exact store_eq _ _ _ _ _ hQ

/-- Over a store of resource names `deleteGokiNetwork` succeeds and leaves no network. -/
theorem deleteGokiNetwork_store (σ0 : Store) (s : State)
    (hσ : (storeAfter σ0 s.trace).Valid) :
    (deleteGokiNetwork (storeEnv σ0) s).1 = none ∧
    storeAfter σ0 (deleteGokiNetwork (storeEnv σ0) s).2.trace =
      { running := (storeAfter σ0 s.trace).running, stopped := (storeAfter σ0 s.trace).stopped,
        network := none, volumes := (storeAfter σ0 s.trace).volumes } := by
  unfold deleteGokiNetwork
  simp only [ask_storeEnv, answer_networkLs]
  rw [networkNameOf_render _ hσ.2.2.1]
  unfold andThen
  rcases hnet : (storeAfter σ0 s.trace).network with _ | n
  · simp only [Option.getD_none, ne_eq, not_true_eq_false, if_false]
    refine ⟨by trivial, ?_⟩
    unfold showNetwork
    simp only [ne_eq, not_true_eq_false, if_false, if_true, storeAfter_out, storeAfter_ran,
      apply_networkLs]
    exact store_eq _ _ _ _ _ ⟨rfl, rfl, hnet, rfl⟩
  · have hn : n ≠ "" := (hσ.2.2.1 n (by rw [hnet]; simp)).1
    simp only [Option.getD_some, ne_eq, hn, not_false_eq_true, if_true]
    have hst : storeAfter σ0 (s.ran deleteGokiNetworkLsArgs).trace = storeAfter σ0 s.trace := by
      rw [storeAfter_ran, apply_networkLs]
    have hans : ((storeAfter σ0 s.trace).answer (networkRmArgs n)).2 = none := by
      simp [Store.answer, networkRmArgs, liveListArgs, allListArgs, deleteGokiNetworkLsArgs,
        deleteGokiVolumeLsArgs, hnet]
    have happ : (storeAfter σ0 s.trace).apply (networkRmArgs n) =
        { storeAfter σ0 s.trace with network := none } := by
      simp [Store.apply, networkRmArgs, hnet]
    have hone : execOrFail (storeEnv σ0) (networkRmArgs n) "docker network rm command failed: "
        (s.ran deleteGokiNetworkLsArgs) =
        (none, (s.ran deleteGokiNetworkLsArgs).ran (networkRmArgs n)) := by
      unfold execOrFail
      simp only [ask_storeEnv, hst, hans]
    rw [hone]
    dsimp only
    refine ⟨rfl, ?_⟩
    unfold showNetwork
    simp only [ne_eq, hn, not_false_eq_true, if_true, storeAfter_out, storeAfter_ran,
      apply_networkLs, happ]

/-- Over a store of resource names `deleteGokiVolume` succeeds and leaves no volume. -/
theorem deleteGokiVolume_store (σ0 : Store) (s : State)
    (hσ : (storeAfter σ0 s.trace).Valid) :
    (deleteGokiVolume (storeEnv σ0) s).1 = none ∧
    storeAfter σ0 (deleteGokiVolume (storeEnv σ0) s).2.trace =
      { running := (storeAfter σ0 s.trace).running, stopped := (storeAfter σ0 s.trace).stopped,
        network := (storeAfter σ0 s.trace).network, volumes := [] } := by
  obtain ⟨hrm, hQ⟩ := forEach_store σ0 volumeRmArgs "docker volume rm command failed: "
    (fun rem σ => σ.running = (storeAfter σ0 s.trace).running ∧
      σ.stopped = (storeAfter σ0 s.trace).stopped ∧
      σ.network = (storeAfter σ0 s.trace).network ∧ σ.volumes = rem)
    (fun c cs σ h => store_volume_step _ _ _ c cs σ h)
    (storeAfter σ0 s.trace).volumes (s.ran deleteGokiVolumeLsArgs)
    (by rw [storeAfter_ran, apply_volumeLs]; exact ⟨rfl, rfl, rfl, rfl⟩)
  unfold deleteGokiVolume listThen
  simp only [ask_storeEnv, answer_volumeLs]
  rw [parseList_renderNames _ hσ.2.2.2]
  unfold andThen
  rw [hrm]
  dsimp only
  refine ⟨rfl, ?_⟩
  rw [storeAfter_showDeleted, storeAfter_out]
  exact store_eq _ _ _ _ _ hQ

theorem step_eq_of_none {f : Step} {s : State} (h : (f s).1 = none) :
    f s = (none, (f s).2) :=
  Prod.ext h rfl

theorem store_valid_of (R S : List String) (N : Option String) (V : List String)
    (h1 : ∀ n ∈ R, ValidName n) (h2 : ∀ n ∈ S, ValidName n) (h3 : ∀ n ∈ N.toList, ValidName n)
    (h4 : ∀ n ∈ V, ValidName n) :
    Store.Valid { running := R, stopped := S, network := N, volumes := V } :=
  ⟨h1, h2, h3, h4⟩

/-- Over a store of resource names `deleteGokiCluster` succeeds and leaves no container, no
network and, when volume deletion is requested, no volume. -/
theorem deleteGokiCluster_store (σ0 : Store) (flags : DeleteCmdFlags) (s : State)
    (hσ : (storeAfter σ0 s.trace).Valid) :
    (deleteGokiCluster (storeEnv σ0) flags s).1 = none ∧
    storeAfter σ0 (deleteGokiCluster (storeEnv σ0) flags s).2.trace =
      { running := [], stopped := [], network := none,
        volumes := if flags.volume = true then [] else (storeAfter σ0 s.trace).volumes } := by
  obtain ⟨h1, e1⟩ := deleteGokiContainers_store σ0 s hσ
  have hv1 : (storeAfter σ0 (deleteGokiContainers (storeEnv σ0) s).2.trace).Valid := by
    rw [e1]
    exact store_valid_of _ _ _ _ (by simp) (by simp) hσ.2.2.1 hσ.2.2.2
  obtain ⟨h2, e2⟩ := deleteGokiNetwork_store σ0 _ hv1
  rw [e1] at e2
  have hv2 : (storeAfter σ0 (deleteGokiNetwork (storeEnv σ0)
      (deleteGokiContainers (storeEnv σ0) s).2).2.trace).Valid := by
    rw [e2]
    exact store_valid_of _ _ _ _ (by simp) (by simp) (by simp) hσ.2.2.2
  have hc := @step_eq_of_none (deleteGokiContainers (storeEnv σ0)) s h1
  have hn := @step_eq_of_none (deleteGokiNetwork (storeEnv σ0))
    (deleteGokiContainers (storeEnv σ0) s).2 h2
  unfold deleteGokiCluster
  rw [seqSteps_cons_ok hc, seqSteps_cons_ok hn, seqSteps_single]
  cases hv : flags.volume with
  | true =>
    obtain ⟨h3, e3⟩ := deleteGokiVolume_store σ0 _ hv2
    rw [e2] at e3
    rw [if_pos rfl, if_pos rfl]
    exact ⟨h3, e3⟩
  | false =>
    rw [if_neg Bool.false_ne_true, if_neg Bool.false_ne_true]
    dsimp only at e2 ⊢
    exact ⟨rfl, e2⟩

theorem deleteGokiContainers_nothing (σ0 : Store) (s : State)
    (hr : (storeAfter σ0 s.trace).running = []) (hs : (storeAfter σ0 s.trace).stopped = []) :
    deleteGokiContainers (storeEnv σ0) s =
      (none, (((s.ran liveListArgs).ran allListArgs).out "  Docker Containers:\n").out
        "    Nothing\n") := by
  unfold deleteGokiContainers listThen
  simp only [ask_storeEnv, answer_liveList, hr]
  unfold removeGokiContainers listThen
  have hst : storeAfter σ0 (s.ran liveListArgs).trace = storeAfter σ0 s.trace := by
    rw [storeAfter_ran, apply_liveList]
  have hp : parseList (renderNames []) = [] := rfl
  simp only [hp, forEach, List.map_nil, seqSteps, andThen, ask_storeEnv, hst, answer_allList,
    hr, hs, List.append_nil]
  rfl

theorem deleteGokiNetwork_nothing (σ0 : Store) (s : State)
    (hn : (storeAfter σ0 s.trace).network = none) :
    deleteGokiNetwork (storeEnv σ0) s =
      (none, ((s.ran deleteGokiNetworkLsArgs).out "  Docker Network:\n").out
        "    Nothing\n") := by
  unfold deleteGokiNetwork
  have hp : networkNameOf (renderNames []) = "" := rfl
  simp only [ask_storeEnv, answer_networkLs, hn, Option.toList_none, hp, andThen]
  rfl

theorem deleteGokiVolume_nothing (σ0 : Store) (s : State)
    (hv : (storeAfter σ0 s.trace).volumes = []) :
    deleteGokiVolume (storeEnv σ0) s =
      (none, ((s.ran deleteGokiVolumeLsArgs).out "  Docker Volumes:\n").out
        "    Nothing\n") := by
  unfold deleteGokiVolume listThen
  have hp : parseList (renderNames []) = [] := rfl
  simp only [ask_storeEnv, answer_volumeLs, hv, hp, forEach, List.map_nil, seqSteps, andThen]
  rfl

/-- On a store without container and network, and without volume when volume deletion is
requested, `deleteGokiCluster` succeeds adding exactly the events `nothingToDelete`. -/
theorem deleteGokiCluster_nothing (σ0 : Store) (flags : DeleteCmdFlags) (s : State)
    (hr : (storeAfter σ0 s.trace).running = []) (hs : (storeAfter σ0 s.trace).stopped = [])
    (hn : (storeAfter σ0 s.trace).network = none)
    (hv : flags.volume = true → (storeAfter σ0 s.trace).volumes = []) :
    (deleteGokiCluster (storeEnv σ0) flags s).1 = none ∧
    (deleteGokiCluster (storeEnv σ0) flags s).2.trace = s.trace ++ nothingToDelete flags := by
  have e1 := deleteGokiContainers_nothing σ0 s hr hs
  have hst1 : storeAfter σ0 ((((s.ran liveListArgs).ran allListArgs).out
      "  Docker Containers:\n").out "    Nothing\n").trace = storeAfter σ0 s.trace := by
    simp only [storeAfter_out, storeAfter_ran, apply_liveList, apply_allList]
  have e2 := deleteGokiNetwork_nothing σ0 ((((s.ran liveListArgs).ran allListArgs).out
      "  Docker Containers:\n").out "    Nothing\n") (by rw [hst1]; exact hn)
  unfold deleteGokiCluster
  rw [seqSteps_cons_ok e1, seqSteps_cons_ok e2, seqSteps_single]
  unfold nothingToDelete
  cases hf : flags.volume with
  | true =>
    simp only [if_true]
    rw [deleteGokiVolume_nothing σ0 _ (by
      simp only [storeAfter_out, storeAfter_ran, apply_liveList, apply_allList, apply_networkLs]
      exact hv hf)]
    exact ⟨rfl, by simp [State.out, State.ran, State.emit]⟩
  | false =>
    rw [if_neg Bool.false_ne_true, if_neg Bool.false_ne_true]
    exact ⟨rfl, by simp [State.out, State.ran, State.emit]⟩

/-- C15 (counterexample): with the volume flag unset, the second of two `deleteGokiCluster`
runs in a row reports `Nothing` for the containers and for the network only; nothing is
reported for the volumes. -/
theorem second_teardown_skips_volumes :
    (deleteGokiCluster (storeEnv clusterStore) ⟨false⟩
      (deleteGokiCluster (storeEnv clusterStore) ⟨false⟩ State.init).2).2.trace =
      (deleteGokiCluster (storeEnv clusterStore) ⟨false⟩ State.init).2.trace ++
        [Event.exec liveListArgs, Event.exec allListArgs,
         Event.stdout "  Docker Containers:\n", Event.stdout "    Nothing\n",
         Event.exec deleteGokiNetworkLsArgs,
         Event.stdout "  Docker Network:\n", Event.stdout "    Nothing\n"] := by
  decide

/-- C15 (amended): over a store of resource names in which a kill stops the named running
container and a remove deletes the named resource (and a command on a missing resource
fails), the first `deleteGokiCluster` succeeds and leaves no container and no network, and no
volume when volume deletion is requested; a second one right after it succeeds, issues only
listings (no kill and no remove), and reports `Nothing` for the containers and the network,
and for the volumes when volume deletion is requested (otherwise the volume phase does not
run and reports nothing). -/
theorem teardown_twice (σ : Store) (flags : DeleteCmdFlags) (hσ : σ.Valid) :
    (deleteGokiCluster (storeEnv σ) flags State.init).1 = none ∧
    storeAfter σ (deleteGokiCluster (storeEnv σ) flags State.init).2.trace =
      { running := [], stopped := [], network := none,
        volumes := if flags.volume = true then [] else σ.volumes } ∧
    (deleteGokiCluster (storeEnv σ) flags
      (deleteGokiCluster (storeEnv σ) flags State.init).2).1 = none ∧
    (deleteGokiCluster (storeEnv σ) flags
      (deleteGokiCluster (storeEnv σ) flags State.init).2).2.trace =
      (deleteGokiCluster (storeEnv σ) flags State.init).2.trace ++ nothingToDelete flags := by
  obtain ⟨h1, e1⟩ := deleteGokiCluster_store σ flags State.init hσ
  have h2 := deleteGokiCluster_nothing σ flags (deleteGokiCluster (storeEnv σ) flags State.init).2
    (by rw [e1]) (by rw [e1]) (by rw [e1]) (by intro hv; rw [e1]; simp [hv])
  exact ⟨h1, e1, h2.1, h2.2⟩

theorem teardown_twice_witness :
    (deleteGokiCluster (storeEnv clusterStore) ⟨true⟩ State.init).1 = none ∧
    storeAfter clusterStore (deleteGokiCluster (storeEnv clusterStore) ⟨true⟩ State.init).2.trace =
      { running := [], stopped := [], network := none,
        volumes := if (⟨true⟩ : DeleteCmdFlags).volume = true then [] else clusterStore.volumes } ∧
    (deleteGokiCluster (storeEnv clusterStore) ⟨true⟩
      (deleteGokiCluster (storeEnv clusterStore) ⟨true⟩ State.init).2).1 = none ∧
    (deleteGokiCluster (storeEnv clusterStore) ⟨true⟩
      (deleteGokiCluster (storeEnv clusterStore) ⟨true⟩ State.init).2).2.trace =
      (deleteGokiCluster (storeEnv clusterStore) ⟨true⟩ State.init).2.trace ++
        nothingToDelete ⟨true⟩ :=
  teardown_twice clusterStore ⟨true⟩ (by
    refine ⟨?_, ?_, ?_, ?_⟩ <;> intro n hn <;>
      simp only [clusterStore, List.mem_cons, List.mem_singleton, List.not_mem_nil, or_false,
        Option.toList_some] at hn <;>
      rcases hn with rfl | rfl | rfl <;> exact ⟨by decide, by decide⟩)

/-! ## The identity comparison and the empty answer (C24, C26) -/

theorem checkGokiNodeRows_accepts_iff (g : Int) (rows : List (Int × String)) (s : State) :
    (checkGokiNodeRows g (rows.map Except.ok) s).1 = none ↔
      ∀ r ∈ rows, r.1 = g ∨ r.2 = expectedAddress g := by
  induction rows with
  | nil => simp [checkGokiNodeRows]
  | cons r rest ih =>
    obtain ⟨id, address⟩ := r
    simp only [List.map_cons, checkGokiNodeRows, List.mem_cons, forall_eq_or_imp]
    by_cases hc : id ≠ g ∧ address ≠ gokiResourceName ++ "-" ++ itoa g ++ ":26257"
    · rw [if_pos hc]
      simp only [reduceCtorEq, false_iff, not_and]
      intro h
      rcases h with h | h
      · exact absurd h hc.1
      · exact absurd h hc.2
    · rw [if_neg hc, ih]
      have : id = g ∨ address = expectedAddress g := by
        by_cases h1 : id = g
        · exact Or.inl h1
        · exact Or.inr (not_not.1 (fun h2 => hc ⟨h1, h2⟩))
      simp [this]

theorem checkGokiNodeRows_outcome (g : Int) (rows : List (Int × String)) (s : State) :
    (checkGokiNodeRows g (rows.map Except.ok) s).1 = none ∨
      (checkGokiNodeRows g (rows.map Except.ok) s).1 = some identityMismatch := by
  induction rows with
  | nil => exact Or.inl rfl
  | cons r rest ih =>
    obtain ⟨id, address⟩ := r
    simp only [List.map_cons, checkGokiNodeRows]
    split
    · exact Or.inr rfl
    · exact ih

theorem checkGokiNode_of_rows (env : Env) (g : Int) (s : State) (rows : List Row)
    (ho : env.sqlOpen s.trace checkGokiNodeConnStr = none)
    (hq : env.sqlQuery (s.emit (Event.sqlOpen checkGokiNodeConnStr)).trace checkGokiNodeQuery g =
      Except.ok rows) :
    checkGokiNode env g s = checkGokiNodeRows g rows
      ((s.emit (Event.sqlOpen checkGokiNodeConnStr)).emit (Event.sqlQuery checkGokiNodeQuery g)) := by
  unfold checkGokiNode
  simp only [ho, hq]

/-- C24: the comparison of `checkGokiNode` is an AND of mismatches.  When the connection
opens and the query for the expected ordinal `g` delivers the rows `rows`, the check fails
(with the mismatch error) if and only if some row `(id, address)` has BOTH `id ≠ g` and
`address ≠ "goki-<g>:26257"`; it returns no error if and only if every row agrees in at least
one of the two, so a row in which only one of them disagrees is accepted. -/
theorem identity_check_is_and_of_mismatches (env : Env) (g : Int) (s : State)
    (rows : List (Int × String))
    (ho : env.sqlOpen s.trace checkGokiNodeConnStr = none)
    (hq : env.sqlQuery (s.emit (Event.sqlOpen checkGokiNodeConnStr)).trace checkGokiNodeQuery g =
      Except.ok (rows.map Except.ok)) :
    ((checkGokiNode env g s).1 = some identityMismatch ↔
      ∃ r ∈ rows, r.1 ≠ g ∧ r.2 ≠ expectedAddress g) ∧
    ((checkGokiNode env g s).1 = none ↔ ∀ r ∈ rows, r.1 = g ∨ r.2 = expectedAddress g) ∧
    ((checkGokiNode env g s).1 ≠ none ↔ ∃ r ∈ rows, r.1 ≠ g ∧ r.2 ≠ expectedAddress g) := by
  rw [checkGokiNode_of_rows env g s _ ho hq]
  have hacc := checkGokiNodeRows_accepts_iff g rows
    ((s.emit (Event.sqlOpen checkGokiNodeConnStr)).emit (Event.sqlQuery checkGokiNodeQuery g))
  have hout := checkGokiNodeRows_outcome g rows
    ((s.emit (Event.sqlOpen checkGokiNodeConnStr)).emit (Event.sqlQuery checkGokiNodeQuery g))
  have hneg : (¬ ∀ r ∈ rows, r.1 = g ∨ r.2 = expectedAddress g) ↔
      ∃ r ∈ rows, r.1 ≠ g ∧ r.2 ≠ expectedAddress g := by
    simp only [not_forall, not_or, exists_prop]
  refine ⟨?_, hacc, ?_⟩
  · rw [← hneg, ← hacc]
    constructor
    · intro h hn; rw [hn] at h; exact absurd h (by simp)
    · intro h
      rcases hout with h1 | h1
      · exact absurd h1 h
      · exact h1
  · rw [← hneg, ← hacc]

theorem identity_check_is_and_of_mismatches_witness :
    ((checkGokiNode wrongAddressEnv 2 State.init).1 = none ↔
      ∀ r ∈ [((2 : Int), "goki-9:26257")], r.1 = 2 ∨ r.2 = expectedAddress 2) ∧
    ((checkGokiNode strangerEnv 2 State.init).1 = some identityMismatch ↔
      ∃ r ∈ [((7 : Int), "goki-9:26257")], r.1 ≠ 2 ∧ r.2 ≠ expectedAddress 2) :=
  ⟨(identity_check_is_and_of_mismatches wrongAddressEnv 2 State.init [(2, "goki-9:26257")]
      rfl rfl).2.1,
    (identity_check_is_and_of_mismatches strangerEnv 2 State.init [(7, "goki-9:26257")]
      rfl rfl).1⟩

theorem createGokiClusterNode_of_no_row (env : Env) (flags : CreateCmdFlags)
    (hd : ∀ t args, (env.docker t args).2 = none)
    (ho : ∀ t c, env.sqlOpen t c = none)
    (hq : ∀ t q g, env.sqlQuery t q g = Except.ok []) (i : Int) (s : State) :
    (createGokiClusterNode env flags i s).1 = none := by
  unfold createGokiClusterNode
  simp only [State.ask, hd]
  unfold checkNodeUnlessReuse
  split
  · unfold checkGokiNode
    simp only [ho, hq]
    rfl
  · rfl

theorem loopFrom_of_no_row (env : Env) (flags : CreateCmdFlags)
    (hd : ∀ t args, (env.docker t args).2 = none)
    (ho : ∀ t c, env.sqlOpen t c = none)
    (hq : ∀ t q g, env.sqlQuery t q g = Except.ok []) (k : Nat) :
    ∀ (i : Int) (s : State), (loopFrom (createGokiClusterNode env flags) k i s).1 = none := by
  induction k with
  | zero => intro i s; rfl
  | succ k ih =>
    intro i s
    unfold loopFrom
    have h := createGokiClusterNode_of_no_row env flags hd ho hq i s
    rcases hb : createGokiClusterNode env flags i s with ⟨_ | e, s1⟩
    · exact ih (i + 1) s1
    · rw [hb] at h; exact absurd h (by simp)

/-- C26: `checkGokiNode` accepts vacuously.  When the connection opens and the query for the
expected ordinal `g` succeeds with zero rows, `checkGokiNode` returns no error, having only
opened the connection and run the query.  Hence, on a fresh run against a tool whose commands
all succeed and a cluster that answers every identity query with zero rows, the rollout
`createGokiCluster` returns no error and runs the round of every node 2..`N` (start,
report, settle delay, the two database calls of the check): every node is started although
no identity has been confirmed. -/
theorem identity_check_vacuous (env : Env) (flags : CreateCmdFlags) (s : State) :
    (∀ g, env.sqlOpen s.trace checkGokiNodeConnStr = none →
      env.sqlQuery (s.emit (Event.sqlOpen checkGokiNodeConnStr)).trace checkGokiNodeQuery g =
        Except.ok [] →
      checkGokiNode env g s =
        (none, (s.emit (Event.sqlOpen checkGokiNodeConnStr)).emit
          (Event.sqlQuery checkGokiNodeQuery g))) ∧
    ((∀ t args, (env.docker t args).2 = none) → (∀ t c, env.sqlOpen t c = none) →
      (∀ t q g, env.sqlQuery t q g = Except.ok []) → s.gokiVolumeAlreadyExist = false →
      (createGokiCluster env flags s).1 = none ∧
      ∃ chunks, List.Forall₂ (NodeRound flags false) (rolloutNodes flags.node) chunks ∧
        (createGokiCluster env flags s).2.trace =
          s.trace ++ [Event.stdout "INFO: Creating Cluster start.\n"] ++ chunks.flatten ++
            [Event.stdout "INFO: Creating Cluster done.\n"]) := by
  refine ⟨?_, ?_⟩
  · intro g ho hq
    rw [checkGokiNode_of_rows env g s [] ho hq]
    rfl
  · intro hd ho hq hs
    have hstart : say "INFO: Creating Cluster start.\n" s =
        (none, s.out "INFO: Creating Cluster start.\n") := rfl
    have hcount : (flags.node + 1 - 2).toNat = (flags.node - 1).toNat := by
      congr 1
      ring
    have hloop := loopFrom_of_no_row env flags hd ho hq (flags.node - 1).toNat 2
      (s.out "INFO: Creating Cluster start.\n")
    obtain ⟨chunks, hall, htr⟩ := loopFrom_rollout_rounds env flags _ 2 _ hloop
    have hflag : (s.out "INFO: Creating Cluster start.\n").gokiVolumeAlreadyExist = false := hs
    rw [hflag] at hall
    unfold createGokiCluster forRange
    rw [seqSteps_cons_ok hstart, hcount,
      seqSteps_cons_ok (step_eq_of_none hloop), seqSteps_single]
    refine ⟨rfl, chunks, hall, ?_⟩
    simp only [say, State.out, State.emit] at htr ⊢
    rw [htr]

theorem identity_check_vacuous_witness :
    checkGokiNode quietEnv 2 State.init =
      (none, (State.init.emit (Event.sqlOpen checkGokiNodeConnStr)).emit
        (Event.sqlQuery checkGokiNodeQuery 2)) ∧
    ((createGokiCluster quietEnv ⟨3, "v22.2.0", false⟩ State.init).1 = none ∧
      ∃ chunks, List.Forall₂ (NodeRound ⟨3, "v22.2.0", false⟩ false)
          (rolloutNodes (⟨3, "v22.2.0", false⟩ : CreateCmdFlags).node) chunks ∧
        (createGokiCluster quietEnv ⟨3, "v22.2.0", false⟩ State.init).2.trace =
          State.init.trace ++ [Event.stdout "INFO: Creating Cluster start.\n"] ++
            chunks.flatten ++ [Event.stdout "INFO: Creating Cluster done.\n"]) :=
  ⟨(identity_check_vacuous quietEnv ⟨3, "v22.2.0", false⟩ State.init).1 2 rfl rfl,
    (identity_check_vacuous quietEnv ⟨3, "v22.2.0", false⟩ State.init).2 (fun _ _ => rfl)
      (fun _ _ => rfl) (fun _ _ _ => rfl) rfl⟩

/-! ## Decimal numerals (`strconv.Itoa`) -/

theorem digitValue_digitChar (k : Nat) (h : k < 10) : digitValue (Nat.digitChar k) = k := by
  interval_cases k <;> rfl

theorem isDigit_digitChar (k : Nat) (h : k < 10) : (Nat.digitChar k).isDigit = true := by
  interval_cases k <;> rfl

theorem toDigitsCore_value (fuel : Nat) :
    ∀ (n : Nat) (ds : List Char), n < fuel →
      (Nat.toDigitsCore 10 fuel n ds).foldl (fun a c => 10 * a + digitValue c) 0 =
        ds.foldl (fun a c => 10 * a + digitValue c) n := by
  induction fuel with
  | zero => intro n ds h; omega
  | succ fuel ih =>
    intro n ds h
    unfold Nat.toDigitsCore
    dsimp only
    by_cases h0 : n / 10 = 0
    · rw [if_pos h0, List.foldl_cons, digitValue_digitChar _ (Nat.mod_lt _ (by decide))]
      congr 1
      omega
    · rw [if_neg h0, ih (n / 10) _ (by omega), List.foldl_cons,
        digitValue_digitChar _ (Nat.mod_lt _ (by decide))]
      congr 1
      omega

theorem toDigitsCore_digits (fuel : Nat) :
    ∀ (n : Nat) (ds : List Char), ∀ c ∈ Nat.toDigitsCore 10 fuel n ds,
      c ∈ ds ∨ c.isDigit = true := by
  induction fuel with
  | zero => intro n ds c h; exact Or.inl h
  | succ fuel ih =>
    intro n ds c h
    unfold Nat.toDigitsCore at h
    dsimp only at h
    by_cases h0 : n / 10 = 0
    · rw [if_pos h0] at h
      rcases List.mem_cons.1 h with h1 | h1
      · exact Or.inr (h1 ▸ isDigit_digitChar _ (Nat.mod_lt _ (by decide)))
      · exact Or.inl h1
    · rw [if_neg h0] at h
      rcases ih _ _ c h with h1 | h1
      · rcases List.mem_cons.1 h1 with h2 | h2
        · exact Or.inr (h2 ▸ isDigit_digitChar _ (Nat.mod_lt _ (by decide)))
        · exact Or.inl h2
      · exact Or.inr h1

theorem decimalValue_repr (n : Nat) : decimalValue (Nat.repr n).data = n := by
  show (Nat.toDigitsCore 10 (n + 1) n []).foldl (fun a c => 10 * a + digitValue c) 0 = n
  rw [toDigitsCore_value (n + 1) n [] (by omega)]
  rfl

theorem repr_digits (n : Nat) : ∀ c ∈ (Nat.repr n).data, c.isDigit = true := by
  intro c h
  have h2 : c ∈ Nat.toDigitsCore 10 (n + 1) n [] := h
  rcases toDigitsCore_digits _ _ _ c h2 with h3 | h3
  · simp at h3
  · exact h3

theorem repr_injective (a b : Nat) (h : Nat.repr a = Nat.repr b) : a = b := by
  rw [← decimalValue_repr a, ← decimalValue_repr b, h]

theorem itoa_ofNat (n : Nat) : itoa (n : Int) = Nat.repr n := rfl

theorem itoa_negSucc (n : Nat) : itoa (Int.negSucc n) = "-" ++ Nat.repr (n + 1) := rfl

/-- The decimal numeral of an integer consists of digits and possibly a minus sign. -/
theorem itoa_chars (i : Int) : ∀ c ∈ (itoa i).data, c.isDigit = true ∨ c = '-' := by
  intro c h
  cases i with
  | ofNat n => exact Or.inl (repr_digits n c h)
  | negSucc n =>
    rw [itoa_negSucc, String.data_append] at h
    rcases List.mem_append.1 h with h1 | h1
    · right
      have : c ∈ ['-'] := h1
      simpa using this
    · exact Or.inl (repr_digits _ c h1)

/-- The conversion `strconv.Itoa` is injective: different integers have different numerals. -/
theorem itoa_injective (i j : Int) (h : itoa i = itoa j) : i = j := by
  have hminus : ∀ (a b : Nat), Nat.repr a ≠ "-" ++ Nat.repr (b + 1) := by
    intro a b he
    have hm : '-' ∈ (Nat.repr a).data := by
      rw [he, String.data_append]
      exact List.mem_append_left _ (by decide)
    exact absurd (repr_digits a '-' hm) (by decide)
  cases i with
  | ofNat a =>
    cases j with
    | ofNat b => exact congrArg Int.ofNat (repr_injective a b h)
    | negSucc b => exact absurd h (hminus a b)
  | negSucc a =>
    cases j with
    | ofNat b => exact absurd h.symm (hminus b a)
    | negSucc b =>
      rw [itoa_negSucc, itoa_negSucc] at h
      have hd := congrArg String.data h
      rw [String.data_append, String.data_append] at hd
      have he := repr_injective _ _ (String.ext (List.append_cancel_left hd))
      have : a = b := by omega
      rw [this]

theorem gokiName_injective (i j : Int) (h : gokiName i = gokiName j) : i = j := by
  unfold gokiName at h
  have hd := congrArg String.data h
  simp only [String.data_append] at hd
  exact itoa_injective i j (String.ext (List.append_cancel_left hd))

theorem itoa_ne_client (i : Int) : itoa i ≠ "client" := by
  intro h
  have hc : 'c' ∈ (itoa i).data := by rw [h]; decide
  rcases itoa_chars i 'c' hc with h1 | h1
  · exact absurd h1 (by decide)
  · exact absurd h1 (by decide)

/-! ## Naming (C23) -/

theorem namedForNode_first (flags : CreateCmdFlags) (r z : Int) :
    NamedForNode 1 (createFirstGokiArgs flags r z) := by
  have h1 : "--name=" ++ gokiName 1 = "--name=" ++ gokiResourceName ++ "-1" := by decide
  have h2 : "--mount=type=volume,src=" ++ volumeName (itoa 1) ++ ",dst=/cockroach/cockroach-data" =
      "--mount=type=volume,src=" ++ gokiResourceName ++ "-volume-1,dst=/cockroach/cockroach-data" := by
    decide
  have h3 : "--certs-dir=certs/node-certs/" ++ gokiName 1 =
      "--certs-dir=certs/node-certs/" ++ gokiResourceName ++ "-1" := by decide
  unfold NamedForNode
  rw [h1, h2, h3]
  simp [createFirstGokiArgs]

theorem namedForNode_later (flags : CreateCmdFlags) (i r z : Int) :
    NamedForNode i (createGokiClusterArgs flags i r z) := by
  have h1 : "--name=" ++ gokiName i = "--name=" ++ gokiResourceName ++ "-" ++ itoa i := by
    simp only [gokiName, String.append_assoc]
  have h2 : "--mount=type=volume,src=" ++ volumeName (itoa i) ++ ",dst=/cockroach/cockroach-data" =
      "--mount=type=volume,src=" ++ gokiResourceName ++ "-volume-" ++ itoa i ++
        ",dst=/cockroach/cockroach-data" := by
    simp only [volumeName, String.append_assoc]
  have h3 : "--certs-dir=certs/node-certs/" ++ gokiName i =
      "--certs-dir=certs/node-certs/" ++ gokiResourceName ++ "-" ++ itoa i := by
    simp only [gokiName, String.append_assoc]
  unfold NamedForNode
  rw [h1, h2, h3]
  simp [createGokiClusterArgs]

theorem createOneVolume_command (env : Env) (suffix : String) (s : State) :
    execs (createOneVolume env suffix s).2.trace = execs s.trace ++ [volumeCreateArgs suffix] := by
  unfold createOneVolume
  dsimp only
  split <;> simp [State.out, State.err, State.ran, State.emit, execs_append, execs]

/-- A sequence of steps each of which issues exactly one command, whatever its outcome,
issues the commands of its first `m` steps, all of them when it returns no error. -/
theorem seqSteps_one_command (l : List (Step × List String))
    (h : ∀ p ∈ l, ∀ s, execs (p.1 s).2.trace = execs s.trace ++ [p.2]) :
    ∀ s : State, ∃ m, m ≤ l.length ∧
      execs (seqSteps (l.map Prod.fst) s).2.trace = execs s.trace ++ (l.map Prod.snd).take m ∧
      ((seqSteps (l.map Prod.fst) s).1 = none → m = l.length) ∧
      ((seqSteps (l.map Prod.fst) s).1 ≠ none → 1 ≤ m) := by
  induction l with
  | nil => intro s; exact ⟨0, le_refl 0, by simp [seqSteps], fun _ => rfl, fun hx => absurd rfl hx⟩
  | cons p rest ih =>
    intro s
    have hp := h p (by simp) s
    rcases hb : p.1 s with ⟨_ | e, s1⟩
    · obtain ⟨m, hm, hex, hnone, hsome⟩ := ih (fun q hq => h q (by simp [hq])) s1
      rw [hb] at hp
      refine ⟨m + 1, by simp; omega, ?_, ?_, fun _ => by omega⟩
      · rw [List.map_cons, seqSteps_cons_ok hb, hex, hp]
        simp
      · rw [List.map_cons, seqSteps_cons_ok hb]
        intro hn
        simp [hnone hn]
    · rw [hb] at hp
      refine ⟨1, by simp, ?_, ?_, fun _ => le_refl 1⟩
      · rw [List.map_cons, seqSteps_cons_err hb, hp]
        simp
      · rw [List.map_cons, seqSteps_cons_err hb]
        intro hn
        exact absurd hn (by simp)

theorem createGokiVolume_as_sequence (env : Env) (flags : CreateCmdFlags) :
    createGokiVolume env flags =
      andThen (say "INFO: Creating Docker Volume start.\n")
        (andThen
          (seqSteps ((("client" :: (nodesFrom 1 flags.node.toNat).map itoa).map
            (fun x => (createOneVolume env x, volumeCreateArgs x))).map Prod.fst))
          (say "INFO: Creating Docker Volume done.\n")) := by
  have hcount : (flags.node + 1 - 1).toNat = flags.node.toNat := by
    congr 1
    ring
  unfold createGokiVolume forRange
  rw [hcount, loopFrom_eq_seqSteps, nodesFrom_eq_map]
  simp only [List.map_cons, List.map_map, Function.comp_def]
  show andThen _ (andThen _ (andThen _ (andThen _ (seqSteps [])))) = _
  rw [seqSteps_nil, andThen_done, ← andThen_assoc (createOneVolume env "client")]
  rfl

theorem createGokiVolume_commands (env : Env) (flags : CreateCmdFlags) (s : State) :
    ∃ m, 1 ≤ m ∧ m ≤ (volumeCommands flags.node).length ∧
      execs (createGokiVolume env flags s).2.trace =
        execs s.trace ++ (volumeCommands flags.node).take m ∧
      ((createGokiVolume env flags s).1 = none → m = (volumeCommands flags.node).length) := by
  have hcmds : (("client" :: (nodesFrom 1 flags.node.toNat).map itoa).map
      (fun x => (createOneVolume env x, volumeCreateArgs x))).map Prod.snd =
      volumeCommands flags.node := by
    simp [volumeCommands, List.map_map, Function.comp_def]
  obtain ⟨m, hm, hex, hnone, hsome⟩ := seqSteps_one_command
    (("client" :: (nodesFrom 1 flags.node.toNat).map itoa).map
      (fun x => (createOneVolume env x, volumeCreateArgs x)))
    (by
      intro p hp t
      obtain ⟨x, _, rfl⟩ := List.mem_map.1 hp
      exact createOneVolume_command env x t)
    (s.out "INFO: Creating Docker Volume start.\n")
  rw [hcmds] at hex
  have hlen : (("client" :: (nodesFrom 1 flags.node.toNat).map itoa).map
      (fun x => (createOneVolume env x, volumeCreateArgs x))).length =
      (volumeCommands flags.node).length := by
    rw [← hcmds]
    simp only [List.length_map]
  rw [hlen] at hm hnone
  rw [createGokiVolume_as_sequence]
  have hs0 : execs (s.out "INFO: Creating Docker Volume start.\n").trace = execs s.trace :=
    execs_out s _
  rw [hs0] at hex
  rcases hb : seqSteps ((("client" :: (nodesFrom 1 flags.node.toNat).map itoa).map
      (fun x => (createOneVolume env x, volumeCreateArgs x))).map Prod.fst)
      (s.out "INFO: Creating Docker Volume start.\n") with ⟨_ | e, s1⟩
  · rw [hb] at hex hnone
    have hm2 := hnone rfl
    refine ⟨m, ?_, hm, ?_, fun _ => hm2⟩
    · rw [hm2]; simp [volumeCommands]
    · simp only [andThen, say, hb]
      rw [execs_out]
      exact hex
  · rw [hb] at hex hsome
    refine ⟨m, hsome (by simp), hm, ?_, ?_⟩
    · simp only [andThen, say, hb]
      exact hex
    · simp only [andThen, say, hb]
      intro hn
      exact absurd hn (by simp)

theorem rollout_as_sequence (env : Env) (flags : CreateCmdFlags) :
    forRange 2 flags.node (createGokiClusterNode env flags) =
      seqSteps ((rolloutNodes flags.node).map (createGokiClusterNode env flags)) := by
  have hcount : (flags.node + 1 - 2).toNat = (flags.node - 1).toNat := by
    congr 1
    ring
  unfold forRange rolloutNodes
  rw [hcount, loopFrom_eq_seqSteps, nodesFrom_eq_map, List.map_map]
  rfl

theorem client_is_no_numeral (i : Int) :
    gokiResourceName ++ "-client" ≠ gokiName i ∧ volumeName "client" ≠ volumeName (itoa i) := by
  constructor
  · intro h
    have h0 : gokiResourceName ++ "-client" = gokiResourceName ++ "-" ++ "client" := by decide
    rw [h0] at h
    unfold gokiName at h
    have hd := congrArg String.data h
    simp only [String.data_append] at hd
    exact itoa_ne_client i (String.ext (List.append_cancel_left hd)).symm
  · intro h
    unfold volumeName at h
    have hd := congrArg String.data h
    simp only [String.data_append] at hd
    exact itoa_ne_client i (String.ext (List.append_cancel_left hd)).symm

/-- C23: the naming invariant.  The start command of the first node (issued first by
`createFirstGoki`) names the sandbox `goki-1`, mounts the data volume `goki-volume-1` and uses
the certificate directory `node-certs/goki-1`; the rollout runs the round of each node
`i` = 2..`N`, and that round issues exactly one command, a start command naming the sandbox
`goki-<i>`, mounting `goki-volume-<i>` and using `node-certs/goki-<i>`.  A successful
`createGokiVolume` creates exactly the credential volume `goki-volume-client` and the data
volumes `goki-volume-1`..`goki-volume-N` (`N + 1` volumes; a failing one a non-empty initial
part of them).  The helper sandbox is created as `goki-client` with the volume
`goki-volume-client`, and `client` is not the numeral of any integer. -/
theorem naming_invariant (env : Env) (flags : CreateCmdFlags) (s : State) :
    (∃ r z rest, execs (createFirstGoki env flags s).2.trace =
        execs s.trace ++ createFirstGokiArgs flags r z :: rest ∧
      NamedForNode 1 (createFirstGokiArgs flags r z)) ∧
    (forRange 2 flags.node (createGokiClusterNode env flags) =
        seqSteps ((rolloutNodes flags.node).map (createGokiClusterNode env flags)) ∧
      ∀ i, ∃ c, execs (createGokiClusterNode env flags i s).2.trace = execs s.trace ++ [c] ∧
        NamedForNode i c) ∧
    (((createGokiVolume env flags s).1 = none →
        execs (createGokiVolume env flags s).2.trace =
          execs s.trace ++ volumeCommands flags.node) ∧
      (∃ m, 1 ≤ m ∧ execs (createGokiVolume env flags s).2.trace =
        execs s.trace ++ (volumeCommands flags.node).take m) ∧
      volumeCommands flags.node = volumeCreateArgs "client" ::
        (nodesFrom 1 flags.node.toNat).map (fun i => volumeCreateArgs (itoa i)) ∧
      (volumeCommands flags.node).length = flags.node.toNat + 1 ∧
      ∀ x, volumeCreateArgs x = ["volume", "create", volumeName x, "--label=" ++ gokiResourceLabel]) ∧
    (execs (createClientContainer env flags s).2.trace =
        execs s.trace ++ [createClientContainerArgs flags] ∧
      ("--name=" ++ gokiResourceName ++ "-client") ∈ createClientContainerArgs flags ∧
      ("--mount=type=volume,src=" ++ volumeName "client" ++ ",dst=/cockroach/certs") ∈
        createClientContainerArgs flags ∧
      ∀ i : Int, gokiResourceName ++ "-client" ≠ gokiName i ∧
        volumeName "client" ≠ volumeName (itoa i)) := by
  refine ⟨?_, ⟨rollout_as_sequence env flags, ?_⟩, ⟨?_, ?_, rfl, ?_, fun _ => rfl⟩,
    ⟨?_, ?_, ?_, client_is_no_numeral⟩⟩
  · obtain ⟨rest, h⟩ := createFirstGoki_first_command env flags s
    exact ⟨_, _, rest, h, namedForNode_first flags _ _⟩
  · intro i
    obtain ⟨c, ⟨r, z, hc⟩, h⟩ := createGokiClusterNode_one_start env flags i s
    exact ⟨c, h, hc ▸ namedForNode_later flags i r z⟩
  · intro hn
    obtain ⟨m, _, _, hex, hnone⟩ := createGokiVolume_commands env flags s
    rw [hex, hnone hn, List.take_length]
  · obtain ⟨m, h1, _, hex, _⟩ := createGokiVolume_commands env flags s
    exact ⟨m, h1, hex⟩
  · simp [volumeCommands, nodesFrom_eq_map]
  · unfold createClientContainer
    dsimp only
    split <;> simp [State.out, State.err, State.ran, State.emit, execs_append, execs]
  · simp [createClientContainerArgs]
  · have h : "--mount=type=volume,src=" ++ volumeName "client" ++ ",dst=/cockroach/certs" =
        "--mount=type=volume,src=" ++ gokiResourceName ++ "-volume-client,dst=/cockroach/certs" := by
      decide
    rw [h]
    simp [createClientContainerArgs]

theorem naming_invariant_witness :
    execs (createGokiVolume quietEnv ⟨3, "v22.2.0", false⟩ State.init).2.trace =
      execs State.init.trace ++ volumeCommands (⟨3, "v22.2.0", false⟩ : CreateCmdFlags).node ∧
    ∃ m, 1 ≤ m ∧ execs (createGokiVolume volumeFailEnv ⟨3, "v22.2.0", false⟩ State.init).2.trace =
      execs State.init.trace ++
        (volumeCommands (⟨3, "v22.2.0", false⟩ : CreateCmdFlags).node).take m :=
  ⟨(naming_invariant quietEnv ⟨3, "v22.2.0", false⟩ State.init).2.2.1.1 (by decide),
    (naming_invariant volumeFailEnv ⟨3, "v22.2.0", false⟩ State.init).2.2.1.2.1⟩

/-! ## Status accounting (C22) -/

theorem gokiIsDead_no_print (env : Env) (id : Int) (s : State) (x : String)
    (h : Event.stdout x ∈ (gokiIsDead env id s).2.trace) : Event.stdout x ∈ s.trace := by
  unfold gokiIsDead at h
  dsimp only at h
  split at h
  · simpa [State.err, State.ran, State.emit] using h
  · split at h
    · simpa [State.err, State.ran, State.emit] using h
    · split at h
      · simpa [State.err, State.ran, State.emit] using h
      · split at h <;> simpa [State.err, State.ran, State.emit] using h

theorem statusStateAt_no_print (env : Env) (s : State) (x : String) :
    ∀ j, Event.stdout x ∈ (statusStateAt env s j).trace → Event.stdout x ∈ s.trace := by
  intro j
  induction j with
  | zero => exact fun h => h
  | succ j ih => exact fun h => ih (gokiIsDead_no_print env _ _ x h)

theorem nodesFrom_names_nodup (i : Int) (k : Nat) : ((nodesFrom i k).map gokiName).Nodup := by
  rw [nodesFrom_eq_map, List.map_map]
  refine List.Nodup.map ?_ (List.nodup_range k)
  intro a b h
  simp only [Function.comp] at h
  have := gokiName_injective _ _ h
  omega

theorem showList_trace (list : List String) (s : State) :
    (showList list s).trace = s.trace ++ statusLines list := by
  unfold showList statusLines
  dsimp only
  rw [foldl_out_trace (fun name => "  " ++ name ++ "\n")]
  split <;> simp [State.out, State.emit]

/-- The loop of `showContainerStatus` when `gokiIsDead` gives no error for any of the `k`
indices from `m + 1` on: it ends without error in the state after the last index, having
appended to the alive list the names of the indices answered `(false, nil)` and to the dead
list the names of those answered `(true, nil)`, in ascending order. -/
theorem statusLoop_done (env : Env) (s0 : State) (k : Nat) :
    ∀ (m : Nat) (live dead : List String),
      (∀ j, j < k → (statusVerdict env s0 (m + j)).2 = none) →
      statusLoop env k ((m : Int) + 1) live dead (statusStateAt env s0 m) =
        ((none,
          live ++ ((List.range' m k).filter
            (fun j => decide (statusVerdict env s0 j = (false, none)))).map
              (fun (j : Nat) => gokiName ((j : Int) + 1)),
          dead ++ ((List.range' m k).filter
            (fun j => decide (statusVerdict env s0 j = (true, none)))).map
              (fun (j : Nat) => gokiName ((j : Int) + 1))),
         statusStateAt env s0 (m + k)) := by
  induction k with
  | zero =>
    intro m live dead _
    simp [statusLoop]
  | succ k ih =>
    intro m live dead h
    have h0 := h 0 (Nat.succ_pos k)
    have hrest : ∀ j, j < k → (statusVerdict env s0 (m + 1 + j)).2 = none := by
      intro j hj
      have := h (j + 1) (Nat.succ_lt_succ hj)
      rwa [show m + (j + 1) = m + 1 + j by omega] at this
    have hstep := ih (m + 1)
    have hv : statusVerdict env s0 m = (gokiIsDead env ((m : Int) + 1) (statusStateAt env s0 m)).1 :=
      rfl
    have hs : statusStateAt env s0 (m + 1) =
        (gokiIsDead env ((m : Int) + 1) (statusStateAt env s0 m)).2 := rfl
    have hidx : (((m + 1 : Nat) : Int) + 1) = (m : Int) + 1 + 1 := by push_cast; rfl
    rw [Nat.add_zero] at h0
    unfold statusLoop
    rcases hg : gokiIsDead env ((m : Int) + 1) (statusStateAt env s0 m) with ⟨⟨b, o⟩, s1⟩
    rw [hg] at hv hs
    dsimp only at hv hs
    rw [hv] at h0
    dsimp only at h0
    subst h0
    cases b with
    | true =>
      dsimp only
      rw [← hs, ← hidx, hstep _ _ hrest, List.range'_succ]
      simp [hv, gokiName, show m + 1 + k = m + (k + 1) by omega]
    | false =>
      dsimp only
      rw [← hs, ← hidx, hstep _ _ hrest, List.range'_succ]
      simp [hv, gokiName, show m + 1 + k = m + (k + 1) by omega]

/-- The loop of `showContainerStatus` when the index `m + j + 1` is the first for which
`gokiIsDead` gives an error: it returns that error, in the state `gokiIsDead` left. -/
theorem statusLoop_stops (env : Env) (s0 : State) (k : Nat) :
    ∀ (m : Nat) (live dead : List String) (j : Nat) (e : String), j < k →
      (∀ l, l < j → (statusVerdict env s0 (m + l)).2 = none) →
      (statusVerdict env s0 (m + j)).2 = some e →
      (statusLoop env k ((m : Int) + 1) live dead (statusStateAt env s0 m)).1.1 = some e ∧
      (statusLoop env k ((m : Int) + 1) live dead (statusStateAt env s0 m)).2 =
        statusStateAt env s0 (m + j + 1) := by
  induction k with
  | zero =>
    intro m live dead j e hj
    omega
  | succ k ih =>
    intro m live dead j e hj hbefore hat
    have hv : statusVerdict env s0 m = (gokiIsDead env ((m : Int) + 1) (statusStateAt env s0 m)).1 :=
      rfl
    have hs : statusStateAt env s0 (m + 1) =
        (gokiIsDead env ((m : Int) + 1) (statusStateAt env s0 m)).2 := rfl
    have hidx : (((m + 1 : Nat) : Int) + 1) = (m : Int) + 1 + 1 := by push_cast; rfl
    unfold statusLoop
    rcases hg : gokiIsDead env ((m : Int) + 1) (statusStateAt env s0 m) with ⟨⟨b, o⟩, s1⟩
    rw [hg] at hv hs
    dsimp only at hv hs
    cases j with
    | zero =>
      rw [Nat.add_zero, hv] at hat
      dsimp only at hat
      subst hat
      cases b <;> exact ⟨rfl, hs.symm⟩
    | succ j =>
      have h0 := hbefore 0 (Nat.succ_pos j)
      rw [Nat.add_zero, hv] at h0
      dsimp only at h0
      subst h0
      have hrest : ∀ l, l < j → (statusVerdict env s0 (m + 1 + l)).2 = none := by
        intro l hl
        have := hbefore (l + 1) (Nat.succ_lt_succ hl)
        rwa [show m + (l + 1) = m + 1 + l by omega] at this
      have hat2 : (statusVerdict env s0 (m + 1 + j)).2 = some e := by
        rwa [show m + (j + 1) = m + 1 + j by omega] at hat
      have hstep := ih (m + 1)
      cases b with
      | true =>
        dsimp only
        rw [← hs, ← hidx, show m + (j + 1) + 1 = m + 1 + j + 1 by omega]
        exact hstep _ _ j e (Nat.lt_of_succ_lt_succ hj) hrest hat2
      | false =>
        dsimp only
        rw [← hs, ← hidx, show m + (j + 1) + 1 = m + 1 + j + 1 by omega]
        exact hstep _ _ j e (Nat.lt_of_succ_lt_succ hj) hrest hat2

/-- The report of `showContainerStatus` when `gokiIsDead` gives no error for any index of the
range: the two headers, each followed by its list. -/
theorem showContainerStatus_done (env : Env) (n : Int) (s : State)
    (h : ∀ j, j < (n - 1).toNat → (statusVerdict env s j).2 = none) :
    showContainerStatus env n s =
      (none, showList (statusDead env s (n - 1).toNat)
        ((showList (statusAlive env s (n - 1).toNat)
          ((statusStateAt env s (n - 1).toNat).out "Alive containers:\n")).out
            "Dead containers:\n")) := by
  have hcount : (n - 1 + 1 - 1).toNat = (n - 1).toNat := by
    congr 1
    ring
  have hrun := statusLoop_done env s (n - 1).toNat 0 [] [] (by simpa using h)
  simp only [Nat.cast_zero, zero_add, List.nil_append, ← List.range_eq_range'] at hrun
  unfold showContainerStatus
  rw [hcount]
  have h0 : statusStateAt env s 0 = s := rfl
  rw [h0] at hrun
  rw [hrun]
  rfl

/-- The result of `showContainerStatus` when the index `j + 1` is the first of the range for
which `gokiIsDead` gives an error: that error, in the state `gokiIsDead` left, no report. -/
theorem showContainerStatus_stops (env : Env) (n : Int) (s : State) (j : Nat) (e : String)
    (hj : j < (n - 1).toNat) (hbefore : ∀ l, l < j → (statusVerdict env s l).2 = none)
    (hat : (statusVerdict env s j).2 = some e) :
    showContainerStatus env n s = (some e, statusStateAt env s (j + 1)) := by
  have hcount : (n - 1 + 1 - 1).toNat = (n - 1).toNat := by
    congr 1
    ring
  obtain ⟨h1, h2⟩ := statusLoop_stops env s (n - 1).toNat 0 [] [] j e hj
    (by simpa using hbefore) (by simpa using hat)
  simp only [Nat.cast_zero, zero_add] at h1 h2
  have h0 : statusStateAt env s 0 = s := rfl
  rw [h0] at h1 h2
  unfold showContainerStatus
  rw [hcount]
  rcases hl : statusLoop env (n - 1).toNat 1 [] [] s with ⟨⟨_ | e2, live, dead⟩, t⟩
  · rw [hl] at h1
    simp at h1
  · rw [hl] at h1 h2
    dsimp only at h1 h2 ⊢
    rw [h2]
    simp only [Option.some.injEq] at h1
    rw [h1]


theorem statusAlive_mem (env : Env) (s : State) (k j : Nat) :
    gokiName ((j : Int) + 1) ∈ statusAlive env s k ↔
      j < k ∧ statusVerdict env s j = (false, none) := by
  unfold statusAlive
  simp only [List.mem_map, List.mem_filter, List.mem_range, decide_eq_true_eq]
  constructor
  · rintro ⟨a, ⟨ha, hv⟩, he⟩
    have := gokiName_injective _ _ he
    have haj : a = j := by omega
    subst haj
    exact ⟨ha, hv⟩
  · rintro ⟨hj, hv⟩
    exact ⟨j, ⟨hj, hv⟩, rfl⟩

theorem statusDead_mem (env : Env) (s : State) (k j : Nat) :
    gokiName ((j : Int) + 1) ∈ statusDead env s k ↔
      j < k ∧ statusVerdict env s j = (true, none) := by
  unfold statusDead
  simp only [List.mem_map, List.mem_filter, List.mem_range, decide_eq_true_eq]
  constructor
  · rintro ⟨a, ⟨ha, hv⟩, he⟩
    have := gokiName_injective _ _ he
    have haj : a = j := by omega
    subst haj
    exact ⟨ha, hv⟩
  · rintro ⟨hj, hv⟩
    exact ⟨j, ⟨hj, hv⟩, rfl⟩

theorem statusRefused_mem (env : Env) (s : State) (k j : Nat) :
    j ∈ statusRefused env s k ↔ j < k ∧ (statusVerdict env s j).2 ≠ none := by
  unfold statusRefused
  simp only [List.mem_filter, List.mem_range, Option.isSome_iff_ne_none]

/-- Three tests of which exactly one holds for every element split a list into three parts
whose lengths add up to the length of the list. -/
theorem three_way_length {α : Type} (p q r : α → Bool) (l : List α)
    (h : ∀ a ∈ l, (p a = true ∧ q a = false ∧ r a = false) ∨
      (p a = false ∧ q a = true ∧ r a = false) ∨ (p a = false ∧ q a = false ∧ r a = true)) :
    (l.filter p).length + (l.filter q).length + (l.filter r).length = l.length := by
  induction l with
  | nil => rfl
  | cons a rest ih =>
    have hr := ih (fun b hb => h b (List.mem_cons_of_mem _ hb))
    rcases h a (List.mem_cons_self _ _) with ⟨h1, h2, h3⟩ | ⟨h1, h2, h3⟩ | ⟨h1, h2, h3⟩ <;>
    · simp only [List.filter_cons, h1, h2, h3, if_true, Bool.false_eq_true, if_false,
        List.length_cons]
      omega

theorem status_three_way (env : Env) (s : State) (k : Nat) :
    (statusAlive env s k).length + (statusDead env s k).length +
      (statusRefused env s k).length = k := by
  unfold statusAlive statusDead statusRefused
  rw [List.length_map, List.length_map]
  have := three_way_length (fun j => decide (statusVerdict env s j = (false, none)))
    (fun j => decide (statusVerdict env s j = (true, none)))
    (fun j => (statusVerdict env s j).2.isSome) (List.range k) (by
      intro j _
      rcases hv : statusVerdict env s j with ⟨b, _ | e⟩
      · cases b <;> simp [hv]
      · simp [hv])
  rw [this, List.length_range]

theorem statusAlive_dead_nodup (env : Env) (s : State) (k : Nat) :
    (statusAlive env s k ++ statusDead env s k).Nodup := by
  have hinj : Function.Injective (fun (j : Nat) => gokiName ((j : Int) + 1)) := by
    intro a b h
    have := gokiName_injective _ _ h
    omega
  rw [List.nodup_append]
  refine ⟨?_, ?_, ?_⟩
  · exact List.Nodup.map hinj (List.Nodup.filter _ (List.nodup_range k))
  · exact List.Nodup.map hinj (List.Nodup.filter _ (List.nodup_range k))
  · intro x hx hy
    unfold statusAlive at hx
    unfold statusDead at hy
    simp only [List.mem_map, List.mem_filter, List.mem_range, decide_eq_true_eq] at hx hy
    obtain ⟨a, ⟨_, ha⟩, rfl⟩ := hx
    obtain ⟨b, ⟨_, hb⟩, he⟩ := hy
    have hab : b = a := hinj he
    subst hab
    rw [ha] at hb
    simp at hb

/-- When no index of the range is refused, the alive list and the dead list together hold the
name of every index of the range exactly once. -/
theorem statusAlive_dead_perm (env : Env) (s : State) (k : Nat)
    (h : statusRefused env s k = []) :
    List.Perm (statusAlive env s k ++ statusDead env s k) ((nodesFrom 1 k).map gokiName) := by
  have hdead : (List.range k).filter (fun j => decide (statusVerdict env s j = (true, none))) =
      (List.range k).filter
        (fun j => !(decide (statusVerdict env s j = (false, none)))) := by
    apply List.filter_congr
    intro j hj
    have hnot : j ∉ statusRefused env s k := by rw [h]; simp
    rw [statusRefused_mem] at hnot
    have hv : (statusVerdict env s j).2 = none := by
      by_contra hc
      exact hnot ⟨List.mem_range.1 hj, hc⟩
    rcases hvv : statusVerdict env s j with ⟨b, o⟩
    rw [hvv] at hv
    dsimp only at hv
    subst hv
    cases b <;> simp
  unfold statusAlive statusDead
  rw [hdead, ← List.map_append, nodesFrom_eq_map, List.map_map]
  have hp := List.filter_append_perm
    (fun j => decide (statusVerdict env s j = (false, none))) (List.range k)
  have hm := hp.map (fun (j : Nat) => gokiName ((j : Int) + 1))
  refine hm.trans ?_
  apply List.Perm.of_eq
  apply List.map_congr_left
  intro j _
  simp only [Function.comp]
  rw [add_comm]

/-- When some index of the range is refused, `showContainerStatus` returns the error of the
first refused index, in the state `gokiIsDead` left there. -/
theorem showContainerStatus_first (env : Env) (n : Int) (s : State) (j : Nat)
    (hj : j < (n - 1).toNat) (hv : (statusVerdict env s j).2 ≠ none) :
    ∃ i e, i ≤ j ∧ (∀ l, l < i → (statusVerdict env s l).2 = none) ∧
      (statusVerdict env s i).2 = some e ∧
      showContainerStatus env n s = (some e, statusStateAt env s (i + 1)) := by
  have hex : ∃ i, (statusVerdict env s i).2 ≠ none := ⟨j, hv⟩
  have hmin : ∀ l, l < Nat.find hex → (statusVerdict env s l).2 = none := by
    intro l hl
    by_contra hc
    exact Nat.find_min hex hl hc
  have hle : Nat.find hex ≤ j := Nat.find_min' hex hv
  obtain ⟨e, he⟩ := Option.ne_none_iff_exists'.1 (Nat.find_spec hex)
  exact ⟨Nat.find hex, e, hle, hmin, he,
    showContainerStatus_stops env n s _ e (lt_of_le_of_lt hle hj) hmin he⟩

theorem statusVerdict_eval (env : Env) (s : State) (j : Nat)
    (h1 : ((statusStateAt env s j).ask env liveListArgs).2 = none)
    (h2 : (((statusStateAt env s j).ran liveListArgs).ask env allListArgs).2 = none) :
    statusVerdict env s j =
      if gokiName ((j : Int) + 1) ∈ runningNames env (statusStateAt env s j) then (false, none)
      else if gokiName ((j : Int) + 1) ∈ allNames env (statusStateAt env s j) then (true, none)
      else (false, some (doesNotExist ((j : Int) + 1))) := by
  unfold statusVerdict
  rw [gokiIsDead_eval env _ _ h1 h2]
  split
  · rfl
  · split <;> rfl

theorem statusVerdict_static (env : Env) (runOut allOut : String)
    (hs : StaticListings env runOut allOut) (s : State) (j : Nat) :
    statusVerdict env s j =
      if gokiName ((j : Int) + 1) ∈ parseList runOut then (false, none)
      else if gokiName ((j : Int) + 1) ∈ parseList allOut then (true, none)
      else (false, some (doesNotExist ((j : Int) + 1))) := by
  unfold statusVerdict
  rw [gokiIsDead_static env runOut allOut hs]
  split
  · rfl
  · split <;> rfl


/-- C22: status accounting.  When `getNumberOfContainers` counts `n > 0` labeled containers
(the helper sandbox among them), the status command runs `showContainerStatus n`, which asks
`gokiIsDead` about each index of the range 1..`n - 1` once, in ascending order, each in the
state the previous question left.  Every index falls in exactly one of three classes by the
answer of `gokiIsDead`: alive for `(false, nil)`, dead for `(true, nil)`, refused for an error;
with both listings successful these are the index in the running listing, the index in the
all-containers listing only, and the index in neither (the does-not-exist error).  The three
classes add up to `n - 1`, and the alive and the dead names are disjoint and without
repetition.  The report succeeds exactly when no index is refused; it then prints, after
listings only, the alive header with exactly the alive names and the dead header with exactly
the dead names, which together are the names of the whole range.  When some index is refused,
an index in neither listing in particular, the report returns the error of the first refused
index, stops there, and prints no list: a refused index is never counted. -/
theorem status_accounting (env : Env) (s s1 : State) (n : Int)
    (hn : getNumberOfContainers env s = ((n, none), s1)) (hpos : 0 < n) :
    n = (parseList (s.ask env getNumberOfContainersArgs).1).length ∧
    statusRunE env s = showContainerStatus env n s1 ∧
    ((statusAlive env s1 (n - 1).toNat).length : Int) +
      ((statusDead env s1 (n - 1).toNat).length : Int) +
      ((statusRefused env s1 (n - 1).toNat).length : Int) = n - 1 ∧
    (∀ j, j < (n - 1).toNat →
      (gokiName ((j : Int) + 1) ∈ statusAlive env s1 (n - 1).toNat ↔
        statusVerdict env s1 j = (false, none)) ∧
      (gokiName ((j : Int) + 1) ∈ statusDead env s1 (n - 1).toNat ↔
        statusVerdict env s1 j = (true, none)) ∧
      (j ∈ statusRefused env s1 (n - 1).toNat ↔ (statusVerdict env s1 j).2 ≠ none)) ∧
    (∀ j, ((statusStateAt env s1 j).ask env liveListArgs).2 = none →
      (((statusStateAt env s1 j).ran liveListArgs).ask env allListArgs).2 = none →
      statusVerdict env s1 j =
        if gokiName ((j : Int) + 1) ∈ runningNames env (statusStateAt env s1 j) then
          (false, none)
        else if gokiName ((j : Int) + 1) ∈ allNames env (statusStateAt env s1 j) then
          (true, none)
        else (false, some (doesNotExist ((j : Int) + 1)))) ∧
    List.Disjoint (statusAlive env s1 (n - 1).toNat) (statusDead env s1 (n - 1).toNat) ∧
    (statusAlive env s1 (n - 1).toNat ++ statusDead env s1 (n - 1).toNat).Nodup ∧
    ((showContainerStatus env n s1).1 = none ↔ statusRefused env s1 (n - 1).toNat = []) ∧
    (statusRefused env s1 (n - 1).toNat = [] →
      (showContainerStatus env n s1).2.trace =
        (statusStateAt env s1 (n - 1).toNat).trace ++
          Event.stdout "Alive containers:\n" ::
            statusLines (statusAlive env s1 (n - 1).toNat) ++
          Event.stdout "Dead containers:\n" ::
            statusLines (statusDead env s1 (n - 1).toNat) ∧
      List.Perm (statusAlive env s1 (n - 1).toNat ++ statusDead env s1 (n - 1).toNat)
        ((nodesFrom 1 (n - 1).toNat).map gokiName) ∧
      ((statusAlive env s1 (n - 1).toNat).length : Int) +
        ((statusDead env s1 (n - 1).toNat).length : Int) = n - 1) ∧
    (∀ j, j < (n - 1).toNat → (statusVerdict env s1 j).2 ≠ none →
      ∃ i e, i ≤ j ∧ (∀ l, l < i → (statusVerdict env s1 l).2 = none) ∧
        (statusVerdict env s1 i).2 = some e ∧
        showContainerStatus env n s1 = (some e, statusStateAt env s1 (i + 1))) ∧
    (∀ j, j < (n - 1).toNat → (∀ l, l < j → (statusVerdict env s1 l).2 = none) →
      ((statusStateAt env s1 j).ask env liveListArgs).2 = none →
      (((statusStateAt env s1 j).ran liveListArgs).ask env allListArgs).2 = none →
      gokiName ((j : Int) + 1) ∉ runningNames env (statusStateAt env s1 j) →
      gokiName ((j : Int) + 1) ∉ allNames env (statusStateAt env s1 j) →
      showContainerStatus env n s1 =
        (some (doesNotExist ((j : Int) + 1)),
          ((statusStateAt env s1 j).ran liveListArgs).ran allListArgs)) ∧
    (∀ j x, Event.stdout x ∈ (statusStateAt env s1 j).trace → Event.stdout x ∈ s1.trace) ∧
    (∀ runOut allOut, StaticListings env runOut allOut →
      (statusAlive env s1 (n - 1).toNat =
        ((List.range (n - 1).toNat).filter
          (fun (j : Nat) => decide (gokiName ((j : Int) + 1) ∈ parseList runOut))).map
            (fun (j : Nat) => gokiName ((j : Int) + 1))) ∧
      (statusDead env s1 (n - 1).toNat =
        ((List.range (n - 1).toNat).filter
          (fun (j : Nat) => decide (gokiName ((j : Int) + 1) ∉ parseList runOut ∧
            gokiName ((j : Int) + 1) ∈ parseList allOut))).map
              (fun (j : Nat) => gokiName ((j : Int) + 1))) ∧
      (statusRefused env s1 (n - 1).toNat =
        (List.range (n - 1).toNat).filter
          (fun (j : Nat) => decide (gokiName ((j : Int) + 1) ∉ parseList runOut ∧
            gokiName ((j : Int) + 1) ∉ parseList allOut))) ∧
      (∀ j, j < (n - 1).toNat → gokiName ((j : Int) + 1) ∉ parseList runOut →
        gokiName ((j : Int) + 1) ∉ parseList allOut →
        ∃ i, i ≤ j ∧ (showContainerStatus env n s1).1 = some (doesNotExist ((i : Int) + 1)) ∧
          ∀ x, Event.stdout x ∈ (showContainerStatus env n s1).2.trace →
            Event.stdout x ∈ s1.trace)) := by
  have hk : ((n - 1).toNat : Int) = n - 1 := Int.toNat_of_nonneg (by omega)
  have hthree := status_three_way env s1 (n - 1).toNat
  have hiff : (showContainerStatus env n s1).1 = none ↔
      statusRefused env s1 (n - 1).toNat = [] := by
    constructor
    · intro hs
      rw [List.eq_nil_iff_forall_not_mem]
      intro j hj
      rw [statusRefused_mem] at hj
      obtain ⟨i, e, _, _, _, hi⟩ := showContainerStatus_first env n s1 j hj.1 hj.2
      rw [hi] at hs
      simp at hs
    · intro hr
      rw [showContainerStatus_done env n s1 (fun j hj => by
        by_contra hc
        have : j ∈ statusRefused env s1 (n - 1).toNat :=
          (statusRefused_mem env s1 _ j).2 ⟨hj, hc⟩
        rw [hr] at this
        simp at this)]
  refine ⟨?_, ?_, ?_, ?_, statusVerdict_eval env s1, ?_, statusAlive_dead_nodup env s1 _, hiff,
    ?_, showContainerStatus_first env n s1, ?_, fun j x => statusStateAt_no_print env s1 x j, ?_⟩
  · unfold getNumberOfContainers at hn
    dsimp only at hn
    rcases hr : (s.ask env getNumberOfContainersArgs).2 with _ | e
    · simp only [hr, Prod.mk.injEq, and_true] at hn
      exact hn.1.symm
    · simp [hr] at hn
  · unfold statusRunE
    rw [hn]
    simp only [ne_of_gt hpos, if_false, gt_iff_lt, hpos, if_true]
  · omega
  · intro j hj
    refine ⟨?_, ?_, ?_⟩
    · rw [statusAlive_mem]
      exact ⟨fun h => h.2, fun h => ⟨hj, h⟩⟩
    · rw [statusDead_mem]
      exact ⟨fun h => h.2, fun h => ⟨hj, h⟩⟩
    · rw [statusRefused_mem]
      exact ⟨fun h => h.2, fun h => ⟨hj, h⟩⟩
  · exact (List.nodup_append.1 (statusAlive_dead_nodup env s1 _)).2.2
  · intro hr
    have hdone := showContainerStatus_done env n s1 (fun j hj => by
        by_contra hc
        have : j ∈ statusRefused env s1 (n - 1).toNat :=
          (statusRefused_mem env s1 _ j).2 ⟨hj, hc⟩
        rw [hr] at this
        simp at this)
    refine ⟨?_, statusAlive_dead_perm env s1 _ hr, ?_⟩
    · rw [hdone]
      dsimp only
      rw [showList_trace, State.out, State.emit, showList_trace]
      simp [State.out, State.emit]
    · rw [hr] at hthree
      simp only [List.length_nil, add_zero] at hthree
      omega
  · intro j hj hbefore h1 h2 hrun hall
    have hv := statusVerdict_eval env s1 j h1 h2
    simp only [hrun, hall, if_false] at hv
    have hstop := showContainerStatus_stops env n s1 j _ hj hbefore (by rw [hv])
    rw [hstop]
    have hstate : statusStateAt env s1 (j + 1) =
        (gokiIsDead env ((j : Int) + 1) (statusStateAt env s1 j)).2 := rfl
    rw [hstate, gokiIsDead_eval env _ _ h1 h2]
    simp only [hrun, hall, if_false]
  · intro runOut allOut hs
    have hv := statusVerdict_static env runOut allOut hs s1
    refine ⟨?_, ?_, ?_, ?_⟩
    · unfold statusAlive
      congr 1
      apply List.filter_congr
      intro j _
      rw [hv j]
      by_cases c1 : gokiName ((j : Int) + 1) ∈ parseList runOut
      · simp [c1]
      · by_cases c2 : gokiName ((j : Int) + 1) ∈ parseList allOut <;> simp [c1, c2]
    · unfold statusDead
      congr 1
      apply List.filter_congr
      intro j _
      rw [hv j]
      by_cases c1 : gokiName ((j : Int) + 1) ∈ parseList runOut
      · simp [c1]
      · by_cases c2 : gokiName ((j : Int) + 1) ∈ parseList allOut <;> simp [c1, c2]
    · unfold statusRefused
      apply List.filter_congr
      intro j _
      rw [hv j]
      by_cases c1 : gokiName ((j : Int) + 1) ∈ parseList runOut
      · simp [c1]
      · by_cases c2 : gokiName ((j : Int) + 1) ∈ parseList allOut <;> simp [c1, c2]
    · intro j hj hrun hall
      have hvj := hv j
      simp only [hrun, hall, if_false] at hvj
      obtain ⟨i, e, hi, _, he, hres⟩ := showContainerStatus_first env n s1 j hj (by rw [hvj]; simp)
      have hvi := hv i
      refine ⟨i, hi, ?_, ?_⟩
      · rw [hres]
        rw [hvi] at he
        by_cases c1 : gokiName ((i : Int) + 1) ∈ parseList runOut
        · simp [c1] at he
        · by_cases c2 : gokiName ((i : Int) + 1) ∈ parseList allOut
          · simp [c1, c2] at he
          · simp only [c1, c2, if_false, Option.some.injEq] at he
            rw [he]
      · rw [hres]
        exact fun x hx => statusStateAt_no_print env s1 x _ hx

theorem status_accounting_witness :
    (statusRunE statusEnv State.init =
        showContainerStatus statusEnv 3 (State.init.ran getNumberOfContainersArgs) ∧
      (showContainerStatus statusEnv 3 (State.init.ran getNumberOfContainersArgs)).2.trace =
        (statusStateAt statusEnv (State.init.ran getNumberOfContainersArgs)
            ((3 : Int) - 1).toNat).trace ++
          Event.stdout "Alive containers:\n" ::
            statusLines (statusAlive statusEnv (State.init.ran getNumberOfContainersArgs)
              ((3 : Int) - 1).toNat) ++
          Event.stdout "Dead containers:\n" ::
            statusLines (statusDead statusEnv (State.init.ran getNumberOfContainersArgs)
              ((3 : Int) - 1).toNat) ∧
      statusAlive statusEnv (State.init.ran getNumberOfContainersArgs) ((3 : Int) - 1).toNat =
        ["goki-1"] ∧
      statusDead statusEnv (State.init.ran getNumberOfContainersArgs) ((3 : Int) - 1).toNat =
        ["goki-2"]) ∧
    statusRunE statusGapEnv State.init =
      showContainerStatus statusGapEnv 3 (State.init.ran getNumberOfContainersArgs) ∧
    showContainerStatus statusGapEnv 3 (State.init.ran getNumberOfContainersArgs) =
      (some (doesNotExist (((1 : Nat) : Int) + 1)),
        ((statusStateAt statusGapEnv (State.init.ran getNumberOfContainersArgs) 1).ran
          liveListArgs).ran allListArgs) :=
  ⟨⟨(status_accounting statusEnv State.init (State.init.ran getNumberOfContainersArgs) 3
        (by decide) (by decide)).2.1,
      ((status_accounting statusEnv State.init (State.init.ran getNumberOfContainersArgs) 3
        (by decide) (by decide)).2.2.2.2.2.2.2.2.1 (by decide)).1,
      by decide, by decide⟩,
    (status_accounting statusGapEnv State.init (State.init.ran getNumberOfContainersArgs) 3
      (by decide) (by decide)).2.1,
    (status_accounting statusGapEnv State.init (State.init.ran getNumberOfContainersArgs) 3
      (by decide) (by decide)).2.2.2.2.2.2.2.2.2.2.1 1 (by decide)
      (fun l hl => by
        have h0 : l = 0 := by omega
        subst h0
        decide)
      (by decide) (by decide) (by decide) (by decide)⟩

/-! ## Cluster initialisation (C21) -/

theorem bootstrapTail_tame (env : Env) (b : Bool) :
    Tame (fun a => a = setRootPasswordArgs ∨ a = createNonRootUserArgs) True b
      (seqSteps
        [fun t => if ¬ t.gokiVolumeAlreadyExist then firstGokiBootstrap env t else (none, t),
         say "INFO: Creating First node done.\n"]) := by
  apply seqSteps_tame
  intro f hf
  simp only [List.mem_cons, List.mem_singleton, List.not_mem_nil, or_false] at hf
  rcases hf with rfl | rfl
  · intro t ht
    dsimp only
    split
    · unfold firstGokiBootstrap
      refine seqSteps_tame ?_ t ht
      intro g hg
      simp only [List.mem_cons, List.mem_singleton, List.not_mem_nil, or_false] at hg
      rcases hg with rfl | rfl | rfl
      · exact execOrFail_tame env _ (Or.inl rfl)
      · exact execOrFail_tame env _ (Or.inr rfl)
      · exact checkGokiNode_tame env 1 trivial
    · exact Reaches.refl t
  · exact say_tame _

/-- The state of `createFirstGoki` after the first node has started and the settle delay has
passed. -/
theorem createFirstGoki_of_start (env : Env) (flags : CreateCmdFlags) (s : State)
    (hr : (firstNodeAnswer env flags s).2 = none) :
    ∃ t : State, createFirstGoki env flags s = firstGokiTail env t ∧
      t.gokiVolumeAlreadyExist = s.gokiVolumeAlreadyExist ∧
      t.trace = s.trace ++ (firstNodeHead flags s (firstNodeAnswer env flags s).1).take 5 := by
  unfold firstNodeAnswer at hr
  unfold createFirstGoki
  cases hl : flags.locality with
  | true =>
    simp only [hl, if_true] at hr ⊢
    simp only [State.ask, State.out, State.emit, hr]
    exact ⟨_, rfl, rfl, by simp [firstNodeHead, firstNodeAnswer, hl, State.ran, State.emit]⟩
  | false =>
    simp only [hl, Bool.false_eq_true, if_false] at hr ⊢
    simp only [State.ask, State.out, State.emit, hr]
    exact ⟨_, rfl, rfl, by simp [firstNodeHead, firstNodeAnswer, hl, State.ran, State.emit]⟩

theorem firstGokiBootstrap_none (env : Env) (t : State)
    (h : (firstGokiBootstrap env t).1 = none) :
    (firstGokiBootstrap env t).2.trace = t.trace ++
      [Event.exec setRootPasswordArgs, Event.exec createNonRootUserArgs,
       Event.sqlOpen checkGokiNodeConnStr, Event.sqlQuery checkGokiNodeQuery 1] ∧
    (firstGokiBootstrap env t).2.gokiVolumeAlreadyExist = t.gokiVolumeAlreadyExist := by
  unfold firstGokiBootstrap at h ⊢
  obtain ⟨h1, e1⟩ := seqSteps_cons_none h
  rw [e1] at h ⊢
  have s1 : (setRootPassword env t).2 = t.ran setRootPasswordArgs :=
    (execOrFail_none env _ _ t h1).1
  rw [s1] at h ⊢
  obtain ⟨h2, e2⟩ := seqSteps_cons_none h
  rw [e2] at h ⊢
  have s2 : (createNonRootUser env (t.ran setRootPasswordArgs)).2 =
      (t.ran setRootPasswordArgs).ran createNonRootUserArgs :=
    (execOrFail_none env _ _ _ h2).1
  rw [s2] at h ⊢
  rw [seqSteps_single] at h ⊢
  rw [checkGokiNode_none env 1 _ h]
  exact ⟨by simp [State.ran, State.emit], rfl⟩

/-- On a fresh run in which the first node starts, the trace of `createFirstGoki` is the
head ending in the cluster initialisation, followed by a tail in which the only commands are
the root-password and create-user commands; when it returns no error the tail is exactly the
bootstrap of the first node. -/
theorem createFirstGoki_fresh (env : Env) (flags : CreateCmdFlags) (s : State)
    (hs : s.gokiVolumeAlreadyExist = false) (hr : (firstNodeAnswer env flags s).2 = none) :
    ∃ tail, (createFirstGoki env flags s).2.trace =
        s.trace ++ firstNodeHead flags s (firstNodeAnswer env flags s).1 ++ tail ∧
      (∀ e ∈ tail, Allowed (fun a => a = setRootPasswordArgs ∨ a = createNonRootUserArgs) True e) ∧
      ((createFirstGoki env flags s).1 = none → tail = firstNodeBootstrap) := by
  obtain ⟨t, ht, hflag, htr⟩ := createFirstGoki_of_start env flags s hr
  have hf : t.gokiVolumeAlreadyExist = false := hflag.trans hs
  have hhead : firstNodeHead flags s (firstNodeAnswer env flags s).1 =
      (firstNodeHead flags s (firstNodeAnswer env flags s).1).take 5 ++
        [Event.stdout "INFO: Initializing Cluster start.\n", Event.exec initClusterArgs] := rfl
  rw [ht]
  unfold firstGokiTail
  rw [seqSteps_cons]
  unfold andThen
  simp only [hf, Bool.false_eq_true, not_false_eq_true, if_true]
  unfold firstGokiInit
  have hsay : say "INFO: Initializing Cluster start.\n" t =
      (none, t.out "INFO: Initializing Cluster start.\n") := rfl
  rw [seqSteps_cons_ok hsay]
  rcases hi : ((t.out "INFO: Initializing Cluster start.\n").ask env initClusterArgs).2 with _ | e
  · have hstep : execOrFail env initClusterArgs "ERROR: Start first node failed.\n Error is: "
        (t.out "INFO: Initializing Cluster start.\n") =
        (none, (t.out "INFO: Initializing Cluster start.\n").ran initClusterArgs) := by
      unfold execOrFail
      simp only [hi]
    rw [seqSteps_cons_ok hstep, seqSteps_single]
    simp only [say]
    have htame := bootstrapTail_tame env false
      (((t.out "INFO: Initializing Cluster start.\n").ran initClusterArgs).out
        "INFO: Initializing Cluster done.\n") hf
    obtain ⟨_, evs, hevs, hall⟩ := htame
    refine ⟨Event.stdout "INFO: Initializing Cluster done.\n" :: evs, ?_, ?_, ?_⟩
    · rw [hevs, hhead]
      simp [State.out, State.ran, State.emit, htr]
    · intro e he
      rcases List.mem_cons.1 he with h1 | h1
      · subst h1; simp [Allowed]
      · exact hall e h1
    · intro hn
      obtain ⟨h1, e1⟩ := seqSteps_cons_none hn
      rw [e1, seqSteps_single] at hn
      have hf2 : (((t.out "INFO: Initializing Cluster start.\n").ran initClusterArgs).out
          "INFO: Initializing Cluster done.\n").gokiVolumeAlreadyExist = false := hf
      rw [if_pos (by rw [hf2]; simp)] at h1
      obtain ⟨hb, _⟩ := firstGokiBootstrap_none env _ h1
      have hfin : (seqSteps
          [fun t => if ¬ t.gokiVolumeAlreadyExist then firstGokiBootstrap env t else (none, t),
           say "INFO: Creating First node done.\n"]
          (((t.out "INFO: Initializing Cluster start.\n").ran initClusterArgs).out
            "INFO: Initializing Cluster done.\n")).2.trace =
          (((t.out "INFO: Initializing Cluster start.\n").ran initClusterArgs).out
            "INFO: Initializing Cluster done.\n").trace ++
            [Event.exec setRootPasswordArgs, Event.exec createNonRootUserArgs,
              Event.sqlOpen checkGokiNodeConnStr, Event.sqlQuery checkGokiNodeQuery 1,
              Event.stdout "INFO: Creating First node done.\n"] := by
        rw [e1, seqSteps_single, if_pos (by rw [hf2]; simp)]
        simp only [say, State.out, State.emit] at hb ⊢
        rw [hb]
        simp
      have := List.append_cancel_left (hevs.symm.trans hfin)
      rw [this]
      rfl
  · have hstep : execOrFail env initClusterArgs "ERROR: Start first node failed.\n Error is: "
        (t.out "INFO: Initializing Cluster start.\n") =
        (some e, ((t.out "INFO: Initializing Cluster start.\n").ran initClusterArgs).err
          ("ERROR: Start first node failed.\n Error is: " ++
            ((t.out "INFO: Initializing Cluster start.\n").ask env initClusterArgs).1 ++ "\n")) := by
      unfold execOrFail
      simp only [hi]
    rw [seqSteps_cons_err hstep]
    refine ⟨[Event.stderr ("ERROR: Start first node failed.\n Error is: " ++
      ((t.out "INFO: Initializing Cluster start.\n").ask env initClusterArgs).1 ++ "\n")], ?_, ?_, ?_⟩
    · rw [hhead]
      simp [State.out, State.ran, State.err, State.emit, htr]
    · intro e he
      simp only [List.mem_singleton] at he
      subst he
      simp [Allowed]
    · intro hn
      simp at hn

theorem not_later_start_of_length (flags : CreateCmdFlags) (a : List String)
    (h : a.length ≠ 13) : ∀ i r z, a ≠ createGokiClusterArgs flags i r z := by
  intro i r z he
  apply h
  rw [he]
  rfl

theorem beforeFirstNode_tame (env : Env) (flags : CreateCmdFlags) (b : Bool) :
    Tame (fun a => ∀ i r z, a ≠ createGokiClusterArgs flags i r z) True b
      (beforeFirstNode env flags) := by
  unfold beforeFirstNode
  apply seqSteps_tame
  intro f hf
  have hl : (createBringUpSteps env flags).take 5 =
      [createBanner flags, createGokiNetwork env, createGokiVolume env flags,
        createClientContainer env flags, createCertFile env flags] := rfl
  rw [hl] at hf
  simp only [List.mem_cons, List.mem_singleton, List.not_mem_nil, or_false] at hf
  rcases hf with rfl | rfl | rfl | rfl | rfl
  · exact createBanner_tame flags
  · exact createGokiNetwork_tame env (not_later_start_of_length flags _ (by decide))
  · exact createGokiVolume_tame env flags
      (fun x => not_later_start_of_length flags _ (by simp [volumeCreateArgs]))
  · exact createClientContainer_tame env flags
      (not_later_start_of_length flags _ (by simp [createClientContainerArgs]))
  · exact createCertFile_tame env flags
      (not_later_start_of_length flags _ (by decide))
      (fun i => not_later_start_of_length flags _ (by simp [certMkNodeDirArgs]))
      (not_later_start_of_length flags _ (by decide))
      (fun i => not_later_start_of_length flags _ (by simp [certCreateNodeArgs]))
      (fun i => not_later_start_of_length flags _ (by simp [certCopyNodeArgs]))
      (not_later_start_of_length flags _ (by decide))
      (not_later_start_of_length flags _ (by decide))

theorem createBringUp_split (env : Env) (flags : CreateCmdFlags) :
    createBringUp env flags =
      andThen (beforeFirstNode env flags)
        (andThen (createFirstGoki env flags) (seqSteps ((createBringUpSteps env flags).drop 6))) := by
  unfold createBringUp beforeFirstNode
  rw [← seqSteps_cons, ← seqSteps_append]
  rfl

theorem firstNodeHead_no_later_start (flags : CreateCmdFlags) (s : State) (out : String) :
    ∀ e ∈ firstNodeHead flags s out, ¬ StartsLaterNode flags e := by
  intro e he
  rintro ⟨i, r, z, rfl⟩
  simp only [firstNodeHead, List.mem_cons, List.mem_singleton, List.not_mem_nil, or_false,
    reduceCtorEq, false_or, Event.exec.injEq] at he
  rcases he with h | h
  · exact not_later_start_of_length flags _ (by simp [createFirstGokiArgs]) i r z h.symm
  · exact not_later_start_of_length flags _ (by decide) i r z h.symm

theorem createFirstGoki_start_fails (env : Env) (flags : CreateCmdFlags) (s : State)
    (e : String) (hr : (firstNodeAnswer env flags s).2 = some e) :
    (createFirstGoki env flags s).1 = some e ∧
    execs (createFirstGoki env flags s).2.trace = execs s.trace ++
      [createFirstGokiArgs flags (if flags.locality = true then 1 else s.gokiRegionId)
        (if flags.locality = true then 1 else s.gokiZoneId)] := by
  unfold firstNodeAnswer at hr
  unfold createFirstGoki
  cases hl : flags.locality with
  | true =>
    simp only [hl, if_true] at hr ⊢
    simp only [State.ask, State.out, State.emit, hr]
    exact ⟨trivial, by simp [State.err, State.ran, State.emit, execs_append, execs]⟩
  | false =>
    simp only [hl, Bool.false_eq_true, if_false] at hr ⊢
    simp only [State.ask, State.out, State.emit, hr]
    exact ⟨trivial, by simp [State.err, State.ran, State.emit, execs_append, execs]⟩

theorem createFirstGoki_reuse_no_init (env : Env) (flags : CreateCmdFlags) (s : State)
    (hs : s.gokiVolumeAlreadyExist = true) (evs : List Event)
    (he : (createFirstGoki env flags s).2.trace = s.trace ++ evs) :
    Event.exec initClusterArgs ∉ evs := by
  obtain ⟨_, evs2, he2, hall⟩ := createFirstGoki_tame env flags true s hs
  have : evs = evs2 := List.append_cancel_left (he.symm.trans he2)
  subst this
  intro hm
  have h1 : BringUpCmd flags true initClusterArgs := hall _ hm
  have h2 := bringUpCmd_reuse_no_bootstrap flags _ h1
  exact absurd h2 (by decide)

/-- In `createCmd.RunE` on a fresh run, everything that precedes the cluster initialisation
(the steps before `createFirstGoki` and the head of `createFirstGoki`) starts no node of the
rollout. -/
theorem createBringUp_init_order (env : Env) (flags : CreateCmdFlags) (s : State)
    (hs : s.gokiVolumeAlreadyExist = false) (h1 : (beforeFirstNode env flags s).1 = none)
    (hr : (firstNodeAnswer env flags (beforeFirstNode env flags s).2).2 = none) :
    ∃ P rest, (createBringUp env flags s).2.trace =
        s.trace ++ P ++ firstNodeHead flags (beforeFirstNode env flags s).2
          (firstNodeAnswer env flags (beforeFirstNode env flags s).2).1 ++ rest ∧
      ∀ e ∈ P ++ firstNodeHead flags (beforeFirstNode env flags s).2
          (firstNodeAnswer env flags (beforeFirstNode env flags s).2).1,
        ¬ StartsLaterNode flags e := by
  obtain ⟨hflag, P, hP, hallP⟩ := beforeFirstNode_tame env flags s.gokiVolumeAlreadyExist s rfl
  obtain ⟨tail, htail, _, _⟩ := createFirstGoki_fresh env flags (beforeFirstNode env flags s).2
    (hflag.trans hs) hr
  have hafter : ∀ t : State, ∃ evs,
      (seqSteps ((createBringUpSteps env flags).drop 6) t).2.trace = t.trace ++ evs := by
    intro t
    obtain ⟨_, evs, h, _⟩ := seqSteps_tame
      (fun f hf => createBringUpSteps_tame env flags t.gokiVolumeAlreadyExist f
        (List.mem_of_mem_drop hf)) t rfl
    exact ⟨evs, h⟩
  have hno : ∀ e ∈ P ++ firstNodeHead flags (beforeFirstNode env flags s).2
      (firstNodeAnswer env flags (beforeFirstNode env flags s).2).1,
      ¬ StartsLaterNode flags e := by
    intro e he
    rcases List.mem_append.1 he with h | h
    · rintro ⟨i, r, z, rfl⟩
      exact hallP _ h i r z rfl
    · exact firstNodeHead_no_later_start flags _ _ e h
  rw [createBringUp_split]
  unfold andThen
  rw [step_eq_of_none h1]
  dsimp only
  rcases hb : createFirstGoki env flags (beforeFirstNode env flags s).2 with ⟨_ | e, t⟩
  · rw [hb] at htail
    obtain ⟨evs, hevs⟩ := hafter t
    refine ⟨P, tail ++ evs, ?_, hno⟩
    dsimp only
    rw [hevs, htail, hP]
    simp only [List.append_assoc]
  · rw [hb] at htail
    refine ⟨P, tail, ?_, hno⟩
    dsimp only
    rw [htail, hP]

/-- C21 (counterexample): on a fresh run in which the start of the first node fails,
`createFirstGoki` returns the error having issued the start command only: the cluster
initialisation is issued zero times. -/
theorem first_node_failure_skips_init :
    State.init.gokiVolumeAlreadyExist = false ∧
    (createFirstGoki firstNodeFailsEnv ⟨3, "v22.2.0", false⟩ State.init).1 =
      some "exit status 125" ∧
    execs (createFirstGoki firstNodeFailsEnv ⟨3, "v22.2.0", false⟩ State.init).2.trace =
      [createFirstGokiArgs ⟨3, "v22.2.0", false⟩ 0 0] ∧
    initClusterArgs ∉
      execs (createFirstGoki firstNodeFailsEnv ⟨3, "v22.2.0", false⟩ State.init).2.trace := by
  decide

/-- C21 (amended): on a fresh run in which the start command of the first node succeeds,
the trace of `createFirstGoki` is the head `firstNodeHead` (start of the first node, report,
settle delay, then the cluster initialisation, which addresses `goki-1`) followed by a tail
that holds no further initialisation and no command other than the root-password and
create-user commands; when `createFirstGoki` returns no error the tail is exactly the
root password, the user creation and the identity verification of node 1.  When the start of
the first node fails, `createFirstGoki` returns that error having issued the start command
only (no initialisation).  On a data-reuse run the initialisation is never issued.  In
`createCmd.RunE` nothing that precedes the initialisation starts a node of the rollout. -/
theorem first_node_initialisation (env : Env) (flags : CreateCmdFlags) (s : State) :
    (s.gokiVolumeAlreadyExist = false → (firstNodeAnswer env flags s).2 = none →
      ∃ tail, (createFirstGoki env flags s).2.trace =
          s.trace ++ firstNodeHead flags s (firstNodeAnswer env flags s).1 ++ tail ∧
        Event.exec initClusterArgs ∉ tail ∧
        (∀ e ∈ tail,
          Allowed (fun a => a = setRootPasswordArgs ∨ a = createNonRootUserArgs) True e) ∧
        ((createFirstGoki env flags s).1 = none → tail = firstNodeBootstrap)) ∧
    (∀ e, (firstNodeAnswer env flags s).2 = some e →
      (createFirstGoki env flags s).1 = some e ∧
      execs (createFirstGoki env flags s).2.trace = execs s.trace ++
        [createFirstGokiArgs flags (if flags.locality = true then 1 else s.gokiRegionId)
          (if flags.locality = true then 1 else s.gokiZoneId)]) ∧
    (s.gokiVolumeAlreadyExist = true →
      ∀ evs, (createFirstGoki env flags s).2.trace = s.trace ++ evs →
        Event.exec initClusterArgs ∉ evs) ∧
    (s.gokiVolumeAlreadyExist = false → (beforeFirstNode env flags s).1 = none →
      (firstNodeAnswer env flags (beforeFirstNode env flags s).2).2 = none →
      ∃ P rest, (createBringUp env flags s).2.trace =
          s.trace ++ P ++ firstNodeHead flags (beforeFirstNode env flags s).2
            (firstNodeAnswer env flags (beforeFirstNode env flags s).2).1 ++ rest ∧
        ∀ e ∈ P ++ firstNodeHead flags (beforeFirstNode env flags s).2
            (firstNodeAnswer env flags (beforeFirstNode env flags s).2).1,
          ¬ StartsLaterNode flags e) ∧
    ("--host=" ++ gokiName 1 ++ ":26257") ∈ initClusterArgs := by
  refine ⟨?_, createFirstGoki_start_fails env flags s, createFirstGoki_reuse_no_init env flags s,
    createBringUp_init_order env flags s, by decide⟩
  intro hs hr
  obtain ⟨tail, htr, hall, hok⟩ := createFirstGoki_fresh env flags s hs hr
  refine ⟨tail, htr, ?_, hall, hok⟩
  intro hm
  have := hall _ hm
  simp only [Allowed] at this
  rcases this with h | h
  · exact absurd h (by decide)
  · exact absurd h (by decide)

theorem first_node_initialisation_witness :
    (∃ tail, (createFirstGoki quietEnv ⟨3, "v22.2.0", false⟩ State.init).2.trace =
        State.init.trace ++ firstNodeHead ⟨3, "v22.2.0", false⟩ State.init
          (firstNodeAnswer quietEnv ⟨3, "v22.2.0", false⟩ State.init).1 ++ tail ∧
      Event.exec initClusterArgs ∉ tail ∧
      (∀ e ∈ tail,
        Allowed (fun a => a = setRootPasswordArgs ∨ a = createNonRootUserArgs) True e) ∧
      ((createFirstGoki quietEnv ⟨3, "v22.2.0", false⟩ State.init).1 = none →
        tail = firstNodeBootstrap)) ∧
    (∀ evs, (createFirstGoki quietEnv ⟨3, "v22.2.0", false⟩
        { State.init with gokiVolumeAlreadyExist := true }).2.trace =
        ({ State.init with gokiVolumeAlreadyExist := true } : State).trace ++ evs →
      Event.exec initClusterArgs ∉ evs) ∧
    (∃ P rest, (createBringUp quietEnv ⟨2, "v22.2.0", false⟩ State.init).2.trace =
        State.init.trace ++ P ++
          firstNodeHead ⟨2, "v22.2.0", false⟩
            (beforeFirstNode quietEnv ⟨2, "v22.2.0", false⟩ State.init).2
            (firstNodeAnswer quietEnv ⟨2, "v22.2.0", false⟩
              (beforeFirstNode quietEnv ⟨2, "v22.2.0", false⟩ State.init).2).1 ++ rest ∧
      ∀ e ∈ P ++ firstNodeHead ⟨2, "v22.2.0", false⟩
          (beforeFirstNode quietEnv ⟨2, "v22.2.0", false⟩ State.init).2
          (firstNodeAnswer quietEnv ⟨2, "v22.2.0", false⟩
            (beforeFirstNode quietEnv ⟨2, "v22.2.0", false⟩ State.init).2).1,
        ¬ StartsLaterNode ⟨2, "v22.2.0", false⟩ e) :=
  ⟨(first_node_initialisation quietEnv ⟨3, "v22.2.0", false⟩ State.init).1 rfl rfl,
    (first_node_initialisation quietEnv ⟨3, "v22.2.0", false⟩
      { State.init with gokiVolumeAlreadyExist := true }).2.2.1 rfl,
    (first_node_initialisation quietEnv ⟨2, "v22.2.0", false⟩ State.init).2.2.2.1 rfl
      (by decide) rfl⟩

/-! ## Error reporting (C25) -/

/-- A step is loud when the events it added, read off the final trace, hold a line on the
error stream whenever it returns an error. -/
theorem loud_of_trace (f : Step)
    (h : ∀ s, (f s).2.trace = s.trace ++ (f s).2.trace.drop s.trace.length ∧
      ((f s).1 ≠ none → ∃ x, Event.stderr x ∈ (f s).2.trace.drop s.trace.length)) :
    Loud f :=
  fun s => ⟨_, h s⟩

/-- The conditions of `Loud` at one state, read off the final trace. -/
theorem loud_of_added (s : State) (r : Option String × State)
    (h : r.2.trace = s.trace ++ r.2.trace.drop s.trace.length ∧
      (r.1 ≠ none → ∃ x, Event.stderr x ∈ r.2.trace.drop s.trace.length)) :
    ∃ evs, r.2.trace = s.trace ++ evs ∧ (r.1 ≠ none → ∃ x, Event.stderr x ∈ evs) :=
  ⟨_, h⟩

theorem andThen_loud {f g : Step} (hf : Loud f) (hg : Loud g) : Loud (andThen f g) := by
  intro s
  obtain ⟨evs1, h1, h2⟩ := hf s
  unfold andThen
  rcases hb : f s with ⟨_ | e, s1⟩
  · rw [hb] at h1 h2
    obtain ⟨evs2, k1, k2⟩ := hg s1
    refine ⟨evs1 ++ evs2, ?_, ?_⟩
    · dsimp only; rw [k1, h1, List.append_assoc]
    · intro he
      obtain ⟨x, hx⟩ := k2 he
      exact ⟨x, List.mem_append_right _ hx⟩
  · rw [hb] at h1 h2
    exact ⟨evs1, h1, h2⟩

theorem seqSteps_loud {l : List Step} (h : ∀ f ∈ l, Loud f) : Loud (seqSteps l) := by
  induction l with
  | nil => intro s; exact ⟨[], by simp [seqSteps], fun hx => absurd rfl hx⟩
  | cons a rest ih =>
    exact andThen_loud (h a (by simp)) (ih (fun f hf => h f (by simp [hf])))

theorem loopFrom_loud {body : Int → Step} (h : ∀ i, Loud (body i))
    (k : Nat) (i : Int) : Loud (loopFrom body k i) := by
  rw [loopFrom_eq_seqSteps]
  apply seqSteps_loud
  intro f hf
  obtain ⟨j, _, rfl⟩ := List.mem_map.1 hf
  exact h _

theorem forRange_loud {body : Int → Step} (h : ∀ i, Loud (body i))
    (lo hi : Int) : Loud (forRange lo hi body) :=
  loopFrom_loud h _ _

theorem cond_loud (c : State → Prop) [DecidablePred c] {f g : Step}
    (hf : Loud f) (hg : Loud g) :
    Loud (fun t => if c t then f t else g t) := by
  intro s
  by_cases h : c s
  · simp only [h, if_true]; exact hf s
  · simp only [h, if_false]; exact hg s

theorem done_loud : Loud (fun t => (none, t)) := by
  apply loud_of_trace
  intro s
  simp

/-- A loud step run after further events is loud from the earlier state on. -/
theorem loud_after {f : Step} (hf : Loud f) (s t : State)
    (pre : List Event) (ht : t.trace = s.trace ++ pre) :
    ∃ evs, (f t).2.trace = s.trace ++ evs ∧
      ((f t).1 ≠ none → ∃ x, Event.stderr x ∈ evs) := by
  obtain ⟨evs, h1, h2⟩ := hf t
  refine ⟨pre ++ evs, by rw [h1, ht, List.append_assoc], ?_⟩
  intro he
  obtain ⟨x, hx⟩ := h2 he
  exact ⟨x, List.mem_append_right _ hx⟩

theorem say_loud (x : String) : Loud (say x) := by
  apply loud_of_trace
  intro s
  simp [say, State.out, State.emit]

theorem execOrFail_loud (env : Env) (args : List String) (pre : String) :
    Loud (execOrFail env args pre) := by
  apply loud_of_trace
  intro s
  unfold execOrFail
  dsimp only
  split <;> simp_all [State.out, State.err, State.ran, State.ask, State.emit]

theorem checkDocker_loud (env : Env) : Loud (checkDocker env) := by
  apply loud_of_trace
  intro s
  unfold checkDocker
  dsimp only
  split <;> simp_all [State.out, State.err, State.ran, State.ask, State.emit]

theorem createGokiNetwork_loud (env : Env) : Loud (createGokiNetwork env) := by
  apply loud_of_trace
  intro s
  unfold createGokiNetwork
  dsimp only
  split <;> simp_all [State.out, State.err, State.ran, State.ask, State.emit]

theorem checkGokiContainer_loud (env : Env) : Loud (checkGokiContainer env) := by
  apply loud_of_trace
  intro s
  unfold checkGokiContainer
  dsimp only
  split
  · simp_all [State.out, State.err, State.ran, State.ask, State.emit]
  · split <;> simp_all [State.out, State.err, State.ran, State.ask, State.emit]

theorem checkGokiNetwork_loud (env : Env) : Loud (checkGokiNetwork env) := by
  apply loud_of_trace
  intro s
  unfold checkGokiNetwork
  dsimp only
  split
  · simp_all [State.out, State.err, State.ran, State.ask, State.emit]
  · split <;> simp_all [State.out, State.err, State.ran, State.ask, State.emit]

theorem checkGokiVolume_loud (env : Env) : Loud (checkGokiVolume env) := by
  apply loud_of_trace
  intro s
  unfold checkGokiVolume
  dsimp only
  split
  · simp_all [State.out, State.err, State.ran, State.ask, State.emit]
  · split
    · simp_all [State.out, State.err, State.ran, State.ask, State.emit]
    · split <;> simp_all [State.out, State.err, State.ran, State.ask, State.emit]

theorem checkNumOfNode_loud (flags : CreateCmdFlags) : Loud (checkNumOfNode flags) := by
  apply loud_of_trace
  intro s
  unfold checkNumOfNode
  split <;> simp [State.out, State.err, State.emit]

theorem createBanner_loud (flags : CreateCmdFlags) : Loud (createBanner flags) := by
  apply loud_of_trace
  intro s
  unfold createBanner
  dsimp only
  split <;> simp [State.out, State.err, State.emit]

theorem createOneVolume_loud (env : Env) (suffix : String) :
    Loud (createOneVolume env suffix) := by
  apply loud_of_trace
  intro s
  unfold createOneVolume
  dsimp only
  split <;> simp_all [State.out, State.err, State.ran, State.ask, State.emit]

theorem createGokiVolume_loud (env : Env) (flags : CreateCmdFlags) :
    Loud (createGokiVolume env flags) := by
  unfold createGokiVolume
  apply seqSteps_loud
  intro f hf
  simp only [List.mem_cons, List.mem_singleton, List.not_mem_nil, or_false] at hf
  rcases hf with rfl | rfl | rfl | rfl
  · exact say_loud _
  · exact createOneVolume_loud env _
  · exact forRange_loud (fun i => createOneVolume_loud env _) _ _
  · exact say_loud _

theorem createClientContainer_loud (env : Env) (flags : CreateCmdFlags) :
    Loud (createClientContainer env flags) := by
  apply loud_of_trace
  intro s
  unfold createClientContainer
  dsimp only
  split <;> simp_all [State.out, State.err, State.ran, State.ask, State.emit]

theorem createCertFile_loud (env : Env) (flags : CreateCmdFlags) :
    Loud (createCertFile env flags) := by
  unfold createCertFile
  apply seqSteps_loud
  intro f hf
  simp only [List.mem_cons, List.mem_singleton, List.not_mem_nil, or_false] at hf
  rcases hf with rfl | rfl | rfl | rfl | rfl | rfl | rfl | rfl
  · exact say_loud _
  · exact execOrFail_loud env _ _
  · exact forRange_loud (fun i => execOrFail_loud env _ _) _ _
  · exact execOrFail_loud env _ _
  · refine forRange_loud (fun i => ?_) _ _
    unfold certNodeStep
    apply seqSteps_loud
    intro g hg
    simp only [List.mem_cons, List.mem_singleton, List.not_mem_nil, or_false] at hg
    rcases hg with rfl | rfl
    · exact execOrFail_loud env _ _
    · exact execOrFail_loud env _ _
  · exact execOrFail_loud env _ _
  · exact execOrFail_loud env _ _
  · exact say_loud _

theorem confirmClusterStatus_loud (env : Env) : Loud (confirmClusterStatus env) := by
  apply loud_of_trace
  intro s
  unfold confirmClusterStatus
  dsimp only
  split <;> simp_all [State.out, State.err, State.ran, State.ask, State.emit]

theorem showCockroach_loud (env : Env) : Loud (showCockroach env) := by
  apply loud_of_trace
  intro s
  unfold showCockroach
  dsimp only
  split <;> simp_all [State.out, State.err, State.ran, State.ask, State.emit]

theorem showAccessCommand_loud : Loud (fun t => (none, showAccessCommand t)) := by
  apply loud_of_trace
  intro s
  simp [showAccessCommand, State.out, State.emit]

/-- The row loop of `checkGokiNode`: it adds at most a line on the error stream, and returns
an error only after writing it. -/
theorem checkGokiNodeRows_loud (g : Int) (rows : List Row) (s : State) :
    ∃ evs, (checkGokiNodeRows g rows s).2.trace = s.trace ++ evs ∧
      ((checkGokiNodeRows g rows s).1 ≠ none → ∃ x, Event.stderr x ∈ evs) := by
  induction rows with
  | nil =>
    exact ⟨[], by simp [checkGokiNodeRows], fun h => absurd rfl h⟩
  | cons r rest ih =>
    rcases r with e | ⟨id, address⟩
    · exact ⟨[Event.stderr "Scanning rows failed.\n"], rfl,
        fun _ => ⟨_, List.mem_singleton.2 rfl⟩⟩
    · unfold checkGokiNodeRows
      split
      · exact ⟨[Event.stderr _], rfl, fun _ => ⟨_, List.mem_singleton.2 rfl⟩⟩
      · exact ih

theorem checkGokiNode_loud (env : Env) (g : Int) : Loud (checkGokiNode env g) := by
  intro s
  unfold checkGokiNode
  dsimp only
  rcases ho : env.sqlOpen s.trace checkGokiNodeConnStr with _ | e
  · rcases hq : env.sqlQuery (s.emit (Event.sqlOpen checkGokiNodeConnStr)).trace
        checkGokiNodeQuery g with e | rows
    · apply loud_of_added
      simp [State.err, State.emit]
    · obtain ⟨evs, h1, h2⟩ := checkGokiNodeRows_loud g rows
        ((s.emit (Event.sqlOpen checkGokiNodeConnStr)).emit
          (Event.sqlQuery checkGokiNodeQuery g))
      refine ⟨[Event.sqlOpen checkGokiNodeConnStr, Event.sqlQuery checkGokiNodeQuery g] ++ evs,
        ?_, ?_⟩
      · dsimp only
        rw [h1]
        simp [State.emit]
      · intro he
        obtain ⟨x, hx⟩ := h2 he
        exact ⟨x, List.mem_append_right _ hx⟩
  · apply loud_of_added
    simp [State.err, State.emit]

theorem firstGokiTail_loud (env : Env) : Loud (firstGokiTail env) := by
  unfold firstGokiTail
  apply seqSteps_loud
  intro f hf
  simp only [List.mem_cons, List.mem_singleton, List.not_mem_nil, or_false] at hf
  rcases hf with rfl | rfl | rfl
  · refine cond_loud (fun t => ¬ t.gokiVolumeAlreadyExist = true) ?_ (say_loud _)
    unfold firstGokiInit
    apply seqSteps_loud
    intro g hg
    simp only [List.mem_cons, List.mem_singleton, List.not_mem_nil, or_false] at hg
    rcases hg with rfl | rfl | rfl
    · exact say_loud _
    · exact execOrFail_loud env _ _
    · exact say_loud _
  · refine cond_loud (fun t => ¬ t.gokiVolumeAlreadyExist = true) ?_ done_loud
    unfold firstGokiBootstrap
    apply seqSteps_loud
    intro g hg
    simp only [List.mem_cons, List.mem_singleton, List.not_mem_nil, or_false] at hg
    rcases hg with rfl | rfl | rfl
    · exact execOrFail_loud env _ _
    · exact execOrFail_loud env _ _
    · exact checkGokiNode_loud env 1
  · exact say_loud _

theorem createFirstGoki_loud (env : Env) (flags : CreateCmdFlags) :
    Loud (createFirstGoki env flags) := by
  intro s
  rcases hr : (firstNodeAnswer env flags s).2 with _ | e
  · obtain ⟨t, ht, _, htr⟩ := createFirstGoki_of_start env flags s hr
    rw [ht]
    exact loud_after (firstGokiTail_loud env) s t _ htr
  · obtain ⟨h1, _⟩ := createFirstGoki_start_fails env flags s e hr
    unfold firstNodeAnswer at hr
    unfold createFirstGoki at h1 ⊢
    cases hl : flags.locality with
    | true =>
      simp only [hl, if_true] at hr h1 ⊢
      simp only [State.ask, State.out, State.emit, hr] at h1 ⊢
      refine loud_of_added s (some e, _) ?_
      simp [State.err, State.ran, State.emit]
    | false =>
      simp only [hl, Bool.false_eq_true, if_false] at hr h1 ⊢
      simp only [State.ask, State.out, State.emit, hr] at h1 ⊢
      refine loud_of_added s (some e, _) ?_
      simp [State.err, State.ran, State.emit]

theorem createGokiClusterNode_loud (env : Env) (flags : CreateCmdFlags) (i : Int) :
    Loud (createGokiClusterNode env flags i) := by
  intro s
  unfold createGokiClusterNode
  dsimp only
  have htr := setLocality_trace flags i s
  rcases hr : ((setLocality flags i s).ask env (createGokiClusterArgs flags i
      (setLocality flags i s).gokiRegionId (setLocality flags i s).gokiZoneId)).2 with _ | e
  · simp only [hr]
    have hc : Loud (checkNodeUnlessReuse env i) := by
      unfold checkNodeUnlessReuse
      exact cond_loud (fun t => ¬ t.gokiVolumeAlreadyExist = true)
        (checkGokiNode_loud env i) done_loud
    refine loud_after hc s _
      [Event.exec (createGokiClusterArgs flags i (setLocality flags i s).gokiRegionId
        (setLocality flags i s).gokiZoneId),
       Event.stdout ("INFO: Created container is: " ++ ((setLocality flags i s).ask env
        (createGokiClusterArgs flags i (setLocality flags i s).gokiRegionId
          (setLocality flags i s).gokiZoneId)).1),
       Event.sleep 1] ?_
    simp [State.out, State.ran, State.emit, htr]
  · simp only [hr]
    refine loud_of_added s (some e, _) ?_
    simp [State.err, State.ran, State.emit, htr]

theorem createGokiCluster_loud (env : Env) (flags : CreateCmdFlags) :
    Loud (createGokiCluster env flags) := by
  unfold createGokiCluster
  apply seqSteps_loud
  intro f hf
  simp only [List.mem_cons, List.mem_singleton, List.not_mem_nil, or_false] at hf
  rcases hf with rfl | rfl | rfl
  · exact say_loud _
  · exact forRange_loud (fun i => createGokiClusterNode_loud env flags i) _ _
  · exact say_loud _

/-- The readiness poller reports its error: when it returns one, it has written to the error
stream. -/
theorem checkSqlConnectionLoop_loud (env : Env) (k : Nat) :
    ∀ i : Int, Loud (checkSqlConnectionLoop env k i) := by
  induction k with
  | zero => intro i s; exact ⟨[], by simp [checkSqlConnectionLoop], fun h => absurd rfl h⟩
  | succ k ih =>
    intro i s
    unfold checkSqlConnectionLoop
    dsimp only
    split
    · split
      · obtain ⟨evs, h1, h2⟩ := ih (i + 1)
          (((s.emit (Event.sleep 1)).ran checkSqlConnectionAcceptanceArgs).out
            "INFO: CockroachDB is NOT ready to accept connections.\n")
        refine ⟨[Event.sleep 1, Event.exec checkSqlConnectionAcceptanceArgs,
          Event.stdout "INFO: CockroachDB is NOT ready to accept connections.\n"] ++ evs, ?_, ?_⟩
        · rw [h1]
          simp [State.out, State.ran, State.emit]
        · intro he
          obtain ⟨x, hx⟩ := h2 he
          exact ⟨x, List.mem_append_right _ hx⟩
      · apply loud_of_added
        simp [State.out, State.err, State.ran, State.emit]
    · apply loud_of_added
      simp [State.out, State.err, State.ran, State.emit]

theorem createRunE_loud (env : Env) (flags : CreateCmdFlags) : Loud (createRunE env flags) := by
  unfold createRunE
  apply seqSteps_loud
  intro f hf
  simp only [List.mem_cons, List.mem_singleton, List.not_mem_nil, or_false] at hf
  rcases hf with rfl | rfl | rfl | rfl | rfl | rfl
  · exact checkDocker_loud env
  · exact checkGokiContainer_loud env
  · exact checkGokiNetwork_loud env
  · exact checkGokiVolume_loud env
  · exact checkNumOfNode_loud flags
  · unfold createBringUp createBringUpSteps
    apply seqSteps_loud
    intro g hg
    simp only [List.mem_cons, List.mem_singleton, List.not_mem_nil, or_false] at hg
    rcases hg with rfl | rfl | rfl | rfl | rfl | rfl | rfl | rfl | rfl | rfl | rfl | rfl
    · exact createBanner_loud flags
    · exact createGokiNetwork_loud env
    · exact createGokiVolume_loud env flags
    · exact createClientContainer_loud env flags
    · exact createCertFile_loud env flags
    · exact createFirstGoki_loud env flags
    · exact createGokiCluster_loud env flags
    · exact checkSqlConnectionLoop_loud env 10 0
    · exact confirmClusterStatus_loud env
    · exact cond_loud (fun t => ¬ t.gokiVolumeAlreadyExist = true)
        (execOrFail_loud env _ _) done_loud
    · exact showCockroach_loud env
    · exact showAccessCommand_loud

theorem listThen_loud (env : Env) (args : List String) (pre : String)
    {next : List String → Step} (hn : ∀ names, Loud (next names)) :
    Loud (listThen env args pre next) := by
  intro s
  unfold listThen
  dsimp only
  rcases hr : (s.ask env args).2 with _ | e
  · simp only [hr]
    exact loud_after (hn _) s (s.ran args) [Event.exec args] rfl
  · simp only [hr]
    refine loud_of_added s (some e, _) ?_
    simp [State.err, State.ran, State.emit]

theorem forEach_loud (env : Env) (mk : String → List String) (pre : String)
    (names : List String) : Loud (forEach names (fun c => execOrFail env (mk c) pre)) := by
  unfold forEach
  apply seqSteps_loud
  intro f hf
  obtain ⟨c, _, rfl⟩ := List.mem_map.1 hf
  exact execOrFail_loud env _ _

theorem showDeleted_loud (names : List String) (header : String) :
    Loud (fun s => (none, showDeleted names (s.out header))) := by
  intro s
  refine ⟨Event.stdout header ::
    (if names = [] then [Event.stdout "    Nothing\n"]
      else names.map (fun n => Event.stdout ("    " ++ n ++ "\n"))), ?_,
    fun h => absurd rfl h⟩
  dsimp only
  rw [showDeleted_trace]
  simp [State.out, State.emit]

theorem removePhase_loud (env : Env) (ls : List String) (pre : String)
    (mk : String → List String) (pre2 header : String) :
    Loud (removePhase env ls pre mk pre2 header) := by
  unfold removePhase
  exact listThen_loud env ls pre (fun names =>
    andThen_loud (forEach_loud env mk pre2 names) (showDeleted_loud names header))

theorem deleteGokiContainers_loud (env : Env) : Loud (deleteGokiContainers env) := by
  unfold deleteGokiContainers
  exact listThen_loud env _ _ (fun names =>
    andThen_loud (forEach_loud env killArgs _ names)
      (removePhase_loud env allListArgs "docker ps command failed: " rmArgs
        "docker rm command failed: " "  Docker Containers:\n"))

theorem deleteGokiVolume_loud (env : Env) : Loud (deleteGokiVolume env) :=
  removePhase_loud env deleteGokiVolumeLsArgs "docker volume ls command failed: "
    volumeRmArgs "docker volume rm command failed: " "  Docker Volumes:\n"

theorem deleteGokiNetwork_loud (env : Env) : Loud (deleteGokiNetwork env) := by
  intro s
  unfold deleteGokiNetwork
  dsimp only
  rcases hr : (s.ask env deleteGokiNetworkLsArgs).2 with _ | e
  · simp only [hr]
    have hshow : Loud (fun t =>
        (none, showNetwork (networkNameOf (s.ask env deleteGokiNetworkLsArgs).1)
          (t.out "  Docker Network:\n"))) := by
      apply loud_of_trace
      intro t
      unfold showNetwork
      split
      · simp [State.out, State.emit]
      · split <;> simp [State.out, State.emit]
    exact loud_after (andThen_loud
      (cond_loud (fun _ => networkNameOf (s.ask env deleteGokiNetworkLsArgs).1 ≠ "")
        (execOrFail_loud env _ _) done_loud) hshow)
      s (s.ran deleteGokiNetworkLsArgs) [Event.exec deleteGokiNetworkLsArgs] rfl
  · simp only [hr]
    refine loud_of_added s (some e, _) ?_
    simp [State.err, State.ran, State.emit]

theorem deleteGokiCluster_loud (env : Env) (flags : DeleteCmdFlags) :
    Loud (deleteGokiCluster env flags) := by
  unfold deleteGokiCluster
  apply seqSteps_loud
  intro f hf
  simp only [List.mem_cons, List.mem_singleton, List.not_mem_nil, or_false] at hf
  rcases hf with rfl | rfl | rfl
  · exact deleteGokiContainers_loud env
  · exact deleteGokiNetwork_loud env
  · exact cond_loud (fun _ => flags.volume = true) (deleteGokiVolume_loud env) done_loud

theorem deleteRunE_loud (env : Env) (flags : DeleteCmdFlags) :
    Loud (deleteRunE env flags) := by
  unfold deleteRunE
  apply seqSteps_loud
  intro f hf
  simp only [List.mem_cons, List.mem_singleton, List.not_mem_nil, or_false] at hf
  rcases hf with rfl | rfl | rfl | rfl
  · exact say_loud _
  · exact say_loud _
  · exact deleteGokiCluster_loud env flags
  · apply loud_of_trace
    intro s
    unfold deleteDone
    dsimp only
    split <;> simp [State.out, State.emit]

/-- The conditions of `LoudButAbsent` at one state, read off the final trace. -/
theorem absent_of_added (id : Int) (s : State) (r : Option String × State)
    (h : r.2.trace = s.trace ++ r.2.trace.drop s.trace.length ∧
      (∀ e, r.1 = some e →
        (∃ x, Event.stderr x ∈ r.2.trace.drop s.trace.length) ∨ e = doesNotExist id)) :
    ∃ evs, r.2.trace = s.trace ++ evs ∧
      (∀ e, r.1 = some e → (∃ x, Event.stderr x ∈ evs) ∨ e = doesNotExist id) :=
  ⟨_, h⟩

theorem gokiIsDead_loud (env : Env) (id : Int) :
    LoudButAbsent id (gokiIsDeadStep env id) := by
  intro s
  unfold gokiIsDeadStep gokiIsDead
  dsimp only
  rcases h1 : (s.ask env liveListArgs).2 with _ | e
  · simp only [h1]
    split
    · refine absent_of_added id s (none, _) ?_
      simp [State.ran, State.emit]
    · rcases h2 : ((s.ran liveListArgs).ask env allListArgs).2 with _ | e
      · simp only [h2]
        split
        · refine absent_of_added id s (none, _) ?_
          simp [State.ran, State.emit]
        · refine absent_of_added id s (some _, _) ?_
          simp [State.ran, State.emit, doesNotExist]
      · simp only [h2]
        refine absent_of_added id s (some e, _) ?_
        simp [State.err, State.ran, State.emit]
  · simp only [h1]
    refine absent_of_added id s (some e, _) ?_
    simp [State.err, State.ran, State.emit]

/-- What `gokiJet` and `gokiRevive` share: classify with `gokiIsDead`, refuse one of the two
classes with a line on the error stream, and run a loud step on the other. -/
theorem classify_then_loud (env : Env) (id : Int) (f : Step)
    (act : Step) (refuse : Bool) (msg line : String) (hact : Loud act)
    (hf : ∀ s, f s =
      match gokiIsDead env id s with
      | ((_, some e), s1) => (some e, s1)
      | ((b, none), s1) => if b = refuse then (some msg, s1.err line) else act s1) :
    LoudButAbsent id f := by
  intro s
  obtain ⟨evs, h1, h2⟩ := gokiIsDead_loud env id s
  unfold gokiIsDeadStep at h1 h2
  rw [hf s]
  rcases hg : gokiIsDead env id s with ⟨⟨b, _ | e⟩, s1⟩
  · rw [hg] at h1 h2
    dsimp only at h1 h2 ⊢
    by_cases hb : b = refuse
    · rw [if_pos hb]
      refine ⟨evs ++ [Event.stderr line], ?_, ?_⟩
      · simp [State.err, State.emit, h1]
      · intro e _
        exact Or.inl ⟨line, by simp⟩
    · rw [if_neg hb]
      obtain ⟨evs2, k1, k2⟩ := hact s1
      refine ⟨evs ++ evs2, by rw [k1, h1, List.append_assoc], ?_⟩
      intro e he
      obtain ⟨x, hx⟩ := k2 (by rw [he]; simp)
      exact Or.inl ⟨x, List.mem_append_right _ hx⟩
  · rw [hg] at h1 h2
    dsimp only at h1 h2 ⊢
    refine ⟨evs, h1, ?_⟩
    intro e2 he2
    rcases h2 e2 he2 with ⟨x, hx⟩ | h
    · exact Or.inl ⟨x, hx⟩
    · exact Or.inr h

theorem gokiJet_loud (env : Env) (id : Int) : LoudButAbsent id (gokiJet env id) := by
  refine classify_then_loud env id _ (killGokiContainer env id) true
    "the specified container is not running"
    (gokiResourceName ++ "-" ++ itoa id ++ " is not running\n") ?_ ?_
  · unfold killGokiContainer
    apply seqSteps_loud
    intro f hf
    simp only [List.mem_cons, List.mem_singleton, List.not_mem_nil, or_false] at hf
    rcases hf with rfl | rfl
    · exact execOrFail_loud env _ _
    · exact say_loud _
  · intro s
    unfold gokiJet
    rcases hg : gokiIsDead env id s with ⟨⟨b, _ | e⟩, s1⟩
    · cases b <;> rfl
    · cases b <;> rfl

theorem gokiRevive_loud (env : Env) (id : Int) : LoudButAbsent id (gokiRevive env id) := by
  refine classify_then_loud env id _ (reviveGokiContainer env id) false
    "the specified container is running"
    (gokiResourceName ++ "-" ++ itoa id ++ " is running\n") ?_ ?_
  · unfold reviveGokiContainer
    apply seqSteps_loud
    intro f hf
    simp only [List.mem_cons, List.mem_singleton, List.not_mem_nil, or_false] at hf
    rcases hf with rfl | rfl
    · exact execOrFail_loud env _ _
    · exact say_loud _
  · intro s
    unfold gokiRevive
    rcases hg : gokiIsDead env id s with ⟨⟨b, _ | e⟩, s1⟩
    · cases b <;> rfl
    · cases b <;> rfl


/-- C25 (the code at the failing input): for a node whose name is in neither listing, with
both listings successful, `gokiIsDead` returns the does-not-exist error in the state the two
listings left, and `gokiJet` and `gokiRevive` return that error as it is: the trace holds the
two listing commands and nothing else, so nothing was written to the error stream.  Every
other error return does write first: a failed running-only listing is reported on the error
stream before its error is returned; `gokiIsDead`, `gokiJet` and `gokiRevive` have written to
the error stream whenever they return an error other than the does-not-exist error; and the
whole `create` command and the whole `delete` command have written to the error stream
whenever they return an error. -/
theorem absent_error_is_not_written (env : Env) (id : Int) (flags : CreateCmdFlags)
    (dflags : DeleteCmdFlags) :
    (∀ s : State, (s.ask env liveListArgs).2 = none →
      ((s.ran liveListArgs).ask env allListArgs).2 = none →
      gokiName id ∉ runningNames env s → gokiName id ∉ allNames env s →
        gokiIsDead env id s =
          ((false, some (doesNotExist id)), (s.ran liveListArgs).ran allListArgs) ∧
        gokiJet env id s = (some (doesNotExist id), (s.ran liveListArgs).ran allListArgs) ∧
        gokiRevive env id s = (some (doesNotExist id), (s.ran liveListArgs).ran allListArgs) ∧
        ((s.ran liveListArgs).ran allListArgs).trace =
          s.trace ++ [Event.exec liveListArgs, Event.exec allListArgs]) ∧
    (∀ (s : State) (e : String), (s.ask env liveListArgs).2 = some e →
      gokiIsDead env id s =
        ((false, some e),
          (s.ran liveListArgs).err
            ("docker ps command failed: " ++ (s.ask env liveListArgs).1 ++ "\n"))) ∧
    LoudButAbsent id (gokiIsDeadStep env id) ∧
    LoudButAbsent id (gokiJet env id) ∧
    LoudButAbsent id (gokiRevive env id) ∧
    Loud (createRunE env flags) ∧
    Loud (deleteRunE env dflags) := by
  refine ⟨?_, ?_, gokiIsDead_loud env id, gokiJet_loud env id, gokiRevive_loud env id,
    createRunE_loud env flags, deleteRunE_loud env dflags⟩
  · intro s h1 h2 hr ha
    have he := gokiIsDead_eval env id s h1 h2
    simp only [hr, ha, if_false] at he
    refine ⟨he, ?_, ?_, ?_⟩
    · unfold gokiJet
      rw [he]
    · unfold gokiRevive
      rw [he]
    · simp [State.ran, State.emit]
  · intro s e h1
    unfold gokiIsDead
    simp only [h1]

theorem absent_error_is_not_written_witness :
    gokiIsDead quietEnv 1 State.init =
      ((false, some (doesNotExist 1)), (State.init.ran liveListArgs).ran allListArgs) ∧
    gokiJet quietEnv 1 State.init =
      (some (doesNotExist 1), (State.init.ran liveListArgs).ran allListArgs) ∧
    gokiRevive quietEnv 1 State.init =
      (some (doesNotExist 1), (State.init.ran liveListArgs).ran allListArgs) ∧
    ((State.init.ran liveListArgs).ran allListArgs).trace =
      State.init.trace ++ [Event.exec liveListArgs, Event.exec allListArgs] ∧
    gokiIsDead dockerDownEnv 1 State.init =
      ((false, some "exit status 1"),
        (State.init.ran liveListArgs).err
          ("docker ps command failed: " ++
            (State.init.ask dockerDownEnv liveListArgs).1 ++ "\n")) :=
  ⟨((absent_error_is_not_written quietEnv 1 ⟨1, "v22.2.0", false⟩ ⟨false⟩).1 State.init
      (by decide) (by decide) (by decide) (by decide)).1,
    ((absent_error_is_not_written quietEnv 1 ⟨1, "v22.2.0", false⟩ ⟨false⟩).1 State.init
      (by decide) (by decide) (by decide) (by decide)).2.1,
    ((absent_error_is_not_written quietEnv 1 ⟨1, "v22.2.0", false⟩ ⟨false⟩).1 State.init
      (by decide) (by decide) (by decide) (by decide)).2.2.1,
    ((absent_error_is_not_written quietEnv 1 ⟨1, "v22.2.0", false⟩ ⟨false⟩).1 State.init
      (by decide) (by decide) (by decide) (by decide)).2.2.2,
    (absent_error_is_not_written dockerDownEnv 1 ⟨1, "v22.2.0", false⟩ ⟨false⟩).2.1 State.init
      "exit status 1" (by decide)⟩

end Goki
